import Mathlib

/-!
Shallow embedding of the insight-studio-backend validation core
(src/validation/base.py, src/validation/field_validator.py,
src/validation/sheet_validator.py, src/validation/model_validator.py,
src/api/model_validator.py) and proofs about the frozen claims.

Python strings are modelled as lists of characters (`Str`), rows as
association lists from column names to cell values, and pandas DataFrames
as lists of (index, row) pairs in iteration order.
-/

namespace Insight

/-- Python strings are modelled as lists of characters. -/
abbrev Str := List Char

/-- Coerce a Lean string literal to the embedding's string type. -/
def chars (s : String) : Str := s.data

/-- Whitespace characters recognised by Python's str.strip (ASCII subset). -/
def pyIsWS (c : Char) : Bool :=
  c = ' ' || c = '\t' || c = '\n' || c = '\x0d' || c = '\x0b' || c = '\x0c'

/-- Python str.upper on a single ASCII character. -/
def pyUpperChar (c : Char) : Char :=
  if c = 'a' then 'A' else if c = 'b' then 'B' else if c = 'c' then 'C'
  else if c = 'd' then 'D' else if c = 'e' then 'E' else if c = 'f' then 'F'
  else if c = 'g' then 'G' else if c = 'h' then 'H' else if c = 'i' then 'I'
  else if c = 'j' then 'J' else if c = 'k' then 'K' else if c = 'l' then 'L'
  else if c = 'm' then 'M' else if c = 'n' then 'N' else if c = 'o' then 'O'
  else if c = 'p' then 'P' else if c = 'q' then 'Q' else if c = 'r' then 'R'
  else if c = 's' then 'S' else if c = 't' then 'T' else if c = 'u' then 'U'
  else if c = 'v' then 'V' else if c = 'w' then 'W' else if c = 'x' then 'X'
  else if c = 'y' then 'Y' else if c = 'z' then 'Z' else c

/-- Python str.upper. -/
def pyUpper (s : Str) : Str := s.map pyUpperChar

/-- Python str.strip (both ends). -/
def pyStrip (s : Str) : Str :=
  ((s.dropWhile pyIsWS).reverse.dropWhile pyIsWS).reverse

/-- base.clean_json_str replacement for one character (the replacement
dictionary of special characters). -/
def replaceChar (c : Char) : Str :=
  if c = '‘' then chars "\x27" else if c = '’' then chars "\x27"
  else if c = '“' then chars "\"" else if c = '”' then chars "\""
  else if c = '´' then chars "\x27" else if c = '–' then chars "-"
  else if c = '—' then chars "-" else if c = '−' then chars "-"
  else if c = '×' then chars "*" else if c = '÷' then chars "/"
  else if c = '±' then chars "+/-" else if c = '√' then chars "sqrt"
  else if c = '∞' then chars "inf" else if c = '©' then chars "(c)"
  else if c = '®' then chars "(r)" else if c = '™' then chars "(tm)"
  else if c = '…' then chars "..." else if c = '•' then chars "*"
  else if c = '≥' then chars ">=" else if c = '≤' then chars "<="
  else if c = '≠' then chars "!=" else if c = '→' then chars "->"
  else [c]

/-- base.clean_json_str: fold special characters to ASCII equivalents. -/
def clean_json_str (s : Str) : Str := (s.map replaceChar).flatten

/-- base.NULL_VALUE. -/
def NULL_VALUE : Str := chars "<NULL>"

/-- base.COMMENT_PREFIXES. -/
def COMMENT_PREFIXES : List Str := [chars "COMMENT", chars "--", chars "#"]

/-- base.is_comment: text starts (after strip+upper) with COMMENT, -- or #. -/
def is_comment (text : Str) : Bool :=
  if text = [] then false
  else COMMENT_PREFIXES.any (fun p => p.isPrefixOf (pyUpper (pyStrip text)))

/-- base.is_row_to_skip: empty, `<NULL>`, heading repeat, or comment. -/
def is_row_to_skip (value heading : Str) : Bool :=
  let text := pyUpper (pyStrip value)
  decide (text = []) || text == pyUpper NULL_VALUE || text == pyUpper heading
    || is_comment value

/-- base.is_empty on a string value: blank or `<NULL>` (case-insensitive). -/
def is_empty_str (s : Str) : Bool :=
  pyStrip s = [] || pyUpper (pyStrip s) == pyUpper NULL_VALUE

/-- A spreadsheet cell value: absent/None/NaN, a string, a boolean, or an
integer. -/
inductive Cell where
  | none : Cell
  | str : Str → Cell
  | bool : Bool → Cell
  | int : Int → Cell
deriving DecidableEq

/-- A row, as produced by DataFrame.iterrows().to_dict(): an association
list from column names to cell values. -/
abbrev Row := List (Str × Cell)

/-- The decimal digit characters. -/
def digitChar : Nat → Char
  | 0 => '0' | 1 => '1' | 2 => '2' | 3 => '3' | 4 => '4'
  | 5 => '5' | 6 => '6' | 7 => '7' | 8 => '8' | _ => '9'

/-- Decimal digits of a natural number, with enough fuel for the number of
digits. -/
def natToCharsAux : Nat → Nat → Str
  | 0, _ => []
  | fuel + 1, n =>
      if n < 10 then [digitChar n]
      else natToCharsAux fuel (n / 10) ++ [digitChar (n % 10)]

/-- Decimal digits of a natural number (Python str() of a nonnegative int). -/
def natToChars (n : Nat) : Str := natToCharsAux (n + 1) n

/-- Python str() of an integer. -/
def intToChars (n : Int) : Str :=
  if n < 0 then '-' :: natToChars n.natAbs else natToChars n.natAbs

/-- base.get_str_value: read a field as a cleaned, stripped string,
returning `<NULL>` when empty or missing. -/
def get_str_value (row : Row) (key : Str) : Str :=
  match row.lookup key with
  | Option.none => NULL_VALUE
  | some Cell.none => NULL_VALUE
  | some (Cell.str s) =>
      let stripped := pyStrip (clean_json_str s)
      if stripped ≠ [] then stripped else NULL_VALUE
  | some (Cell.bool b) => if b then chars "TRUE" else chars "FALSE"
  | some (Cell.int n) =>
      let result := pyStrip (intToChars n)
      if result ≠ [] then clean_json_str result else NULL_VALUE

/-- base.convert_string_to_bool. -/
def convert_string_to_bool (value : Str) : Bool :=
  let upperVal := pyUpper (pyStrip value)
  upperVal == chars "TRUE" || upperVal == chars "1"

/-- Python str.lower on a single ASCII character. -/
def pyLowerChar (c : Char) : Char :=
  if c = 'A' then 'a' else if c = 'B' then 'b' else if c = 'C' then 'c'
  else if c = 'D' then 'd' else if c = 'E' then 'e' else if c = 'F' then 'f'
  else if c = 'G' then 'g' else if c = 'H' then 'h' else if c = 'I' then 'i'
  else if c = 'J' then 'j' else if c = 'K' then 'k' else if c = 'L' then 'l'
  else if c = 'M' then 'm' else if c = 'N' then 'n' else if c = 'O' then 'o'
  else if c = 'P' then 'p' else if c = 'Q' then 'q' else if c = 'R' then 'r'
  else if c = 'S' then 's' else if c = 'T' then 't' else if c = 'U' then 'u'
  else if c = 'V' then 'v' else if c = 'W' then 'w' else if c = 'X' then 'x'
  else if c = 'Y' then 'y' else if c = 'Z' then 'z' else c

/-- Python str.lower. -/
def pyLower (s : Str) : Str := s.map pyLowerChar

/-- Python str.replace (all non-overlapping occurrences, left to right),
fuel-bounded by the input length. -/
def replaceSubAux (needle repl : Str) : Nat → Str → Str
  | _, [] => []
  | 0, s => s
  | fuel + 1, c :: cs =>
      if needle.isPrefixOf (c :: cs) then
        repl ++ replaceSubAux needle repl fuel ((c :: cs).drop needle.length)
      else c :: replaceSubAux needle repl fuel cs

/-- Python str.replace; the needle is non-empty at every call site (an
empty needle leaves the string unchanged here). -/
def replaceSub (s needle repl : Str) : Str :=
  if needle = [] then s else replaceSubAux needle repl s.length s

/-- base.VALID_ALGORITHM_EVENTS. -/
def VALID_ALGORITHM_EVENTS : List Str :=
  [chars "MODULE", chars "ASSESSMENT", chars "FINDING"]

/-- base.VALID_RELATIONSHIP_TYPE_CODES; sheet_validator\x27s
VALID_RELATIONSHIP_TYPES is the same five names as a set. -/
def VALID_RELATIONSHIP_TYPE_CODES : List Str :=
  [chars "DIFFERENTIAL", chars "COMORBID", chars "SUBTYPE",
   chars "EXCLUDES", chars "RELATED"]

/-- base.normalize_algorithm: canonicalise function names, operators and
boolean literals of an algorithm expression. -/
def normalize_algorithm (algorithm : Str) : Str :=
  if algorithm == ([] : Str) || pyUpper algorithm == pyUpper NULL_VALUE then
    NULL_VALUE
  else if pyUpper algorithm == chars "START"
      || pyUpper algorithm == chars "IS_COMPLETE" then
    pyLower algorithm
  else
    let r := algorithm
    let r := replaceSub r (chars "FACT(") (chars "fact(")
    let r := replaceSub r (chars "FACTS(") (chars "fact(")
    let r := replaceSub r (chars "GROUPS(") (chars "groups(")
    let r := replaceSub r (chars "GROUP(") (chars "groups(")
    let r := replaceSub r (chars " OR ") (chars " or ")
    let r := replaceSub r (chars " AND ") (chars " and ")
    let r := replaceSub r (chars " || ") (chars " or ")
    let r := replaceSub r (chars " && ") (chars " and ")
    let r := replaceSub r (chars " NOT ") (chars " not ")
    let r := replaceSub r (chars ".RESPONSE(") (chars ".response(")
    let r := replaceSub r (chars ".RESPONSES(") (chars ".response(")
    let r := replaceSub r (chars " = ") (chars " == ")
    let r := replaceSub r (chars " => ") (chars " >= ")
    let r := replaceSub r (chars " =< ") (chars " <= ")
    let r := replaceSub r (chars "(true)") (chars "(True)")
    let r := replaceSub r (chars "(TRUE)") (chars "(True)")
    let r := replaceSub r (chars "== true") (chars "== True")
    let r := replaceSub r (chars "== TRUE") (chars "== True")
    let r := replaceSub r (chars "(false)") (chars "(False)")
    let r := replaceSub r (chars "(FALSE)") (chars "(False)")
    let r := replaceSub r (chars "== false") (chars "== False")
    let r := replaceSub r (chars "== FALSE") (chars "== False")
    r

/-- The anchored ICD-10 pattern of _validate_findings_row (a capital
letter, two digits, then optionally a dot and one to four digits). -/
def icdFormat : Str → Bool
  | c :: d1 :: d2 :: rest =>
      (decide ('A' ≤ c) && decide (c ≤ 'Z')) && d1.isDigit && d2.isDigit &&
      (match rest with
       | [] => true
       | '.' :: ds =>
           decide (ds ≠ []) && decide (ds.length ≤ 4) && ds.all Char.isDigit
       | _ => false)
  | _ => false

/-! ## Issue model (base.py dataclasses) -/

/-- Issue severities ("error" | "warning" | "info"). -/
inductive Severity where
  | error : Severity
  | warning : Severity
  | info : Severity
deriving DecidableEq

/-- base.ValidationIssue (diagnostic-aid fields omitted; sheet, row, field,
severity and message are the semantically relevant ones). -/
structure ValidationIssue where
  sheet : Str
  row : Option Nat
  field : Option Str
  severity : Severity
  message : Str
deriving DecidableEq

/-- base.ValidationCategory. -/
structure ValidationCategory where
  name : Str
  passed : Bool := true
  error_count : Nat := 0
  warning_count : Nat := 0
  info_count : Nat := 0
  issues : List ValidationIssue := []
deriving DecidableEq

/-- base.ValidationCategory.add_issue. -/
def ValidationCategory.add_issue (c : ValidationCategory)
    (i : ValidationIssue) : ValidationCategory :=
  let c := { c with issues := c.issues ++ [i] }
  match i.severity with
  | Severity.error => { c with error_count := c.error_count + 1, passed := false }
  | Severity.warning => { c with warning_count := c.warning_count + 1 }
  | Severity.info => { c with info_count := c.info_count + 1 }

/-- base.ValidationResult, extended with the ModelValidationResult
categories field (empty for plain results).  The timestamp is the
datetime.now() value recorded at construction, modelled as a number
supplied by the caller. -/
structure ValidationResult where
  is_valid : Bool
  level : Nat
  issues : List ValidationIssue := []
  timestamp : Nat := 0
  categories : List (Str × ValidationCategory) := []
deriving DecidableEq

/-- base.ValidationResult.add_issue. -/
def ValidationResult.add_issue (r : ValidationResult)
    (i : ValidationIssue) : ValidationResult :=
  { r with issues := r.issues ++ [i],
           is_valid := if i.severity = Severity.error then false else r.is_valid }

/-- base.ValidationResult.merge. -/
def ValidationResult.mergeWith (r other : ValidationResult) : ValidationResult :=
  { r with issues := r.issues ++ other.issues,
           is_valid := if other.is_valid = false then false else r.is_valid,
           level := max r.level other.level }

/-- base.ModelValidationResult.add_category. -/
def ValidationResult.add_category (r : ValidationResult)
    (c : ValidationCategory) : ValidationResult :=
  { r with categories := r.categories ++ [(c.name, c)],
           issues := r.issues ++ c.issues,
           is_valid := if c.passed = false then false else r.is_valid }

/-- A fresh ValidationResult(is_valid=True, level=level), as constructed at
the start of every validator entry point. -/
def freshResult (level : Nat) (timestamp : Nat) : ValidationResult :=
  { is_valid := true, level := level, timestamp := timestamp }

/-- A fresh ValidationCategory(name=name). -/
def freshCategory (name : Str) : ValidationCategory := { name := name }

/-- Fold a list of issues into a result via add_issue (the way every
validator populates its result). -/
def addIssues (r : ValidationResult) (is : List ValidationIssue) :
    ValidationResult :=
  is.foldl ValidationResult.add_issue r

/-- Fold a list of issues into a category via add_issue. -/
def catAddIssues (c : ValidationCategory) (is : List ValidationIssue) :
    ValidationCategory :=
  is.foldl ValidationCategory.add_issue c

/-! ## Level 1: field validation (field_validator.py) -/

/-- excel_io.ColumnDefinition (fields consumed by validate_field).  The
per-field regular expression is modelled as a decidable predicate (the
truth value of re.match(pattern, value)). -/
structure ColumnDefinition where
  name : Str
  display_name : Str
  data_type : Str
  required : Bool
  max_length : Option Nat := Option.none
  unique : Bool := false
  pattern : Option (Str → Bool) := Option.none
  pattern_message : Str := []

/-- Python str() of a cell value. -/
def pyStr : Cell → Str
  | Cell.none => chars "None"
  | Cell.str s => s
  | Cell.bool b => if b then chars "True" else chars "False"
  | Cell.int n => intToChars n

/-- Python truthiness of a cell value. -/
def cellTruthy : Cell → Bool
  | Cell.none => false
  | Cell.str s => decide (s ≠ [])
  | Cell.bool b => b
  | Cell.int n => decide (n ≠ 0)

/-- The emptiness test used by validate_field:
value is None or (isinstance(value, str) and value.strip() == ""). -/
def fieldValueEmpty : Cell → Bool
  | Cell.none => true
  | Cell.str s => pyStrip s == []
  | _ => false

/-- After a leading digit, Python int() accepts further digits with single
underscores allowed only between digits. -/
def strIntDigitsRest : Str → Bool
  | [] => true
  | '_' :: c :: r => c.isDigit && strIntDigitsRest r
  | ['_'] => false
  | c :: r => c.isDigit && strIntDigitsRest r

/-- Python int(s) succeeds on a string: optional sign, then digits grouped
by optional single underscores (no leading/trailing/doubled underscore). -/
def strIntParseable (s : Str) : Bool :=
  let t := pyStrip s
  let t := match t with
    | '+' :: r => r
    | '-' :: r => r
    | r => r
  match t with
  | [] => false
  | c :: r => c.isDigit && strIntDigitsRest r

/-- Python int(value) succeeds (for the cell kinds reaching the check). -/
def cellIntParseable : Cell → Bool
  | Cell.none => false
  | Cell.str s => strIntParseable s
  | Cell.bool _ => true
  | Cell.int _ => true

/-- Uppercase normalisation used by the uniqueness check:
str(v).strip().upper(). -/
def uniqueNorm (v : Cell) : Str := pyUpper (pyStrip (pyStr v))

/-- The value-cleaning step at the top of validate_field: strings pass
through clean_json_str, other cells are unchanged. -/
def cleanCell : Cell → Cell
  | Cell.str s => Cell.str (clean_json_str s)
  | v => v

/-- The string rendering used by the string type check (the value itself
for strings, str(value) otherwise). -/
def svalOf : Cell → Str
  | Cell.str s => s
  | v => pyStr v

/-- The data-type block of validate_field (string max length + pattern,
boolean literal set, integer parseability), applied to the cleaned
non-empty value. -/
def validate_field_type (field_name : Str) (value : Cell) (sheet_name : Str)
    (column_def : ColumnDefinition) (result : ValidationResult) :
    ValidationResult :=
  if column_def.data_type == chars "string" then
    let sval := svalOf value
    let result :=
      match column_def.max_length with
      | some m =>
          if decide (m ≠ 0) && decide (sval.length > m) then
            result.add_issue
              { sheet := sheet_name, row := Option.none,
                field := some field_name, severity := Severity.error,
                message := column_def.display_name ++ chars " must be "
                  ++ natToChars m ++ chars " characters or less" }
          else result
      | Option.none => result
    match column_def.pattern with
    | some p =>
        if p sval then result
        else
          result.add_issue
            { sheet := sheet_name, row := Option.none,
              field := some field_name, severity := Severity.warning,
              message :=
                if column_def.pattern_message ≠ [] then
                  column_def.pattern_message
                else column_def.display_name
                  ++ chars " format is not recommended" }
    | Option.none => result
  else if column_def.data_type == chars "boolean" then
    match value with
    | Cell.bool _ => result
    | Cell.str s =>
        if [chars "TRUE", chars "FALSE", chars "YES", chars "NO",
            chars "1", chars "0"].contains (pyUpper s) then
          result
        else
          result.add_issue
            { sheet := sheet_name, row := Option.none,
              field := some field_name, severity := Severity.error,
              message := column_def.display_name
                ++ chars " must be a boolean value" }
    | _ => result
  else if column_def.data_type == chars "integer" then
    if cellIntParseable value then result
    else
      result.add_issue
        { sheet := sheet_name, row := Option.none,
          field := some field_name, severity := Severity.error,
          message := column_def.display_name
            ++ chars " must be an integer" }
  else result

/-- The uniqueness block of validate_field: case-insensitive comparison of
the cleaned value against the supplied existing values, excluding the
row\x27s own prior value when editing. -/
def validate_field_unique (field_name : Str) (value : Cell)
    (sheet_name : Str) (existing_values : List Cell) (is_edit : Bool)
    (original_value : Cell) (column_def : ColumnDefinition)
    (result : ValidationResult) : ValidationResult :=
  if column_def.unique && decide (existing_values ≠ []) then
    let compare_value := if cellTruthy value then uniqueNorm value else []
    let existing_upper :=
      (existing_values.filter (fun v => v ≠ Cell.none)).map uniqueNorm
    let existing_upper :=
      if is_edit && cellTruthy original_value then
        existing_upper.filter (fun v => v ≠ uniqueNorm original_value)
      else existing_upper
    if existing_upper.contains compare_value then
      result.add_issue
        { sheet := sheet_name, row := Option.none, field := some field_name,
          severity := Severity.error,
          message := column_def.display_name ++ chars " \x27"
            ++ pyStr value ++ chars "\x27 already exists" }
    else result
  else result

/-- field_validator.validate_field: validate a single field value against
its column definition (required-ness, then type, then pattern, then
uniqueness, short-circuiting when the value is empty). -/
def validate_field (field_name : Str) (value : Cell) (sheet_name : Str)
    (existing_values : List Cell) (is_edit : Bool) (original_value : Cell)
    (column_def : ColumnDefinition) : ValidationResult :=
  let result := freshResult 1 0
  let value := cleanCell value
  if column_def.required && fieldValueEmpty value then
    result.add_issue
      { sheet := sheet_name, row := Option.none, field := some field_name,
        severity := Severity.error,
        message := column_def.display_name ++ chars " is required" }
  else if fieldValueEmpty value then
    result
  else
    validate_field_unique field_name value sheet_name existing_values
      is_edit original_value column_def
      (validate_field_type field_name value sheet_name column_def result)

/-! ## Level 2: sheet validation (sheet_validator.py) -/

/-- base.VALID_DATA_TYPES. -/
def VALID_DATA_TYPES : List Str :=
  [chars "CONVERSATION", chars "ENUMERATION", chars "STATEMENT", chars "INTEGER"]

/-- base.VALID_DETERMINISTIC_VALUES. -/
def VALID_DETERMINISTIC_VALUES : List Str :=
  [chars "TRUE", chars "FALSE", chars "DELEGATE"]

/-- Python substring containment (`needle in haystack`). -/
def isSubstring (needle : Str) : Str → Bool
  | [] => needle.isPrefixOf []
  | c :: cs => needle.isPrefixOf (c :: cs) || isSubstring needle cs

/-- sheet_validator._get_primary_key_columns. -/
def get_primary_key_columns (sheet_name : Str) : List Str :=
  let sheetUpper := pyUpper sheet_name
  if sheetUpper == chars "MODULES" then [chars "moduleCode"]
  else if sheetUpper == chars "ASSESSMENTS" then [chars "assessmentCode"]
  else if sheetUpper == chars "FINDINGS" then [chars "findingCode"]
  else if sheetUpper == chars "FINDINGS RELATIONSHIPS" then []
  else if isSubstring (chars "LEVEL") sheetUpper
      && isSubstring (chars "FACTS") sheetUpper then []
  else if (chars "ENUMERATIONS").isPrefixOf sheetUpper then []
  else if (chars "ALGORITHMS").isPrefixOf sheetUpper then [chars "algorithmId"]
  else []

/-- sheet_validator._is_level_facts_sheet. -/
def is_level_facts_sheet (sheet_name : Str) : Bool :=
  isSubstring (chars "LEVEL") (pyUpper sheet_name)
    && isSubstring (chars "FACTS") (pyUpper sheet_name)

/-- The regular expression `^\d+-\d+$` used for range validation. -/
def rangeFormat (s : Str) : Bool :=
  let d1 := s.takeWhile Char.isDigit
  let rest := s.dropWhile Char.isDigit
  decide (d1 ≠ []) &&
    (match rest with
     | '-' :: d2 => decide (d2 ≠ []) && d2.all Char.isDigit
     | _ => false)

/-- Python set.add on a set modelled as an insertion-ordered list. -/
def setAdd (s : List Str) (v : Str) : List Str :=
  if s.contains v then s else s ++ [v]

/-- Python dict assignment on an association list (replace or append). -/
def mapSet {α : Type} (m : List (Str × α)) (k : Str) (l : α) :
    List (Str × α) :=
  match m with
  | [] => [(k, l)]
  | (k0, v) :: rest => if k0 == k then (k, l) :: rest else (k0, v) :: mapSet rest k l

/-- Python dict lookup with empty default for the per-assessment sets. -/
def mapFind (m : List (Str × List Str)) (k : Str) : List Str :=
  (m.lookup k).getD []

/-- Message prefix f-string "assessment='{aid}', nodeId='{nid}' - ". -/
def rowMsg (aid nid tail : Str) : Str :=
  chars "assessment=\x27" ++ aid ++ chars "\x27, nodeId=\x27" ++ nid
    ++ chars "\x27 - " ++ tail

/-- The distinct enumerationType string values of an Enumerations frame
(df['enumerationType'].dropna() as far as string equality can observe). -/
def enumTypesOf (rows : List (Nat × Row)) : List Str :=
  rows.filterMap (fun ir =>
    match (ir.2).lookup (chars "enumerationType") with
    | some (Cell.str s) => some s
    | _ => Option.none)

/-- sheet_validator._validate_level_facts_row: per-row Level-2 checks for a
Level Facts sheet.  Returns the updated per-assessment nodeId and factId sets
together with the issues appended to the result. -/
def validate_level_facts_row (row : Row) (excel_row : Nat) (sheet_name : Str)
    (node_ids_per_assessment fact_ids_per_assessment : List (Str × List Str))
    (enumerations_df : Option (List (Nat × Row))) :
    (List (Str × List Str)) × (List (Str × List Str)) × List ValidationIssue :=
  let assessment_id := pyUpper (get_str_value row (chars "assessmentId"))
  let node_id := pyUpper (get_str_value row (chars "nodeId"))
  let fact_id := pyUpper (get_str_value row (chars "factId"))
  let fact_group := pyUpper (get_str_value row (chars "factGroup"))
  let data_type := pyUpper (get_str_value row (chars "dataType"))
  let is_deterministic := pyUpper (get_str_value row (chars "isDeterministic"))
  let enumeration_type := get_str_value row (chars "enumerationType")
  let range_val := pyUpper (get_str_value row (chars "range"))
  if is_row_to_skip assessment_id (chars "assessmentId") then
    (node_ids_per_assessment, fact_ids_per_assessment, [])
  else
    let nodeIds := node_ids_per_assessment
    let factIds := fact_ids_per_assessment
    let (nodeIds, factIds) :=
      if (nodeIds.lookup assessment_id).isNone then
        (mapSet nodeIds assessment_id [], mapSet factIds assessment_id [])
      else (nodeIds, factIds)
    let mk (field : Str) (msg : Str) : ValidationIssue :=
      { sheet := sheet_name, row := some excel_row, field := some field,
        severity := Severity.error, message := msg }
    let issues : List ValidationIssue := []
    let issues := issues ++
      (if decide (node_id ≠ NULL_VALUE) && !is_comment node_id
          && (mapFind nodeIds assessment_id).contains node_id then
        [mk (chars "nodeId")
          (rowMsg assessment_id node_id (chars "duplicate nodeId found"))]
      else [])
    let nodeIds :=
      if decide (node_id ≠ NULL_VALUE) && !is_comment node_id then
        mapSet nodeIds assessment_id (setAdd (mapFind nodeIds assessment_id) node_id)
      else nodeIds
    let issues := issues ++
      (if decide (fact_id ≠ NULL_VALUE)
          && (mapFind factIds assessment_id).contains fact_id then
        [mk (chars "factId")
          (rowMsg assessment_id node_id (chars "duplicate factId=\x27" ++ fact_id
            ++ chars "\x27 found"))]
      else [])
    let factIds :=
      if decide (fact_id ≠ NULL_VALUE) then
        mapSet factIds assessment_id (setAdd (mapFind factIds assessment_id) fact_id)
      else factIds
    let issues := issues ++
      (if data_type == NULL_VALUE then
        [mk (chars "dataType") (rowMsg assessment_id node_id (chars "missing dataType"))]
      else if !VALID_DATA_TYPES.contains data_type then
        [mk (chars "dataType")
          (rowMsg assessment_id node_id (chars "invalid dataType=\x27" ++ data_type
            ++ chars "\x27"))]
      else [])
    let issues := issues ++
      (if is_deterministic == NULL_VALUE then
        [mk (chars "isDeterministic")
          (rowMsg assessment_id node_id (chars "missing isDeterministic"))]
      else if !VALID_DETERMINISTIC_VALUES.contains is_deterministic then
        [mk (chars "isDeterministic")
          (rowMsg assessment_id node_id (chars "invalid isDeterministic=\x27"
            ++ is_deterministic ++ chars "\x27"))]
      else [])
    let issues := issues ++
      (if is_deterministic == chars "DELEGATE" && decide (data_type ≠ chars "ENUMERATION") then
        [mk (chars "isDeterministic")
          (rowMsg assessment_id node_id (chars "isDeterministic=\x27DELEGATE\x27"
            ++ chars " not allowed for dataType=\x27" ++ data_type ++ chars "\x27"))]
      else [])
    let issues := issues ++
      (if data_type == chars "STATEMENT" && decide (fact_id ≠ NULL_VALUE) then
        [mk (chars "factId")
          (rowMsg assessment_id node_id (chars "STATEMENT cannot have a factId"))]
      else [])
    let issues := issues ++
      (if decide (fact_group ≠ NULL_VALUE)
          && [chars "INTEGER", chars "STATEMENT", chars "CONVERSATION"].contains data_type then
        [mk (chars "factGroup")
          (rowMsg assessment_id node_id (data_type ++ chars " cannot have a factGroup"))]
      else [])
    let issues := issues ++
      (if data_type == chars "INTEGER" then
        (if range_val == NULL_VALUE then
          [mk (chars "range")
            (rowMsg assessment_id node_id (chars "range is mandatory for INTEGER"))]
        else if !rangeFormat range_val then
          [mk (chars "range")
            (rowMsg assessment_id node_id (chars "invalid range format \x27" ++ range_val
              ++ chars "\x27"))]
        else [])
      else if decide (range_val ≠ NULL_VALUE) then
        [mk (chars "range")
          (rowMsg assessment_id node_id (chars "range not allowed for " ++ data_type))]
      else [])
    let issues := issues ++
      (if data_type == chars "ENUMERATION" then
        (if enumeration_type == NULL_VALUE then
          [mk (chars "enumerationType")
            (rowMsg assessment_id node_id (chars "missing enumerationType"))]
        else
          match enumerations_df with
          | some edf =>
              if !(enumTypesOf edf).contains enumeration_type then
                [mk (chars "enumerationType")
                  (rowMsg assessment_id node_id (chars "invalid enumerationType=\x27"
                    ++ enumeration_type ++ chars "\x27"))]
              else []
          | Option.none => [])
      else [])
    (nodeIds, factIds, issues)

/-- Python str.split(sep) for a single-character separator. -/
def splitOnChar (sep : Char) : Str → List Str
  | [] => [[]]
  | c :: cs =>
      let r := splitOnChar sep cs
      if c = sep then [] :: r
      else
        match r with
        | h :: t => (c :: h) :: t
        | [] => [[c]]

/-- Target parsing shared by sheet_validator and validation/model_validator:
split on `|` when present, otherwise on `,`, stripping each element. -/
def splitTargets (target : Str) : List Str :=
  if isSubstring (chars "|") target then (splitOnChar '|' target).map pyStrip
  else (splitOnChar ',' target).map pyStrip

/-- Message of the Level-2 single-target rule. -/
def sheetCardMsg (assessment_id node_id data_type : Str) : Str :=
  rowMsg assessment_id node_id
    (chars "only single target allowed for " ++ data_type)

/-- Message of the Level-2 unresolved-target rule. -/
def sheetNotFoundMsg (assessment_id node_id t : Str) : Str :=
  rowMsg assessment_id node_id
    (chars "target=\x27" ++ t ++ chars "\x27 not found")

/-- sheet_validator._validate_level_facts_targets, for one row of the second
pass: single-target rule for non-ENUMERATION nodes and target resolvability
within the assessment's nodeId set. -/
def validate_level_facts_targets_row (row : Row) (excel_row : Nat)
    (sheet_name : Str) (node_ids_per_assessment : List (Str × List Str)) :
    List ValidationIssue :=
  let assessment_id := pyUpper (get_str_value row (chars "assessmentId"))
  let node_id := pyUpper (get_str_value row (chars "nodeId"))
  let target := pyUpper (get_str_value row (chars "target"))
  let data_type := pyUpper (get_str_value row (chars "dataType"))
  if is_row_to_skip assessment_id (chars "assessmentId") || target == NULL_VALUE then
    []
  else
    let node_id_set := mapFind node_ids_per_assessment assessment_id
    let target_list := splitTargets target
    let mk (msg : Str) : ValidationIssue :=
      { sheet := sheet_name, row := some excel_row, field := some (chars "target"),
        severity := Severity.error, message := msg }
    let issues :=
      if decide (data_type ≠ chars "ENUMERATION") && decide (target_list.length > 1) then
        [mk (sheetCardMsg assessment_id node_id data_type)]
      else []
    issues ++ target_list.filterMap (fun t =>
      if !node_id_set.contains t && decide (t ≠ chars "EXIT")
          && decide (t ≠ NULL_VALUE) then
        some (mk (sheetNotFoundMsg assessment_id node_id t))
      else Option.none)

/-- sheet_validator._validate_level_facts_targets: the whole second pass. -/
def validate_level_facts_targets (rows : List (Nat × Row)) (sheet_name : Str)
    (node_ids_per_assessment : List (Str × List Str)) : List ValidationIssue :=
  rows.flatMap (fun ir =>
    validate_level_facts_targets_row ir.2 (ir.1 + 2) sheet_name
      node_ids_per_assessment)

/-- The duplicate-primary-key detection of sheet_validator.validate_sheet,
for one row: for each declared key column, a non-null non-comment value that
was already seen (case-insensitively) yields one error attached to this row. -/
def sheetDupRow (sheet_name : Str) (primary_keys : List Str) (row : Row)
    (excel_row : Nat) (seen_values : List (Str × List Str)) :
    (List (Str × List Str)) × List ValidationIssue :=
  primary_keys.foldl
    (fun acc pk =>
      let seen := acc.1
      let issues := acc.2
      let pk_value := get_str_value row pk
      if decide (pk_value ≠ NULL_VALUE) && !is_comment pk_value then
        let pk_upper := pyUpper pk_value
        let issues := issues ++
          (if (mapFind seen pk).contains pk_upper then
            [{ sheet := sheet_name, row := some excel_row, field := some pk,
               severity := Severity.error,
               message := chars "Duplicate " ++ pk ++ chars "=\x27" ++ pk_value
                 ++ chars "\x27 found" }]
          else [])
        (mapSet seen pk (setAdd (mapFind seen pk) pk_upper), issues)
      else (seen, issues))
    (seen_values, [])

/-- The duplicate-primary-key pass of validate_sheet over a whole frame. -/
def sheetDupIssues (sheet_name : Str) (rows : List (Nat × Row)) :
    List ValidationIssue :=
  let primary_keys := get_primary_key_columns sheet_name
  (rows.foldl
    (fun acc ir =>
      let (seen, issues) := sheetDupRow sheet_name primary_keys ir.2 (ir.1 + 2) acc.1
      (seen, acc.2 ++ issues))
    (primary_keys.map (fun pk => (pk, ([] : List Str))), [])).2

/-! ## api/model_validator.py helpers and fragments -/

/-- api.model_validator.get_str_value: str(value).strip(), "" when missing. -/
def api_get_str_value (row : Row) (key : Str) : Str :=
  match row.lookup key with
  | Option.none => []
  | some Cell.none => []
  | some v => pyStrip (pyStr v)

/-- api.model_validator.is_empty on a string. -/
def api_is_empty (s : Str) : Bool :=
  decide (pyStrip s = []) || pyUpper s == NULL_VALUE

/-- One row of an enumeration type as stored by the api model validator
(value, derivedBooleanValue, tags, row). -/
structure EnumEntry where
  value : Str
  derivedBooleanValue : Option Bool
  tags : Str
  row : Nat
deriving DecidableEq

/-- Message of AS-16 (required target). -/
def as16Msg (node_id : Str) : Str :=
  chars "Target is required (nodeId: \x27" ++ node_id ++ chars "\x27)"

/-- Message of AS-17 (unresolved target). -/
def as17Msg (t node_id : Str) : Str :=
  chars "Target \x27" ++ t ++ chars "\x27 not found in sheet (nodeId: \x27"
    ++ node_id ++ chars "\x27)"

/-- Message of AS-18 (enumeration target cardinality). -/
def as18Msg (enum_type : Str) (enum_value_count : Nat) : Str :=
  chars "Target must be length 1 or same length as enumeration \x27"
    ++ enum_type ++ chars "\x27 (" ++ natToChars enum_value_count
    ++ chars " values)"

/-- Message of AS-19 (single target for non-ENUMERATION nodes). -/
def as19Msg (data_type : Str) : Str :=
  chars "Only a single target allowed for " ++ data_type ++ chars " nodes"

/-- api.model_validator._validate_level_facts, target rules AS-16..AS-19:
required target, per-element resolution against the sheet's nodeId set
(split on `|` only), ENUMERATION cardinality (1 or the enumeration's value
count) and the non-ENUMERATION single-target rule. -/
def api_validate_targets (sheet_name : Str) (idx : Nat)
    (node_id data_type enum_type target : Str)
    (all_node_ids_in_sheet : List Str)
    (enumeration_values : List (Str × List EnumEntry)) : List ValidationIssue :=
  let mk (msg : Str) : ValidationIssue :=
    { sheet := sheet_name, row := some idx, field := some (chars "target"),
      severity := Severity.error, message := msg }
  if api_is_empty target then
    [mk (as16Msg node_id)]
  else
    let targets := (splitOnChar '|' target).map pyStrip
    let notFound := targets.filterMap (fun t =>
      if decide (pyUpper t ≠ chars "EXIT") && !all_node_ids_in_sheet.contains t then
        some (mk (as17Msg t node_id))
      else Option.none)
    let card :=
      if data_type == chars "ENUMERATION"
          && (enumeration_values.lookup enum_type).isSome then
        let enum_value_count := ((enumeration_values.lookup enum_type).getD []).length
        if decide (targets.length > 1) && decide (targets.length ≠ enum_value_count) then
          [mk (as18Msg enum_type enum_value_count)]
        else []
      else if decide (data_type ≠ chars "ENUMERATION") && decide (targets.length > 1) then
        [mk (as19Msg data_type)]
      else []
    notFound ++ card

/-! ## Level 3: model build (validation/model_validator.py) -/

/-- Module record built by FullModelValidator._build_modules. -/
structure ModuleRec where
  row : Nat
  sheet : Str
  moduleCode : Str
  isUserAssignable : Str
  name : Str
  clientFriendlyName : Str
  description : Str
  estimatedDuration : Str
deriving DecidableEq

/-- Assessment record built by FullModelValidator._build_assessments. -/
structure AssessmentRec where
  row : Nat
  sheet : Str
  assessmentCode : Str
  assessmentId : Str
  moduleCode : Str
  isUserAssignable : Str
  name : Str
  clientFriendlyName : Str
  description : Str
  estimatedDuration : Str
deriving DecidableEq

/-- Node record built by FullModelValidator._build_grouped_nodes. -/
structure NodeRec where
  sheet : Str
  row : Nat
  nodeId : Str
  assessmentId : Str
  factId : Str
  factGroup : Str
  nodeText : Str
  dataType : Str
  isDeterministic : Str
  range : Str
  enumerationType : Str
  target : Str
  restartPoint : Bool
deriving DecidableEq

/-- Per-assessment node group built by _build_grouped_nodes. -/
structure GroupEntry where
  nodes : List NodeRec
  row : Nat
  sheet : Str
  cross_sheet_reported : Bool
deriving DecidableEq

/-- FullModelValidator._build_modules, one row: skip empty/comment key rows,
record a duplicate error (excluding the row) on a repeated moduleCode,
otherwise insert the module record. -/
def build_modules_step (st : (List (Str × ModuleRec)) × List ValidationIssue)
    (ir : Nat × Row) : (List (Str × ModuleRec)) × List ValidationIssue :=
  let row := ir.2
  let module_code0 := get_str_value row (chars "moduleCode")
  if module_code0 == NULL_VALUE || is_comment module_code0 then st
  else
    let module_code := pyUpper module_code0
    match st.1.lookup module_code with
    | some _ =>
        (st.1, st.2 ++
          [{ sheet := chars "Modules", row := some ir.1,
             field := some (chars "moduleCode"), severity := Severity.error,
             message := chars "Duplicate moduleCode=\x27" ++ module_code
               ++ chars "\x27" }])
    | Option.none =>
        (st.1 ++ [(module_code,
          { row := ir.1, sheet := chars "Modules", moduleCode := module_code,
            isUserAssignable := pyUpper (get_str_value row (chars "isUserAssignable")),
            name := get_str_value row (chars "name"),
            clientFriendlyName := get_str_value row (chars "clientFriendlyName"),
            description := get_str_value row (chars "description"),
            estimatedDuration := get_str_value row (chars "estimatedDuration") })],
         st.2)

/-- FullModelValidator._build_modules over the Modules frame. -/
def build_modules (rows : List (Nat × Row)) :
    (List (Str × ModuleRec)) × List ValidationIssue :=
  rows.foldl build_modules_step ([], [])

/-- FullModelValidator._build_assessments, one row. -/
def build_assessments_step
    (st : (List (Str × AssessmentRec)) × List ValidationIssue)
    (ir : Nat × Row) : (List (Str × AssessmentRec)) × List ValidationIssue :=
  let row := ir.2
  let assessment_code0 := get_str_value row (chars "assessmentCode")
  if assessment_code0 == NULL_VALUE || is_comment assessment_code0 then st
  else
    let assessment_code := pyUpper assessment_code0
    match st.1.lookup assessment_code with
    | some _ =>
        (st.1, st.2 ++
          [{ sheet := chars "Assessments", row := some ir.1,
             field := some (chars "assessmentCode"), severity := Severity.error,
             message := chars "Duplicate assessmentCode=\x27" ++ assessment_code
               ++ chars "\x27" }])
    | Option.none =>
        (st.1 ++ [(assessment_code,
          { row := ir.1, sheet := chars "Assessments",
            assessmentCode := assessment_code, assessmentId := assessment_code,
            moduleCode := pyUpper (get_str_value row (chars "moduleCode")),
            isUserAssignable := pyUpper (get_str_value row (chars "isUserAssignable")),
            name := get_str_value row (chars "name"),
            clientFriendlyName := get_str_value row (chars "clientFriendlyName"),
            description := get_str_value row (chars "description"),
            estimatedDuration := get_str_value row (chars "estimatedDuration") })],
         st.2)

/-- FullModelValidator._build_assessments over the Assessments frame. -/
def build_assessments (rows : List (Nat × Row)) :
    (List (Str × AssessmentRec)) × List ValidationIssue :=
  rows.foldl build_assessments_step ([], [])

/-- State carried by _build_grouped_nodes: the per-assessment node groups,
the global factId and factGroup namespaces, and the build issues. -/
structure GNState where
  grouped : List (Str × GroupEntry)
  fact_id_set : List Str
  fact_group_set : List Str
  issues : List ValidationIssue
deriving DecidableEq

/-- The empty _build_grouped_nodes state. -/
def gnInit : GNState := { grouped := [], fact_id_set := [], fact_group_set := [], issues := [] }

/-- FullModelValidator._build_grouped_nodes, one row of one Level Facts
sheet: skip comment/empty/heading rows; group the node under its
assessmentId (reporting a cross-sheet split once per assessment and
excluding rows from the second sheet); extend the factId and factGroup
namespaces. -/
def build_grouped_step (sheet_name : Str) (st : GNState) (ir : Nat × Row) :
    GNState :=
  let row := ir.2
  let node_id0 := get_str_value row (chars "nodeId")
  if is_row_to_skip node_id0 (chars "nodeId") then st
  else
    let node_id := pyUpper node_id0
    let assessment_id := pyUpper (get_str_value row (chars "assessmentId"))
    let fact_id := pyUpper (get_str_value row (chars "factId"))
    let fact_group := pyUpper (get_str_value row (chars "factGroup"))
    let node : NodeRec :=
      { sheet := sheet_name, row := ir.1, nodeId := node_id,
        assessmentId := assessment_id, factId := fact_id,
        factGroup := fact_group,
        nodeText := get_str_value row (chars "nodeText"),
        dataType := pyUpper (get_str_value row (chars "dataType")),
        isDeterministic := pyUpper (get_str_value row (chars "isDeterministic")),
        range := pyUpper (get_str_value row (chars "range")),
        enumerationType := get_str_value row (chars "enumerationType"),
        target := pyUpper (get_str_value row (chars "target")),
        restartPoint := convert_string_to_bool (get_str_value row (chars "isRestartPoint")) }
    let factAdds (s : GNState) : GNState :=
      let s := if decide (fact_id ≠ NULL_VALUE) then
          { s with fact_id_set := setAdd s.fact_id_set fact_id } else s
      if decide (fact_group ≠ NULL_VALUE) then
        { s with fact_group_set := setAdd s.fact_group_set fact_group } else s
    if decide (assessment_id ≠ NULL_VALUE) then
      match st.grouped.lookup assessment_id with
      | Option.none =>
          factAdds { st with grouped := st.grouped ++ [(assessment_id,
            { nodes := [node], row := ir.1, sheet := sheet_name,
              cross_sheet_reported := false })] }
      | some entry =>
        if decide (entry.sheet ≠ sheet_name) then
          if !entry.cross_sheet_reported then
            let crossIssue : ValidationIssue :=
              { sheet := sheet_name, row := some ir.1,
                field := some (chars "assessmentId"),
                severity := Severity.error,
                message := chars "assessmentId=\x27" ++ assessment_id
                  ++ chars "\x27 found on multiple sheets" }
            let entry2 := { entry with cross_sheet_reported := true }
            { st with issues := st.issues ++ [crossIssue],
                      grouped := mapSet st.grouped assessment_id entry2 }
          else st
        else
          let entry2 := { entry with nodes := entry.nodes ++ [node] }
          factAdds { st with grouped := mapSet st.grouped assessment_id entry2 }
    else factAdds st

/-- _build_grouped_nodes over one Level Facts sheet. -/
def build_grouped_nodes_sheet (st : GNState) (sheet_name : Str)
    (rows : List (Nat × Row)) : GNState :=
  rows.foldl (build_grouped_step sheet_name) st

/-- FullModelValidator._build_grouped_nodes over the Level Facts sheets. -/
def build_grouped_nodes (sheets : List (Str × List (Nat × Row))) : GNState :=
  sheets.foldl (fun st sr => build_grouped_nodes_sheet st sr.1 sr.2) gnInit

/-! ## Level 3: duration calculation (validation/model_validator.py) -/

/-- base.DURATION_MATRIX as a lookup on (dataType, isDeterministic):
min and max seconds when the pair is present. -/
def DURATION_MATRIX (data_type is_det : Str) : Option (Nat × Nat) :=
  if data_type == chars "ENUMERATION" then
    if is_det == chars "TRUE" then some (5, 8)
    else if is_det == chars "FALSE" then some (15, 20)
    else if is_det == chars "DELEGATE" then some (10, 14)
    else Option.none
  else if data_type == chars "INTEGER" then
    if is_det == chars "TRUE" then some (5, 8)
    else if is_det == chars "FALSE" then some (15, 20)
    else if is_det == chars "DELEGATE" then some (10, 14)
    else Option.none
  else if data_type == chars "STATEMENT" then
    if is_det == chars "TRUE" then some (5, 8)
    else if is_det == chars "FALSE" then some (8, 12)
    else Option.none
  else if data_type == chars "CONVERSATION" then
    if is_det == chars "TRUE" then some (15, 30)
    else if is_det == chars "FALSE" then some (15, 60)
    else if is_det == chars "DELEGATE" then some (15, 30)
    else Option.none
  else Option.none

/-- The per-assessment (min_secs, max_secs) sums of
_calculate_assessment_durations. -/
def nodeDurSum (nodes : List NodeRec) : Nat × Nat :=
  nodes.foldl (fun acc n =>
    match DURATION_MATRIX n.dataType n.isDeterministic with
    | some p => (acc.1 + p.1, acc.2 + p.2)
    | Option.none => acc) (0, 0)

/-- The duration string f"{m} minute(s)" or f"{mn} - {mx} minutes". -/
def durationStr (min_mins max_mins : Nat) : Str :=
  if min_mins = max_mins then
    natToChars min_mins ++ chars " minute"
      ++ (if min_mins ≠ 1 then chars "s" else [])
  else
    natToChars min_mins ++ chars " - " ++ natToChars max_mins ++ chars " minutes"

/-- The "no explicit estimatedDuration" test of
_calculate_assessment_durations: specified == NULL_VALUE or is_empty(...). -/
def durationNotSpecified (specified : Str) : Bool :=
  specified == NULL_VALUE || is_empty_str specified

/-- The info issue recorded when a duration is computed. -/
def durationInfoIssue (assessment_id : Str) (row : Nat) (dur : Str) :
    ValidationIssue :=
  { sheet := chars "Assessments", row := some row,
    field := some (chars "estimatedDuration"), severity := Severity.info,
    message := chars "Calculated duration for \x27" ++ assessment_id
      ++ chars "\x27: " ++ dur }

/-- One iteration of the _calculate_assessment_durations loop. -/
def durStep (acc : (List (Str × AssessmentRec)) × List ValidationIssue)
    (kv : Str × GroupEntry) :
    (List (Str × AssessmentRec)) × List ValidationIssue :=
  let assessment_id := kv.1
  let sums := nodeDurSum kv.2.nodes
  let min_mins := (sums.1 + 59) / 60
  let max_mins := (sums.2 + 59) / 60
  let duration_str := durationStr min_mins max_mins
  match acc.1.lookup assessment_id with
  | some ar =>
      if durationNotSpecified ar.estimatedDuration then
        (mapSet acc.1 assessment_id ({ ar with estimatedDuration := duration_str }),
         acc.2 ++ [durationInfoIssue assessment_id ar.row duration_str])
      else acc
  | Option.none => acc

/-- FullModelValidator._calculate_assessment_durations: for every node
group whose assessment exists, sum the duration matrix over its nodes,
round both bounds up to minutes, and when the assessment has no explicit
estimatedDuration install the computed string and record one info issue. -/
def calculate_assessment_durations (grouped : List (Str × GroupEntry))
    (assessments : List (Str × AssessmentRec)) :
    (List (Str × AssessmentRec)) × List ValidationIssue :=
  grouped.foldl durStep (assessments, [])

/-- The computed duration string of a node group: matrix sums rounded up
to whole minutes. -/
def groupDuration (grp : GroupEntry) : Str :=
  durationStr (((nodeDurSum grp.nodes).1 + 59) / 60)
    (((nodeDurSum grp.nodes).2 + 59) / 60)

/-- Specification-side description of the duration pass's outcome for one
assessment record. -/
def specDurOutcome (ar : AssessmentRec) (grp : GroupEntry) : AssessmentRec :=
  if durationNotSpecified ar.estimatedDuration then
    { ar with estimatedDuration := groupDuration grp }
  else ar

/-- Specification-side description of the duration pass's issue for one
node group: one info issue exactly when the assessment exists with no
explicit estimatedDuration. -/
def specDurIssue (a : List (Str × AssessmentRec)) (p : Str × GroupEntry) :
    Option ValidationIssue :=
  match a.lookup p.1 with
  | some ar =>
      if durationNotSpecified ar.estimatedDuration then
        some (durationInfoIssue p.1 ar.row (groupDuration p.2))
      else Option.none
  | Option.none => Option.none

/-! ## Algorithm expression checks -/

/-- Case-insensitive character match (both sides folded with upper). -/
def ciCharEq (p c : Char) : Bool := pyUpperChar c = pyUpperChar p

/-- Case-insensitive string-literal match at the head of the input. -/
def ciHasPre : Str → Str → Bool
  | [], _ => true
  | _ :: _, [] => false
  | p :: ps, c :: cs => ciCharEq p c && ciHasPre ps cs

/-- Word characters of the regex `\b` boundary (`[A-Za-z0-9_]`). -/
def isWordChar (c : Char) : Bool := c.isAlphanum || c = '_'

/-- One match attempt of the regex `fname\(['"]([^'"]+)['"]\)` at the head
of the input, returning the captured reference and the rest of the input
after the match. -/
def tryQuotedRef (ci : Bool) (fname : Str) (s : Str) : Option (Str × Str) :=
  if (if ci then ciHasPre fname s else fname.isPrefixOf s) then
    match s.drop fname.length with
    | '(' :: r1 =>
        match r1 with
        | q :: r2 =>
            if q = '\x27' || q = '"' then
              let content := r2.takeWhile
                (fun c => decide (c ≠ '\x27') && decide (c ≠ '"'))
              if content ≠ [] then
                match r2.drop content.length with
                | q2 :: ')' :: r5 =>
                    if q2 = '\x27' || q2 = '"' then some (content, r5)
                    else Option.none
                | _ => Option.none
              else Option.none
            else Option.none
        | [] => Option.none
    | _ => Option.none
  else Option.none

/-- re.findall of the pattern `fname\(['"]([^'"]+)['"]\)`: scan left to
right, collect the captured group of every match and continue after it. -/
def findQuotedRefsAux (ci : Bool) (fname : Str) : Nat → Str → List Str
  | 0, _ => []
  | _ + 1, [] => []
  | fuel + 1, c :: cs =>
      match tryQuotedRef ci fname (c :: cs) with
      | some p => p.1 :: findQuotedRefsAux ci fname fuel p.2
      | Option.none => findQuotedRefsAux ci fname fuel cs

/-- re.findall of `fname\(['"]([^'"]+)['"]\)` over a whole expression. -/
def findQuotedRefs (ci : Bool) (fname s : Str) : List Str :=
  findQuotedRefsAux ci fname (s.length + 1) s

/-- re.search of `fact\s*\(` with IGNORECASE: a fact call appears in the
term. -/
def hasFactCall : Str → Bool
  | [] => false
  | c :: cs =>
      (ciHasPre (chars "fact") (c :: cs)
        && ((((c :: cs).drop 4).dropWhile pyIsWS).head? == some '('))
      || hasFactCall cs

/-- re.search of `>=|<=|(?<![=!])>(?!=)|(?<![=!])<(?!=)`: an ordering
operator occurs (a bare `>` or `<` not part of `>=`-style equality forms
still counts, while `==`/`!=` never do). -/
def hasOrderingOpAux (prev : Option Char) : Str → Bool
  | [] => false
  | c :: cs =>
      if (c = '>' || c = '<') && cs.head? == some '=' then true
      else if (c = '>' || c = '<') && decide (cs.head? ≠ some '=')
          && decide (prev ≠ some '=') && decide (prev ≠ some '!') then true
      else hasOrderingOpAux (some c) cs

/-- re.search of the ordering-operator pattern over a term. -/
def hasOrderingOp (s : Str) : Bool := hasOrderingOpAux Option.none s

/-- Delimiter match for re.split(`\band\b|\bor\b`, ..., IGNORECASE) at the
head of the input: the number of characters consumed when a word-bounded
and/or sits here. -/
def matchBoundaryDelim (prev : Option Char) (s : Str) : Option Nat :=
  let prevOk := match prev with
    | Option.none => true
    | some c => !isWordChar c
  let nextOk (l : Str) : Bool :=
    match l.head? with
    | Option.none => true
    | some c => !isWordChar c
  if prevOk then
    if ciHasPre (chars "and") s && nextOk (s.drop 3) then some 3
    else if ciHasPre (chars "or") s && nextOk (s.drop 2) then some 2
    else Option.none
  else Option.none

/-- re.split(`\band\b|\bor\b`, algorithm, IGNORECASE), the clause splitter
of _validate_algorithm_terms. -/
def splitBoundaryAux : Nat → Option Char → Str → Str → List Str
  | 0, _, cur, rest => [cur.reverse ++ rest]
  | _ + 1, _, cur, [] => [cur.reverse]
  | fuel + 1, prev, cur, c :: cs =>
      match matchBoundaryDelim prev (c :: cs) with
      | some n =>
          cur.reverse ::
            splitBoundaryAux fuel (((c :: cs).take n).reverse.head?) []
              ((c :: cs).drop n)
      | Option.none => splitBoundaryAux fuel (some c) (c :: cur) cs

/-- Split an algorithm into its and/or-separated clauses. -/
def splitBoundary (s : Str) : List Str :=
  splitBoundaryAux (s.length + 1) Option.none [] s

/-- The fixed operator-misuse message of _validate_algorithm_terms. -/
def opMisuseMsg : Str :=
  chars "Comparison operators (>, <, >=, <=) cannot be used with fact() expressions"

/-- The clause loop of _validate_algorithm_terms: report the operator
misuse once at the first clause that has both a fact call and an ordering
operator, then stop (the loop breaks). -/
def opMisuseScan (mkIssue : Str → ValidationIssue) : List Str → List ValidationIssue
  | [] => []
  | term :: terms =>
      if hasFactCall term && hasOrderingOp term then [mkIssue opMisuseMsg]
      else opMisuseScan mkIssue terms

/-- validation/model_validator.FullModelValidator._validate_algorithm_terms:
unknown fact()/groups() references are errors, and an ordering operator in
an and/or clause containing a fact() call is reported once per algorithm. -/
def validate_algorithm_terms (sheet_name : Str) (row : Nat) (algorithm : Str)
    (fact_id_set fact_group_set : List Str) : List ValidationIssue :=
  let mk (msg : Str) : ValidationIssue :=
    { sheet := sheet_name, row := some row, field := some (chars "algorithm"),
      severity := Severity.error, message := msg }
  let fact_matches := findQuotedRefs true (chars "fact") algorithm
  let factErrs := fact_matches.filterMap (fun fid =>
    if !fact_id_set.contains (pyUpper fid) then
      some (mk (chars "Invalid factId \x27" ++ fid ++ chars "\x27"))
    else Option.none)
  let opErrs :=
    if decide (fact_matches ≠ []) then
      opMisuseScan mk (splitBoundary algorithm)
    else []
  let group_matches := findQuotedRefs true (chars "groups") algorithm
  let groupErrs := group_matches.filterMap (fun g =>
    if !fact_group_set.contains (pyUpper g) then
      some (mk (chars "Invalid factGroup \x27" ++ g ++ chars "\x27"))
    else Option.none)
  factErrs ++ opErrs ++ groupErrs

/-! ## Group boolean mappings (api/model_validator.py) -/

/-- Per-factId data collected by api ModelValidator._build_lookups. -/
structure FactData where
  level : Nat
  sheet : Str
  row : Nat
  factGroup : Str
  dataType : Str
  enumerationType : Str
deriving DecidableEq

/-- The AL-14 issue for a missing boolean mapping. -/
def missingMappingIssue (row : Nat) (group_name fact_id enum_type value : Str) :
    ValidationIssue :=
  { sheet := chars "Algorithms", row := some row,
    field := some (chars "algorithm"), severity := Severity.error,
    message := chars "factGroup \x27" ++ group_name ++ chars "\x27, factId \x27"
      ++ fact_id ++ chars "\x27 uses enumerationType \x27" ++ enum_type
      ++ chars "\x27 - value \x27" ++ value
      ++ chars "\x27 missing derivedBooleanValue" }

/-- api ModelValidator._validate_group_boolean_mapping: scan the member
facts of the group in catalogue order; at the first enumeration value with
no derivedBooleanValue report one error and return (the scan stops). -/
def validate_group_boolean_mapping
    (enumeration_values : List (Str × List EnumEntry)) (row : Nat)
    (group_name : Str) : List (Str × FactData) → List ValidationIssue
  | [] => []
  | (fact_id, fd) :: rest =>
      if fd.factGroup == group_name && decide (fd.enumerationType ≠ [])
          && (enumeration_values.lookup fd.enumerationType).isSome then
        match ((enumeration_values.lookup fd.enumerationType).getD []).find?
            (fun ev => ev.derivedBooleanValue.isNone) with
        | some ev =>
            [missingMappingIssue row group_name fact_id fd.enumerationType ev.value]
        | Option.none =>
            validate_group_boolean_mapping enumeration_values row group_name rest
      else validate_group_boolean_mapping enumeration_values row group_name rest

/-- The groups() loop of api _validate_algorithm_expression (AL-13/AL-14):
for every groups() occurrence, an unknown group is an error and a known
group is scanned for missing boolean mappings. -/
def api_validate_group_refs (group_matches : List Str)
    (fact_groups : List Str) (fact_data : List (Str × FactData))
    (enumeration_values : List (Str × List EnumEntry)) (row : Nat) :
    List ValidationIssue :=
  group_matches.flatMap (fun group_name =>
    if !fact_groups.contains group_name then
      [{ sheet := chars "Algorithms", row := some row,
         field := some (chars "algorithm"), severity := Severity.error,
         message := chars "Fact group \x27" ++ group_name
           ++ chars "\x27 not found in Level Facts sheets" }]
    else
      validate_group_boolean_mapping enumeration_values row group_name fact_data)

/-- The group-reference part of api _validate_algorithm_expression on a raw
expression: the groups() occurrences are extracted with the (case-sensitive)
group pattern and fed to the loop. -/
def api_group_check (expression : Str) (fact_groups : List Str)
    (fact_data : List (Str × FactData))
    (enumeration_values : List (Str × List EnumEntry)) (row : Nat) :
    List ValidationIssue :=
  api_validate_group_refs (findQuotedRefs false (chars "groups") expression)
    fact_groups fact_data enumeration_values row

/-- api/model_validator._validate_level_facts, range rules AS-12/AS-13
and the range-not-allowed rule for non-INTEGER nodes. -/
def api_range_issues (sheet_name : Str) (idx : Nat)
    (node_id data_type range_val : Str) : List ValidationIssue :=
  let mk (msg : Str) : ValidationIssue :=
    { sheet := sheet_name, row := some idx, field := some (chars "range"),
      severity := Severity.error, message := msg }
  if data_type == chars "INTEGER" then
    if api_is_empty range_val then
      [mk (chars "Range is mandatory for dataType=INTEGER (nodeId: \x27"
        ++ node_id ++ chars "\x27)")]
    else if !rangeFormat range_val then
      [mk (chars "Invalid range \x27" ++ range_val
        ++ chars "\x27 - must be format \x27min-max\x27 (e.g., \x270-100\x27)")]
    else []
  else if !api_is_empty range_val then
    [mk (chars "Range not allowed for dataType=\x27" ++ data_type
      ++ chars "\x27 (nodeId: \x27" ++ node_id ++ chars "\x27)")]
  else []

/-! ## Entry points (the modelled subset of validate_sheet and
validate_model) -/

/-- sheet_validator._validate_enumeration_row: Level-2 checks of one
Enumerations row (required value, DELEGATE= tags). -/
def validate_enumeration_row (row : Row) (excel_row : Nat)
    (sheet_name : Str) : List ValidationIssue :=
  let enum_type := get_str_value row (chars "enumerationType")
  let value := get_str_value row (chars "value")
  let tags := pyUpper (get_str_value row (chars "tags"))
  if enum_type == NULL_VALUE || is_comment enum_type then []
  else
    (if value == NULL_VALUE then
      [{ sheet := sheet_name, row := some excel_row,
         field := some (chars "value"), severity := Severity.error,
         message := chars "enumerationType=\x27" ++ enum_type
           ++ chars "\x27 - missing value" }]
     else [])
    ++ (if decide (tags ≠ NULL_VALUE)
          && !isSubstring (chars "DELEGATE=") tags then
      [{ sheet := sheet_name, row := some excel_row,
         field := some (chars "tags"), severity := Severity.error,
         message := chars "enumerationType=\x27" ++ enum_type
           ++ chars "\x27 - invalid tags=\x27" ++ tags
           ++ chars "\x27 - only \x27DELEGATE=\x27 supported" }]
     else [])

/-- sheet_validator._validate_findings_row: Level-2 checks of one Findings
row (ICD-10 format warning, empty-tag warning). -/
def validate_findings_row (row : Row) (excel_row : Nat) (sheet_name : Str) :
    List ValidationIssue :=
  let finding_code := get_str_value row (chars "findingCode")
  let icd_code := get_str_value row (chars "icdCode")
  let tags := get_str_value row (chars "tags")
  if finding_code == NULL_VALUE || is_comment finding_code then []
  else
    (if decide (icd_code ≠ NULL_VALUE) && !icdFormat (pyUpper icd_code) then
      [{ sheet := sheet_name, row := some excel_row,
         field := some (chars "icdCode"), severity := Severity.warning,
         message := chars "findingCode=\x27" ++ finding_code
           ++ chars "\x27 - ICD code \x27" ++ icd_code
           ++ chars "\x27 may not be in standard format (e.g., F32.1, A01.0)" }]
     else [])
    ++ (if decide (tags ≠ NULL_VALUE)
          && ((splitOnChar ',' tags).map pyStrip).any
              (fun t => t == ([] : Str)) then
      [{ sheet := sheet_name, row := some excel_row,
         field := some (chars "tags"), severity := Severity.warning,
         message := chars "findingCode=\x27" ++ finding_code
           ++ chars "\x27 - tags contain empty values (check for consecutive commas)" }]
     else [])

/-- sheet_validator._validate_finding_relationships_row: Level-2 checks of
one Findings Relationships row (recognised type, self reference, duplicate
source-target-type combination) together with the updated seen set. -/
def validate_finding_relationships_row (row : Row) (excel_row : Nat)
    (sheet_name : Str) (seen : List Str) : List ValidationIssue × List Str :=
  let src := get_str_value row (chars "sourceFindingCode")
  let tgt := get_str_value row (chars "targetFindingCode")
  let rt := get_str_value row (chars "relationshipTypeCode")
  if src == NULL_VALUE || is_comment src then ([], seen)
  else
    let i1 := if decide (rt ≠ NULL_VALUE)
        && !VALID_RELATIONSHIP_TYPE_CODES.contains (pyUpper rt) then
      [{ sheet := sheet_name, row := some excel_row,
         field := some (chars "relationshipTypeCode"),
         severity := Severity.warning,
         message := chars "relationshipTypeCode=\x27" ++ rt
           ++ chars "\x27 is not a recognized type. Valid types: "
           ++ chars "COMORBID, DIFFERENTIAL, EXCLUDES, RELATED, SUBTYPE" }]
      else []
    let i2 := if decide (src ≠ NULL_VALUE) && decide (tgt ≠ NULL_VALUE)
        && pyUpper src == pyUpper tgt then
      [{ sheet := sheet_name, row := some excel_row,
         field := some (chars "targetFindingCode"),
         severity := Severity.warning,
         message := chars "Self-referencing relationship: sourceFindingCode and targetFindingCode are both \x27"
           ++ src ++ chars "\x27" }]
      else []
    if decide (src ≠ NULL_VALUE) && decide (tgt ≠ NULL_VALUE)
        && decide (rt ≠ NULL_VALUE) then
      let key := pyUpper src ++ chars "|" ++ pyUpper tgt ++ chars "|"
        ++ pyUpper rt
      let i3 := if seen.contains key then
        [{ sheet := sheet_name, row := some excel_row,
           field := some (chars "sourceFindingCode"),
           severity := Severity.error,
           message := chars "Duplicate relationship: \x27" ++ src
             ++ chars "\x27 -> \x27" ++ tgt ++ chars "\x27 (" ++ rt
             ++ chars ") already exists" }]
        else []
      (i1 ++ i2 ++ i3, setAdd seen key)
    else (i1 ++ i2, seen)

/-- field_validator.validate_row as called by validate_sheet (existing_df
is None there, so the uniqueness inputs are empty): validate every column
of the schema in order, restamp each issue with the excel row, and merge
into one Level-1 result. -/
def validate_row (row : Row) (sheet_name : Str) (row_number : Option Nat)
    (column_defs : List (Str × ColumnDefinition)) (column_order : List Str) :
    ValidationResult :=
  column_order.foldl (fun result col_name =>
    match column_defs.lookup col_name with
    | Option.none => result
    | some col_def =>
        let value := (row.lookup col_name).getD Cell.none
        let field_result := validate_field col_name value sheet_name []
          false Cell.none col_def
        let field_result := { field_result with
          issues := field_result.issues.map (fun i =>
            { i with row := row_number }) }
        result.mergeWith field_result)
    (freshResult 1 0)

/-- The per-row state of validate_sheet: the running result, the seen
primary-key values, the nodeId and factId sets per assessment, and the
seen relationship keys. -/
structure SVState where
  result : ValidationResult
  seen : List (Str × List Str)
  nodeIds : List (Str × List Str)
  factIds : List (Str × List Str)
  rels : List Str
deriving DecidableEq

/-- One row of sheet_validator.validate_sheet: merge the Level-1 row
result, add the duplicate-key issues, then run the sheet-specific Level-2
row check. -/
def validate_sheet_step (sheet_name : Str)
    (enumerations_df : Option (List (Nat × Row)))
    (column_defs : List (Str × ColumnDefinition)) (column_order : List Str)
    (primary_keys : List Str) (st : SVState) (ir : Nat × Row) : SVState :=
  let excel_row := ir.1 + 2
  let row_result := validate_row ir.2 sheet_name (some excel_row)
    column_defs column_order
  let result := st.result.mergeWith row_result
  let dup := sheetDupRow sheet_name primary_keys ir.2 excel_row st.seen
  let result := addIssues result dup.2
  if is_level_facts_sheet sheet_name then
    let lf := validate_level_facts_row ir.2 excel_row sheet_name
      st.nodeIds st.factIds enumerations_df
    { result := addIssues result lf.2.2, seen := dup.1,
      nodeIds := lf.1, factIds := lf.2.1, rels := st.rels }
  else if (chars "ENUMERATIONS").isPrefixOf (pyUpper sheet_name) then
    let result := addIssues result
      (validate_enumeration_row ir.2 excel_row sheet_name)
    { st with seen := dup.1, result := result }
  else if pyUpper sheet_name == chars "FINDINGS" then
    let result := addIssues result
      (validate_findings_row ir.2 excel_row sheet_name)
    { st with seen := dup.1, result := result }
  else if pyUpper sheet_name == chars "FINDINGS RELATIONSHIPS" then
    let fr := validate_finding_relationships_row ir.2 excel_row sheet_name
      st.rels
    let result := addIssues result fr.1
    { st with seen := dup.1, result := result, rels := fr.2 }
  else { st with seen := dup.1, result := result }

/-- sheet_validator.validate_sheet over one frame: per row the Level-1
validate_row merge, the duplicate-key pass and the sheet-specific Level-2
row check (Level Facts / Enumerations / Findings / Findings
Relationships), then the second target pass for Level Facts sheets; the
schema consumed by the Level-1 pass is passed in as the column definitions
and column order of the sheet. -/
def validate_sheet_model (sheet_name : Str) (rows : List (Nat × Row))
    (enumerations_df : Option (List (Nat × Row)))
    (column_defs : List (Str × ColumnDefinition)) (column_order : List Str)
    (now : Nat) : ValidationResult :=
  let primary_keys := get_primary_key_columns sheet_name
  let st0 : SVState :=
    { result := freshResult 2 now,
      seen := primary_keys.map (fun pk => (pk, [])),
      nodeIds := [], factIds := [], rels := [] }
  let st := rows.foldl
    (validate_sheet_step sheet_name enumerations_df column_defs
      column_order primary_keys) st0
  if is_level_facts_sheet sheet_name then
    addIssues st.result (validate_level_facts_targets rows sheet_name
      st.nodeIds)
  else st.result

/-! ## Level 3: the remaining builders (validation/model_validator.py) -/

/-- One sheet of the session: its name, its column set (a DataFrame keeps
its columns even when it has no rows) and its rows. -/
structure Sheet where
  name : Str
  columns : List Str
  rows : List (Nat × Row)
deriving DecidableEq

/-- The rows of a named sheet of the session ([] when absent, as the
builders return early then). -/
def sheetRows (session : List Sheet) (name : Str) : List (Nat × Row) :=
  match session.find? (fun sh => sh.name == name) with
  | some sh => sh.rows
  | Option.none => []

/-- One enumeration entry as stored by _build_enumerations. -/
structure EnumItem where
  value : Str
  derivedBooleanValue : Option Bool
  tags : Str
  sequence : Str
  languageCode : Str
  row : Nat
  sheet : Str
deriving DecidableEq

/-- The derivedValue-or-derivedBooleanValue resolution of
_build_enumerations (Python or on the raw cells, then bool/str decoding). -/
def derivedBoolOf (row : Row) : Option Bool :=
  let dv := (row.lookup (chars "derivedValue")).getD Cell.none
  let dv := if cellTruthy dv then dv
    else (row.lookup (chars "derivedBooleanValue")).getD Cell.none
  match dv with
  | Cell.bool b => some b
  | Cell.str s =>
      let u := pyUpper (pyStrip s)
      if u == chars "TRUE" then some true
      else if u == chars "FALSE" then some false
      else Option.none
  | _ => Option.none

/-- FullModelValidator._build_enumerations, one row: skip empty/comment
enumeration types, else append the entry to its type (inserting the type
at first sight). -/
def build_enumerations_step (sheet_name : Str)
    (acc : List (Str × List EnumItem)) (ir : Nat × Row) :
    List (Str × List EnumItem) :=
  let enum_type := get_str_value ir.2 (chars "enumerationType")
  if enum_type == NULL_VALUE || is_comment enum_type then acc
  else
    let item : EnumItem :=
      { value := get_str_value ir.2 (chars "value"),
        derivedBooleanValue := derivedBoolOf ir.2,
        tags := pyUpper (get_str_value ir.2 (chars "tags")),
        sequence := get_str_value ir.2 (chars "seq"),
        languageCode := pyUpper (get_str_value ir.2 (chars "languageCode")),
        row := ir.1, sheet := sheet_name }
    mapSet acc enum_type (((acc.lookup enum_type).getD []) ++ [item])

/-- _build_enumerations over one Enumerations sheet. -/
def build_enumerations_sheet (acc : List (Str × List EnumItem))
    (sheet_name : Str) (rows : List (Nat × Row)) :
    List (Str × List EnumItem) :=
  rows.foldl (build_enumerations_step sheet_name) acc

/-- FullModelValidator._build_enumerations over the session sheets whose
upper-cased name starts with ENUMERATIONS. -/
def build_enumerations (session : List Sheet) : List (Str × List EnumItem) :=
  (session.filter (fun sh =>
      (chars "ENUMERATIONS").isPrefixOf (pyUpper sh.name))).foldl
    (fun acc sh => build_enumerations_sheet acc sh.name sh.rows) []

/-- One finding as stored by _build_findings. -/
structure FindingRec where
  row : Nat
  sheet : Str
  findingCode : Str
  name : Str
  clientFriendlyName : Str
  icdCode : Str
  tags : Str
deriving DecidableEq

/-- FullModelValidator._build_findings, one row: skip empty/comment key
rows, record a duplicate error (excluding the row) on a repeated
findingCode, otherwise insert the finding record. -/
def build_findings_step (st : (List (Str × FindingRec)) × List ValidationIssue)
    (ir : Nat × Row) : (List (Str × FindingRec)) × List ValidationIssue :=
  let row := ir.2
  let finding_code0 := get_str_value row (chars "findingCode")
  if finding_code0 == NULL_VALUE || is_comment finding_code0 then st
  else
    let finding_code := pyUpper finding_code0
    match st.1.lookup finding_code with
    | some _ =>
        (st.1, st.2 ++
          [{ sheet := chars "Findings", row := some ir.1,
             field := some (chars "findingCode"), severity := Severity.error,
             message := chars "Duplicate findingCode=\x27" ++ finding_code
               ++ chars "\x27" }])
    | Option.none =>
        (st.1 ++ [(finding_code,
          { row := ir.1, sheet := chars "Findings",
            findingCode := finding_code,
            name := get_str_value row (chars "name"),
            clientFriendlyName := get_str_value row (chars "clientFriendlyName"),
            icdCode := get_str_value row (chars "icdCode"),
            tags := get_str_value row (chars "tags") })],
         st.2)

/-- FullModelValidator._build_findings over the Findings frame. -/
def build_findings (rows : List (Nat × Row)) :
    (List (Str × FindingRec)) × List ValidationIssue :=
  rows.foldl build_findings_step ([], [])

/-- One relationship as stored by _build_findings_relationships. -/
structure RelRec where
  row : Nat
  sheet : Str
  sourceFindingCode : Str
  targetFindingCode : Str
  sequence : Str
  relationshipTypeCode : Str
  descriptor : Str
deriving DecidableEq

/-- FullModelValidator._build_findings_relationships, one row: skip
empty/comment source codes, else append the relationship record. -/
def build_findings_relationships_step (acc : List RelRec) (ir : Nat × Row) :
    List RelRec :=
  let src := get_str_value ir.2 (chars "sourceFindingCode")
  if src == NULL_VALUE || is_comment src then acc
  else acc ++
    [{ row := ir.1, sheet := chars "Findings Relationships",
       sourceFindingCode := pyUpper src,
       targetFindingCode := pyUpper (get_str_value ir.2 (chars "targetFindingCode")),
       sequence := get_str_value ir.2 (chars "sequence"),
       relationshipTypeCode := pyUpper (get_str_value ir.2 (chars "relationshipTypeCode")),
       descriptor := get_str_value ir.2 (chars "descriptor") }]

/-- FullModelValidator._build_findings_relationships over the frame. -/
def build_findings_relationships (rows : List (Nat × Row)) : List RelRec :=
  rows.foldl build_findings_relationships_step []

/-- One algorithm as stored by _build_algorithms. -/
structure AlgoRec where
  row : Nat
  sheet : Str
  algorithmId : Str
  algorithm : Str
  originalAlgorithm : Str
  event : Str
  moduleCode : Str
  assessmentCode : Str
  findingCode : Str
deriving DecidableEq

/-- FullModelValidator._build_algorithms, one row: skip rows flagged
skipRow=YES or whose algorithm is a skip value; fan an ASSESSMENT event
out over its comma-separated assessment codes. -/
def build_algorithms_step (sheet_name : Str) (acc : List AlgoRec)
    (ir : Nat × Row) : List AlgoRec :=
  let skip_row := pyUpper (get_str_value ir.2 (chars "skipRow"))
  let algorithm := get_str_value ir.2 (chars "algorithm")
  if skip_row == chars "YES"
      || is_row_to_skip algorithm (chars "algorithm") then acc
  else
    let normalized := normalize_algorithm algorithm
    let event := pyUpper (get_str_value ir.2 (chars "event"))
    let finding_code := pyUpper (get_str_value ir.2 (chars "findingCode"))
    let module_code := pyUpper (get_str_value ir.2 (chars "moduleCode"))
    let assessment_code := pyUpper (get_str_value ir.2 (chars "assessmentCode"))
    if event == chars "ASSESSMENT" && decide (assessment_code ≠ NULL_VALUE) then
      acc ++ (splitOnChar ',' assessment_code).map (fun v =>
        { row := ir.1, sheet := sheet_name,
          algorithmId := get_str_value ir.2 (chars "algorithmId"),
          algorithm := normalized, originalAlgorithm := algorithm,
          event := event, moduleCode := module_code,
          assessmentCode := pyUpper (pyStrip v),
          findingCode := finding_code })
    else acc ++
      [{ row := ir.1, sheet := sheet_name,
         algorithmId := get_str_value ir.2 (chars "algorithmId"),
         algorithm := normalized, originalAlgorithm := algorithm,
         event := event, moduleCode := module_code,
         assessmentCode := assessment_code, findingCode := finding_code }]

/-- _build_algorithms over one Algorithms sheet. -/
def build_algorithms_sheet (acc : List AlgoRec) (sheet_name : Str)
    (rows : List (Nat × Row)) : List AlgoRec :=
  rows.foldl (build_algorithms_step sheet_name) acc

/-- FullModelValidator._build_algorithms over the session sheets whose
upper-cased name starts with ALGORITHMS. -/
def build_algorithms (session : List Sheet) : List AlgoRec :=
  (session.filter (fun sh =>
      (chars "ALGORITHMS").isPrefixOf (pyUpper sh.name))).foldl
    (fun acc sh => build_algorithms_sheet acc sh.name sh.rows) []

/-- The Level Facts sheet selection of _build_grouped_nodes: name starts
with LEVEL and contains FACTS, or an unrecognised non-empty sheet with a
nodeId column. -/
def gn_fact_sheets (session : List Sheet) : List Sheet :=
  session.filter (fun sh =>
    ((chars "LEVEL").isPrefixOf (pyUpper sh.name)
      && isSubstring (chars "FACTS") (pyUpper sh.name))
    || (!([chars "Modules", chars "Assessments", chars "Findings",
           chars "Findings Relationships",
           chars "Algorithms"].contains sh.name)
        && decide (sh.rows ≠ []) && sh.columns.contains (chars "nodeId")))

/-! ## Level 3: the category passes (validation/model_validator.py) -/

/-- The "not found in Assessments catalog" issue of
_validate_assessment_catalog. -/
def missingAssessmentIssue (sheet : Str) (row : Nat) (code : Str) :
    ValidationIssue :=
  { sheet := sheet, row := some row, field := some (chars "assessmentCode"),
    severity := Severity.error,
    message := chars "assessmentCode=\x27" ++ code
      ++ chars "\x27 not found in Assessments catalog" }

/-- The "not found in Modules catalog" issue of
_validate_assessment_catalog. -/
def missingModuleIssue (sheet : Str) (row : Nat) (code : Str) :
    ValidationIssue :=
  { sheet := sheet, row := some row, field := some (chars "moduleCode"),
    severity := Severity.error,
    message := chars "moduleCode=\x27" ++ code
      ++ chars "\x27 not found in Modules catalog" }

/-- _validate_enumerations: per enumeration type in catalogue order,
report missing values, duplicate values (first occurrence wins the seen
set) and non-DELEGATE tags. -/
def validate_enumerations_cat (enums : List (Str × List EnumItem)) :
    List ValidationIssue :=
  enums.flatMap (fun kv =>
    (kv.2.foldl (fun (acc : List ValidationIssue × List Str) item =>
      let vIssues :=
        if item.value == NULL_VALUE then
          [{ sheet := item.sheet, row := some item.row,
             field := some (chars "value"), severity := Severity.error,
             message := chars "enumerationType=\x27" ++ kv.1
               ++ chars "\x27 - missing value" }]
        else if acc.2.contains item.value then
          [{ sheet := item.sheet, row := some item.row,
             field := some (chars "value"), severity := Severity.error,
             message := chars "enumerationType=\x27" ++ kv.1
               ++ chars "\x27 - duplicate value \x27" ++ item.value
               ++ chars "\x27" }]
        else []
      let seen2 :=
        if item.value == NULL_VALUE then acc.2
        else if acc.2.contains item.value then acc.2
        else acc.2 ++ [item.value]
      let tIssues :=
        if decide (item.tags ≠ NULL_VALUE)
            && !isSubstring (chars "DELEGATE=") item.tags then
          [{ sheet := item.sheet, row := some item.row,
             field := some (chars "tags"), severity := Severity.error,
             message := chars "Invalid tags=\x27" ++ item.tags
               ++ chars "\x27 - only \x27DELEGATE=\x27 supported" }]
        else []
      (acc.1 ++ vIssues ++ tIssues, seen2)) ([], [])).1)

/-- _validate_assessments: per grouped assessment, check ENUMERATION
nodes\x27 enumeration types against the catalogue and resolve every
target against the assessment\x27s nodeId set (or EXIT). -/
def validate_assessments_cat (grouped : List (Str × GroupEntry))
    (enums : List (Str × List EnumItem)) : List ValidationIssue :=
  grouped.flatMap (fun kv =>
    let node_id_set := kv.2.nodes.foldl (fun s n =>
      if decide (n.nodeId ≠ NULL_VALUE) && !is_comment n.nodeId then
        setAdd s n.nodeId
      else s) []
    kv.2.nodes.flatMap (fun n =>
      (if n.dataType == chars "ENUMERATION"
          && decide (n.enumerationType ≠ NULL_VALUE)
          && (enums.lookup n.enumerationType).isNone then
        [{ sheet := n.sheet, row := some n.row,
           field := some (chars "enumerationType"),
           severity := Severity.error,
           message := chars "Invalid enumerationType=\x27"
             ++ n.enumerationType ++ chars "\x27" }]
       else [])
      ++ (if decide (n.target ≠ NULL_VALUE) then
        (splitTargets n.target).filterMap (fun t =>
          if !node_id_set.contains t && t != chars "EXIT"
              && t != NULL_VALUE then
            some { sheet := n.sheet, row := some n.row,
                   field := some (chars "target"),
                   severity := Severity.error,
                   message := chars "target=\x27" ++ t
                     ++ chars "\x27 not found in assessment" }
          else Option.none)
       else [])))

/-- _validate_findings_relationships: source and target must be catalogued
findings; the relationship type should be a recognised code. -/
def validate_findings_relationships_cat (rels : List RelRec)
    (findings : List (Str × FindingRec)) : List ValidationIssue :=
  rels.flatMap (fun item =>
    (if (findings.lookup item.sourceFindingCode).isNone then
      [{ sheet := item.sheet, row := some item.row,
         field := some (chars "sourceFindingCode"),
         severity := Severity.error,
         message := chars "Invalid sourceFindingCode \x27"
           ++ item.sourceFindingCode ++ chars "\x27" }]
     else [])
    ++ (if (findings.lookup item.targetFindingCode).isNone then
      [{ sheet := item.sheet, row := some item.row,
         field := some (chars "targetFindingCode"),
         severity := Severity.error,
         message := chars "Invalid targetFindingCode \x27"
           ++ item.targetFindingCode ++ chars "\x27" }]
     else [])
    ++ (if decide (item.relationshipTypeCode ≠ NULL_VALUE)
          && !VALID_RELATIONSHIP_TYPE_CODES.contains
              item.relationshipTypeCode then
      [{ sheet := item.sheet, row := some item.row,
         field := some (chars "relationshipTypeCode"),
         severity := Severity.warning,
         message := chars "Unexpected relationshipTypeCode: \x27"
           ++ item.relationshipTypeCode ++ chars "\x27" }]
     else []))

/-- _validate_algorithms: per algorithm, event validity (an invalid event
skips every later check), event-specific code resolution, the NOT ban,
the fact()/groups() reference checks, and the eval-based syntax test
(passed in as the pure outcome function of _test_algorithm_syntax). -/
def validate_algorithms_cat (algos : List AlgoRec)
    (modules : List (Str × ModuleRec))
    (assessments : List (Str × AssessmentRec))
    (findings : List (Str × FindingRec))
    (fact_id_set fact_group_set : List Str)
    (syntaxCheck : Str → Option Str) : List ValidationIssue :=
  algos.flatMap (fun algo =>
    let mk (field : Str) (sev : Severity) (msg : Str) : ValidationIssue :=
      { sheet := algo.sheet, row := some algo.row, field := some field,
        severity := sev, message := msg }
    if !VALID_ALGORITHM_EVENTS.contains algo.event then
      [mk (chars "event") Severity.error
        (chars "Invalid event \x27" ++ algo.event ++ chars "\x27")]
    else
      let eventIssues :=
        if algo.event == chars "MODULE" then
          if is_empty_str algo.moduleCode
              || algo.moduleCode == NULL_VALUE then
            [mk (chars "moduleCode") Severity.error
              (chars "MODULE event requires moduleCode")]
          else if (modules.lookup algo.moduleCode).isNone then
            [mk (chars "moduleCode") Severity.error
              (chars "Invalid moduleCode \x27" ++ algo.moduleCode
                ++ chars "\x27")]
          else []
        else if algo.event == chars "ASSESSMENT" then
          if is_empty_str algo.assessmentCode
              || algo.assessmentCode == NULL_VALUE then
            [mk (chars "assessmentCode") Severity.error
              (chars "ASSESSMENT event requires assessmentCode")]
          else if (assessments.lookup algo.assessmentCode).isNone then
            [mk (chars "assessmentCode") Severity.error
              (chars "Invalid assessmentCode \x27" ++ algo.assessmentCode
                ++ chars "\x27")]
          else []
        else if algo.event == chars "FINDING" then
          if is_empty_str algo.findingCode
              || algo.findingCode == NULL_VALUE then
            [mk (chars "findingCode") Severity.warning
              (chars "FINDING event missing findingCode")]
          else if (findings.lookup algo.findingCode).isNone then
            [mk (chars "findingCode") Severity.error
              (chars "Invalid findingCode \x27" ++ algo.findingCode
                ++ chars "\x27")]
          else []
        else []
      let exprIssues :=
        if decide (pyLower algo.algorithm ≠ chars "start")
            && decide (algo.algorithm ≠ NULL_VALUE) then
          (if isSubstring (chars " not ") (pyLower algo.algorithm)
              || isSubstring (chars "not(") (pyLower algo.algorithm) then
            [mk (chars "algorithm") Severity.error
              (chars "NOT operator is not allowed")]
           else [])
          ++ validate_algorithm_terms algo.sheet algo.row algo.algorithm
              fact_id_set fact_group_set
        else []
      let synIssues :=
        match syntaxCheck algo.algorithm with
        | some err => [mk (chars "algorithm") Severity.error err]
        | Option.none => []
      eventIssues ++ exprIssues ++ synIssues)

/-- validation/model_validator.validate_model over a session: build the
model (modules, assessments, enumerations, findings, relationships,
grouped nodes, algorithms), then run the seven category passes in order,
stamped with the construction time; the Python-eval syntax test is passed
in as its pure outcome function. -/
def validate_model_core (session : List Sheet)
    (syntaxCheck : Str → Option Str) (now : Nat) : ValidationResult :=
  let mods := build_modules (sheetRows session (chars "Modules"))
  let asmts := build_assessments (sheetRows session (chars "Assessments"))
  let enums := build_enumerations session
  let finds := build_findings (sheetRows session (chars "Findings"))
  let rels := build_findings_relationships
    (sheetRows session (chars "Findings Relationships"))
  let gn := build_grouped_nodes
    ((gn_fact_sheets session).map (fun sh => (sh.name, sh.rows)))
  let algos := build_algorithms session
  let cat1 := catAddIssues (freshCategory (chars "Catalog Integrity"))
    (mods.2 ++ asmts.2 ++ finds.2 ++ gn.issues)
  let cat2issues :=
    gn.grouped.filterMap (fun kv =>
      if (asmts.1.lookup kv.1).isNone then
        some (missingAssessmentIssue kv.2.sheet kv.2.row kv.1)
      else Option.none)
    ++ asmts.1.filterMap (fun kv =>
      if decide (kv.2.moduleCode ≠ NULL_VALUE)
          && (mods.1.lookup kv.2.moduleCode).isNone then
        some (missingModuleIssue kv.2.sheet kv.2.row kv.2.moduleCode)
      else Option.none)
  let cat2 := catAddIssues (freshCategory (chars "Assessment Catalog"))
    cat2issues
  let cat3 := catAddIssues (freshCategory (chars "Duration Calculation"))
    (calculate_assessment_durations gn.grouped asmts.1).2
  let cat4 := catAddIssues (freshCategory (chars "Enumerations"))
    (validate_enumerations_cat enums)
  let cat5 := catAddIssues (freshCategory (chars "Assessments"))
    (validate_assessments_cat gn.grouped enums)
  let cat6 := catAddIssues (freshCategory (chars "Findings Relationships"))
    (validate_findings_relationships_cat rels finds.1)
  let cat7 := catAddIssues (freshCategory (chars "Algorithms"))
    (validate_algorithms_cat algos mods.1 asmts.1 finds.1
      gn.fact_id_set gn.fact_group_set syntaxCheck)
  let r := (freshResult 3 now).add_category cat1
  let r := r.add_category cat2
  let r := r.add_category cat3
  let r := r.add_category cat4
  let r := r.add_category cat5
  let r := r.add_category cat6
  r.add_category cat7

/-- Concrete counterexample row for the target-cardinality claim: an
ENUMERATION node whose target is the comma-separated list A,B,C while the
referenced enumeration has 2 values and A, B, C and the literal string
A,B,C are all nodeIds of the assessment. -/
def c1Row : Row :=
  [(chars "assessmentId", Cell.str (chars "ASM1")),
   (chars "nodeId", Cell.str (chars "N1")),
   (chars "dataType", Cell.str (chars "ENUMERATION")),
   (chars "target", Cell.str (chars "A,B,C"))]

/-- The nodeId set of the counterexample assessment. -/
def c1NodeIds : List Str := [chars "A", chars "B", chars "C", chars "A,B,C"]

/-- The enumeration catalogue of the counterexample (type ET, 2 values). -/
def c1Evs : List (Str × List EnumEntry) :=
  [(chars "ET",
    [{ value := chars "V1", derivedBooleanValue := some true, tags := [], row := 0 },
     { value := chars "V2", derivedBooleanValue := some false, tags := [], row := 1 }])]

/-- Categories obtainable from a fresh ValidationCategory by add_issue
calls — the only way the validators build categories. -/
inductive ReachC : ValidationCategory → Prop where
  | fresh (name : Str) : ReachC (freshCategory name)
  | add {c : ValidationCategory} (i : ValidationIssue) :
      ReachC c → ReachC (c.add_issue i)

/-- Results obtainable from a fresh ValidationResult by any sequence of
add_issue, merge and add_category calls (merging only results that are
themselves so obtained, and adding only categories built by add_issue). -/
inductive ReachR : ValidationResult → Prop where
  | fresh (level timestamp : Nat) : ReachR (freshResult level timestamp)
  | add {r : ValidationResult} (i : ValidationIssue) :
      ReachR r → ReachR (r.add_issue i)
  | mrg {r r2 : ValidationResult} :
      ReachR r → ReachR r2 → ReachR (r.mergeWith r2)
  | addCat {r : ValidationResult} {c : ValidationCategory} :
      ReachR r → ReachC c → ReachR (r.add_category c)

/-- A warning issue used to witness the container invariants. -/
def c9WarnIssue : ValidationIssue :=
  { sheet := chars "Modules", row := some 0, field := some (chars "name"),
    severity := Severity.warning, message := chars "Module name is empty" }

/-- An error issue used to witness the container invariants. -/
def c9ErrIssue : ValidationIssue :=
  { sheet := chars "Modules", row := some 1, field := some (chars "moduleCode"),
    severity := Severity.error, message := chars "Module code is required" }

/-- Counting issues attached to a given field. -/
def fieldCount (f : Str) (issues : List ValidationIssue) : Nat :=
  issues.countP (fun i => i.field == some f)

/-- Counting error-severity issues attached to a given field. -/
def errFieldCount (f : Str) (issues : List ValidationIssue) : Nat :=
  issues.countP (fun i => i.field == some f && i.severity == Severity.error)

def c2Node : NodeRec :=
  { sheet := chars "Level 1 Facts", row := 0, nodeId := chars "N1",
    assessmentId := chars "A1", factId := chars "F1", factGroup := NULL_VALUE,
    nodeText := chars "q", dataType := chars "ENUMERATION",
    isDeterministic := chars "TRUE", range := NULL_VALUE,
    enumerationType := chars "ET", target := chars "EXIT",
    restartPoint := false }

def c2Grp : GroupEntry :=
  { nodes := [c2Node], row := 0, sheet := chars "Level 1 Facts",
    cross_sheet_reported := false }

def c2Grouped : List (Str × GroupEntry) := [(chars "A1", c2Grp)]

def c2Ar : AssessmentRec :=
  { row := 0, sheet := chars "Assessments", assessmentCode := chars "A1",
    assessmentId := chars "A1", moduleCode := chars "M1",
    isUserAssignable := chars "TRUE", name := chars "a",
    clientFriendlyName := chars "a", description := chars "d",
    estimatedDuration := NULL_VALUE }

def c2Asmts : List (Str × AssessmentRec) := [(chars "A1", c2Ar)]

/-- Spec-side reading of the group scan: the first (factId, enumType,
value) of the catalogue whose group matches and whose enumeration has a
value with no boolean mapping. -/
def specFirstMissing (ev : List (Str × List EnumEntry)) (g : Str)
    (fd : List (Str × FactData)) : Option (Str × Str × Str) :=
  fd.findSome? (fun p =>
    if p.2.factGroup == g && decide (p.2.enumerationType ≠ [])
        && (ev.lookup p.2.enumerationType).isSome then
      match ((ev.lookup p.2.enumerationType).getD []).find?
          (fun e => e.derivedBooleanValue.isNone) with
      | some e => some (p.1, p.2.enumerationType, e.value)
      | Option.none => Option.none
    else Option.none)

/-- C3 counterexample data: enumeration type ET whose first value has no
derivedBooleanValue. -/
def c3Ev : List (Str × List EnumEntry) :=
  [(chars "ET",
    [{ value := chars "V1", derivedBooleanValue := Option.none,
       tags := [], row := 2 },
     { value := chars "V2", derivedBooleanValue := some true,
       tags := [], row := 3 }])]

/-- C3 counterexample data: two member facts of group G1, both on ET. -/
def c3Fd : List (Str × FactData) :=
  [(chars "F1",
    { level := 0, sheet := chars "Level 0 Facts", row := 2,
      factGroup := chars "G1", dataType := chars "ENUMERATION",
      enumerationType := chars "ET" }),
   (chars "F2",
    { level := 0, sheet := chars "Level 0 Facts", row := 3,
      factGroup := chars "G1", dataType := chars "ENUMERATION",
      enumerationType := chars "ET" })]

/-- C3 counterexample expression: the same group referenced twice. -/
def c3Expr : Str :=
  chars "groups(\x27G1\x27).response(True) >= 1 and groups(\x27G1\x27).response(False) >= 1"

/-- C6 witness rows: module codes m1 and " M1 " agree after strip+upper. -/
def c6r1 : Row :=
  [(chars "moduleCode", Cell.str (chars "m1")),
   (chars "name", Cell.str (chars "Alpha"))]

def c6r2 : Row :=
  [(chars "moduleCode", Cell.str (chars " M1 "))]

/-- C7 witness column definitions. -/
def c7cdA : ColumnDefinition :=
  { name := chars "name", display_name := chars "Name",
    data_type := chars "string", required := true }

def c7cdB : ColumnDefinition :=
  { name := chars "desc", display_name := chars "Description",
    data_type := chars "string", required := false }

def c7cdD : ColumnDefinition :=
  { name := chars "flag", display_name := chars "Flag",
    data_type := chars "boolean", required := false }

def c7cdE : ColumnDefinition :=
  { name := chars "count", display_name := chars "Count",
    data_type := chars "integer", required := false }

def c7cdF : ColumnDefinition :=
  { name := chars "code", display_name := chars "Code",
    data_type := chars "code", required := false, unique := true }

def c7cdG : ColumnDefinition :=
  { name := chars "name", display_name := chars "Name",
    data_type := chars "string", required := false, max_length := some 3 }

/-- C10 witness row: comment moduleCode, null assessmentCode, comment
nodeId. -/
def c10Row : Row :=
  [(chars "moduleCode", Cell.str (chars "-- legacy row")),
   (chars "assessmentCode", Cell.str (chars "<NULL>")),
   (chars "nodeId", Cell.str (chars "Comment: ignore")),
   (chars "enumerationType", Cell.str (chars "--et")),
   (chars "findingCode", Cell.str (chars "<NULL>")),
   (chars "sourceFindingCode", Cell.str (chars "#src")),
   (chars "algorithm", Cell.str (chars "<NULL>"))]

/-- C6 counterexample rows: two Algorithms rows whose algorithmId values
agree after uppercasing. -/
def c6a1 : Row :=
  [(chars "algorithmId", Cell.str (chars "ALG1")),
   (chars "algorithm", Cell.str (chars "fact(\x27F1\x27) == True")),
   (chars "event", Cell.str (chars "MODULE")),
   (chars "moduleCode", Cell.str (chars "M1"))]

def c6a2 : Row :=
  [(chars "algorithmId", Cell.str (chars "alg1")),
   (chars "algorithm", Cell.str (chars "fact(\x27F2\x27) == True")),
   (chars "event", Cell.str (chars "MODULE")),
   (chars "moduleCode", Cell.str (chars "M2"))]

def c6aSheet : Sheet :=
  { name := chars "Algorithms",
    columns := [chars "algorithmId", chars "algorithm", chars "event",
                chars "moduleCode"],
    rows := [(0, c6a1), (1, c6a2)] }

def c6as1 : Row := [(chars "assessmentCode", Cell.str (chars "a1"))]

def c6as2 : Row := [(chars "assessmentCode", Cell.str (chars " A1 "))]

def c6f1 : Row := [(chars "findingCode", Cell.str (chars "f9"))]

def c6f2 : Row := [(chars "findingCode", Cell.str (chars " F9 "))]

/-! ## Supporting lemmas -/

lemma fieldCount_append (f : Str) (a b : List ValidationIssue) :
    fieldCount f (a ++ b) = fieldCount f a + fieldCount f b :=
  List.countP_append _ _ _

lemma fieldCount_nil (f : Str) : fieldCount f [] = 0 := rfl

lemma fieldCount_ite (f : Str) (c : Prop) [Decidable c]
    (l1 l2 : List ValidationIssue) :
    fieldCount f (if c then l1 else l2)
      = if c then fieldCount f l1 else fieldCount f l2 :=
  apply_ite _ _ _ _

lemma fieldCount_single (f : Str) (i : ValidationIssue) :
    fieldCount f [i] = if i.field = some f then 1 else 0 := by
  simp [fieldCount, List.countP_cons]

lemma errFieldCount_append (f : Str) (a b : List ValidationIssue) :
    errFieldCount f (a ++ b) = errFieldCount f a + errFieldCount f b :=
  List.countP_append _ _ _

lemma errFieldCount_nil (f : Str) : errFieldCount f [] = 0 := rfl

lemma errFieldCount_ite (f : Str) (c : Prop) [Decidable c]
    (l1 l2 : List ValidationIssue) :
    errFieldCount f (if c then l1 else l2)
      = if c then errFieldCount f l1 else errFieldCount f l2 :=
  apply_ite _ _ _ _

lemma errFieldCount_single (f : Str) (i : ValidationIssue) :
    errFieldCount f [i]
      = if i.field = some f ∧ i.severity = Severity.error then 1 else 0 := by
  by_cases h1 : i.field = some f <;> by_cases h2 : i.severity = Severity.error <;>
    simp [errFieldCount, List.countP_cons, h1, h2]

lemma rowMsg_inj {aid nid t1 t2 : Str} (h : rowMsg aid nid t1 = rowMsg aid nid t2) :
    t1 = t2 := by
  unfold rowMsg at h
  exact List.append_cancel_left h

lemma sheet_msgs_ne (aid nid dt t : Str) :
    sheetNotFoundMsg aid nid t ≠ sheetCardMsg aid nid dt := by
  intro h
  have h2 := rowMsg_inj h
  simp [chars] at h2

lemma as17_ne_as19 (t nid dt : Str) : as17Msg t nid ≠ as19Msg dt := by
  intro h; simp [as17Msg, as19Msg, chars] at h

lemma as16_ne_as19 (nid dt : Str) : as16Msg nid ≠ as19Msg dt := by
  intro h; simp [as16Msg, as19Msg, chars] at h

lemma as18_ne_as19 (et : Str) (cnt : Nat) (dt : Str) : as18Msg et cnt ≠ as19Msg dt := by
  intro h; simp [as18Msg, as19Msg, chars] at h

lemma as17_ne_as18 (t nid et : Str) (cnt : Nat) : as17Msg t nid ≠ as18Msg et cnt := by
  intro h; simp [as17Msg, as18Msg, chars] at h

lemma as16_ne_as18 (nid et : Str) (cnt : Nat) : as16Msg nid ≠ as18Msg et cnt := by
  intro h; simp [as16Msg, as18Msg, chars] at h

lemma as19_ne_as18 (dt et : Str) (cnt : Nat) : as19Msg dt ≠ as18Msg et cnt := by
  intro h; simp [as19Msg, as18Msg, chars] at h

lemma countP_card_filterMap (aid nid dt sheet : Str) (er : Nat)
    (g : Str → Bool) (ts : List Str) :
    List.countP (fun i : ValidationIssue => i.message == sheetCardMsg aid nid dt)
      (ts.filterMap (fun t => if g t then
          some { sheet := sheet, row := some er, field := some (chars "target"),
                 severity := Severity.error,
                 message := sheetNotFoundMsg aid nid t }
        else Option.none)) = 0 := by
  induction ts with
  | nil => rfl
  | cons t ts ih =>
      simp only [List.filterMap_cons]
      by_cases hg : g t
      · simp [hg, List.countP_cons, ih, sheet_msgs_ne]
      · simp [hg, ih]

lemma countP_19_filterMap (nid dt sheet : Str) (idx : Nat)
    (g : Str → Bool) (ts : List Str) :
    List.countP (fun i : ValidationIssue => i.message == as19Msg dt)
      (ts.filterMap (fun t => if g t then
          some { sheet := sheet, row := some idx, field := some (chars "target"),
                 severity := Severity.error, message := as17Msg t nid }
        else Option.none)) = 0 := by
  induction ts with
  | nil => rfl
  | cons t ts ih =>
      simp only [List.filterMap_cons]
      by_cases hg : g t
      · simp [hg, List.countP_cons, ih, as17_ne_as19]
      · simp [hg, ih]

lemma countP_18_filterMap (nid et : Str) (cnt : Nat) (sheet : Str) (idx : Nat)
    (g : Str → Bool) (ts : List Str) :
    List.countP (fun i : ValidationIssue => i.message == as18Msg et cnt)
      (ts.filterMap (fun t => if g t then
          some { sheet := sheet, row := some idx, field := some (chars "target"),
                 severity := Severity.error, message := as17Msg t nid }
        else Option.none)) = 0 := by
  induction ts with
  | nil => rfl
  | cons t ts ih =>
      simp only [List.filterMap_cons]
      by_cases hg : g t
      · simp [hg, List.countP_cons, ih, as17_ne_as18]
      · simp [hg, ih]

lemma sheet_card_count (row : Row) (excel_row : Nat) (sheet_name : Str)
    (nodeIdsPA : List (Str × List Str)) :
    (validate_level_facts_targets_row row excel_row sheet_name nodeIdsPA).countP
      (fun i => i.message == sheetCardMsg
        (pyUpper (get_str_value row (chars "assessmentId")))
        (pyUpper (get_str_value row (chars "nodeId")))
        (pyUpper (get_str_value row (chars "dataType")))) =
    (if ¬(is_row_to_skip (pyUpper (get_str_value row (chars "assessmentId")))
            (chars "assessmentId") = true
          ∨ pyUpper (get_str_value row (chars "target")) = NULL_VALUE)
        ∧ pyUpper (get_str_value row (chars "dataType")) ≠ chars "ENUMERATION"
        ∧ 1 < (splitTargets (pyUpper (get_str_value row (chars "target")))).length
     then 1 else 0) := by
  by_cases h : is_row_to_skip (pyUpper (get_str_value row (chars "assessmentId")))
      (chars "assessmentId") = true
      ∨ pyUpper (get_str_value row (chars "target")) = NULL_VALUE
  · have hb : (is_row_to_skip (pyUpper (get_str_value row (chars "assessmentId")))
        (chars "assessmentId")
        || (pyUpper (get_str_value row (chars "target")) == NULL_VALUE)) = true := by
      rcases h with h | h <;> simp [h]
    simp [validate_level_facts_targets_row, hb, h]
  · have hb : (is_row_to_skip (pyUpper (get_str_value row (chars "assessmentId")))
        (chars "assessmentId")
        || (pyUpper (get_str_value row (chars "target")) == NULL_VALUE)) = false := by
      push_neg at h
      simp [h.1, h.2]
    simp only [validate_level_facts_targets_row, hb, Bool.false_eq_true, if_false]
    simp only [List.countP_append, countP_card_filterMap]
    simp only [apply_ite (List.countP (fun i : ValidationIssue =>
      i.message == sheetCardMsg
        (pyUpper (get_str_value row (chars "assessmentId")))
        (pyUpper (get_str_value row (chars "nodeId")))
        (pyUpper (get_str_value row (chars "dataType"))))),
      List.countP_cons, List.countP_nil]
    simp only [beq_self_eq_true, if_true]
    split_ifs <;> simp_all

lemma api_as19_count (sheet_name : Str) (idx : Nat)
    (node_id data_type enum_type target : Str) (allNodeIds : List Str)
    (evs : List (Str × List EnumEntry)) :
    (api_validate_targets sheet_name idx node_id data_type enum_type target
        allNodeIds evs).countP
      (fun i => i.message == as19Msg data_type) =
    (if api_is_empty target = false ∧ data_type ≠ chars "ENUMERATION"
        ∧ 1 < ((splitOnChar '|' target).map pyStrip).length
     then 1 else 0) := by
  by_cases he : api_is_empty target
  · simp [api_validate_targets, he, List.countP_cons, as16_ne_as19]
  · simp only [api_validate_targets, he, Bool.false_eq_true, if_false]
    simp only [List.countP_append, countP_19_filterMap]
    simp only [apply_ite (List.countP
      (fun i : ValidationIssue => i.message == as19Msg data_type)),
      List.countP_cons, List.countP_nil]
    simp only [beq_self_eq_true, if_true]
    split_ifs <;> simp_all [as18_ne_as19] <;> omega

lemma api_as18_count (sheet_name : Str) (idx : Nat)
    (node_id data_type enum_type target : Str) (allNodeIds : List Str)
    (evs : List (Str × List EnumEntry)) :
    (api_validate_targets sheet_name idx node_id data_type enum_type target
        allNodeIds evs).countP
      (fun i => i.message == as18Msg enum_type ((evs.lookup enum_type).getD []).length) =
    (if api_is_empty target = false ∧ data_type = chars "ENUMERATION"
        ∧ (evs.lookup enum_type).isSome = true
        ∧ 1 < ((splitOnChar '|' target).map pyStrip).length
        ∧ ((splitOnChar '|' target).map pyStrip).length
            ≠ ((evs.lookup enum_type).getD []).length
     then 1 else 0) := by
  by_cases he : api_is_empty target
  · simp [api_validate_targets, he, List.countP_cons, as16_ne_as18]
  · simp only [api_validate_targets, he, Bool.false_eq_true, if_false]
    simp only [List.countP_append, countP_18_filterMap]
    simp only [apply_ite (List.countP
      (fun i : ValidationIssue => i.message == as18Msg enum_type
        ((evs.lookup enum_type).getD []).length)),
      List.countP_cons, List.countP_nil]
    simp only [beq_self_eq_true, if_true]
    split_ifs <;> simp_all [as19_ne_as18] <;> omega

lemma reachC_inv {c : ValidationCategory} (h : ReachC c) :
    (c.passed = false ↔ 0 < c.error_count)
    ∧ c.error_count = c.issues.countP (fun i => i.severity == Severity.error) := by
  induction h with
  | fresh name => simp [freshCategory]
  | add i hc ih =>
      rcases ih with ⟨ih1, ih2⟩
      unfold ValidationCategory.add_issue
      cases hsev : i.severity <;>
        simp [hsev, List.countP_append, List.countP_cons, ih2, ih1]

lemma reachR_inv {r : ValidationResult} (h : ReachR r) :
    r.is_valid = false ↔ ∃ i ∈ r.issues, i.severity = Severity.error := by
  induction h with
  | fresh lvl t => simp [freshResult]
  | add i hr ih =>
      unfold ValidationResult.add_issue
      by_cases hsev : i.severity = Severity.error
      · simp only [hsev, if_pos rfl]
        constructor
        · intro _
          exact ⟨i, by simp, hsev⟩
        · intro _
          rfl
      · rw [if_neg hsev]
        simp only [List.mem_append, List.mem_singleton]
        constructor
        · intro hv
          rcases ih.mp hv with ⟨j, hj, hje⟩
          exact ⟨j, Or.inl hj, hje⟩
        · rintro ⟨j, hj | rfl, hje⟩
          · exact ih.mpr ⟨j, hj, hje⟩
          · exact absurd hje hsev
  | mrg hr hr2 ih ih2 =>
      rename_i r1 r2p
      unfold ValidationResult.mergeWith
      by_cases h2 : r2p.is_valid = false
      · rw [if_pos h2]
        constructor
        · intro _
          rcases ih2.mp h2 with ⟨j, hj, hje⟩
          exact ⟨j, by simp [hj], hje⟩
        · intro _
          rfl
      · rw [if_neg h2]
        simp only [List.mem_append]
        constructor
        · intro hv
          rcases ih.mp hv with ⟨j, hj, hje⟩
          exact ⟨j, Or.inl hj, hje⟩
        · rintro ⟨j, hj | hj, hje⟩
          · exact ih.mpr ⟨j, hj, hje⟩
          · exact absurd (ih2.mpr ⟨j, hj, hje⟩) h2
  | addCat hr hc ihr =>
      rename_i r1 c1
      have hcinv := reachC_inv hc
      unfold ValidationResult.add_category
      by_cases hp : c1.passed = false
      · rw [if_pos hp]
        constructor
        · intro _
          have hpos : 0 < c1.issues.countP (fun i => i.severity == Severity.error) := by
            rw [← hcinv.2]
            exact hcinv.1.mp hp
          rcases List.countP_pos_iff.mp hpos with ⟨j, hj, hje⟩
          exact ⟨j, by simp [hj], by simpa using hje⟩
        · intro _
          rfl
      · rw [if_neg hp]
        simp only [List.mem_append]
        constructor
        · intro hv
          rcases ihr.mp hv with ⟨j, hj, hje⟩
          exact ⟨j, Or.inl hj, hje⟩
        · rintro ⟨j, hj | hj, hje⟩
          · exact ihr.mpr ⟨j, hj, hje⟩
          · exfalso
            apply hp
            apply hcinv.1.mpr
            rw [hcinv.2]
            exact List.countP_pos_iff.mpr ⟨j, hj, by simpa using hje⟩


lemma natToCharsAux_cons (fuel n : Nat) :
    ∃ k t, k < 10 ∧ natToCharsAux (fuel + 1) n = digitChar k :: t := by
  induction fuel generalizing n with
  | zero =>
      by_cases h : n < 10
      · exact ⟨n, [], h, by simp [natToCharsAux, h]⟩
      · exact ⟨n % 10, [], Nat.mod_lt _ (by omega),
          by simp [natToCharsAux, h]⟩
  | succ f ih =>
      by_cases h : n < 10
      · exact ⟨n, [], h, by simp [natToCharsAux, h]⟩
      · rcases ih (n / 10) with ⟨k, t, hk, heq⟩
        refine ⟨k, t ++ [digitChar (n % 10)], hk, ?_⟩
        conv_lhs => rw [natToCharsAux]
        rw [if_neg h, heq]
        simp

lemma natToChars_cons (n : Nat) :
    ∃ k t, k < 10 ∧ natToChars n = digitChar k :: t :=
  natToCharsAux_cons n n

lemma digitChar_not_ws (k : Nat) : pyIsWS (digitChar k) = false := by
  unfold digitChar
  split <;> decide

lemma digitChar_upper (k : Nat) : pyUpperChar (digitChar k) = digitChar k := by
  unfold digitChar
  split <;> decide

lemma digitChar_ne_lt (k : Nat) : digitChar k ≠ '<' := by
  unfold digitChar
  split <;> decide

lemma durationStr_cons (mn mx : Nat) :
    ∃ k t, k < 10 ∧ durationStr mn mx = digitChar k :: t := by
  unfold durationStr
  rcases natToChars_cons mn with ⟨k, t, hk, heq⟩
  split_ifs with h1 h2
  · exact ⟨k, t ++ chars " minute" ++ chars "s", hk, by rw [heq]; simp⟩
  · exact ⟨k, t ++ chars " minute", hk, by rw [heq]; simp⟩
  · exact ⟨k, t ++ chars " - " ++ natToChars mx ++ chars " minutes", hk, by
      rw [heq]; simp⟩

lemma pyStrip_cons_of_not_ws {c : Char} {t : Str} (h : pyIsWS c = false) :
    ∃ t2, pyStrip (c :: t) = c :: t2 := by
  unfold pyStrip
  rw [List.dropWhile_cons_of_neg (by simp [h])]
  have hsfx : (c :: t).reverse.dropWhile pyIsWS <:+ (c :: t).reverse :=
    List.dropWhile_suffix _
  have hne : (c :: t).reverse.dropWhile pyIsWS ≠ [] := by
    rw [Ne, List.dropWhile_eq_nil_iff]
    push_neg
    exact ⟨c, by simp, by simp [h]⟩
  have hpre : ((c :: t).reverse.dropWhile pyIsWS).reverse <+: c :: t := by
    apply List.reverse_suffix.mp
    rwa [List.reverse_reverse]
  rcases hpre with ⟨u, hu⟩
  cases hrev : ((c :: t).reverse.dropWhile pyIsWS).reverse with
  | nil =>
      exfalso
      apply hne
      have := congrArg List.reverse hrev
      simpa using this
  | cons a r =>
      refine ⟨r, ?_⟩
      rw [hrev] at hu
      have hac : a = c := by
        simp only [List.cons_append] at hu
        exact ((List.cons.injEq _ _ _ _).mp hu).1
      rw [hac]

lemma durationNotSpecified_durationStr (mn mx : Nat) :
    durationNotSpecified (durationStr mn mx) = false := by
  rcases durationStr_cons mn mx with ⟨k, t, hk, heq⟩
  rw [heq]
  unfold durationNotSpecified is_empty_str
  rcases pyStrip_cons_of_not_ws (t := t) (digitChar_not_ws k) with ⟨t2, hstrip⟩
  rw [hstrip]
  have h1 : ((digitChar k :: t : Str) == NULL_VALUE) = false := by
    rw [beq_eq_false_iff_ne]
    intro hd
    have : digitChar k = '<' := by
      have := (List.cons.injEq _ _ _ _).mp hd
      exact this.1
    exact digitChar_ne_lt k this
  have h2 : (pyUpper (digitChar k :: t2) == pyUpper NULL_VALUE) = false := by
    rw [beq_eq_false_iff_ne]
    intro hd
    unfold pyUpper at hd
    simp only [List.map_cons] at hd
    rw [digitChar_upper] at hd
    have : digitChar k = '<' := by
      have h3 := (List.cons.injEq _ _ _ _).mp (by
        simpa [NULL_VALUE, chars] using hd)
      exact h3.1
    exact digitChar_ne_lt k this
  simp [h1, h2]


lemma lookup_mapSet_self {α : Type} (m : List (Str × α)) (k : Str) (v : α) :
    (mapSet m k v).lookup k = some v := by
  induction m with
  | nil => simp [mapSet, List.lookup]
  | cons p rest ih =>
      obtain ⟨k0, v0⟩ := p
      by_cases h : k0 = k
      · simp [mapSet, h, List.lookup]
      · simp only [mapSet, show (k0 == k) = false by simp [h], Bool.false_eq_true,
          if_false]
        simp [List.lookup, show (k == k0) = false by simp [Ne.symm h], ih]

lemma lookup_mapSet_ne {α : Type} (m : List (Str × α)) (k : Str) (v : α)
    (k2 : Str) (h : k2 ≠ k) : (mapSet m k v).lookup k2 = m.lookup k2 := by
  induction m with
  | nil => simp [mapSet, List.lookup, show (k2 == k) = false by simp [h]]
  | cons p rest ih =>
      obtain ⟨k0, v0⟩ := p
      by_cases h0 : k0 = k
      · subst h0
        simp [mapSet, List.lookup, show (k2 == k0) = false by simp [h]]
      · simp only [mapSet, show (k0 == k) = false by simp [h0], Bool.false_eq_true,
          if_false]
        by_cases h2 : k2 = k0
        · simp [List.lookup, h2]
        · simp [List.lookup, show (k2 == k0) = false by simp [h2], ih]

lemma durStep_lookup_ne (a : List (Str × AssessmentRec))
    (is : List ValidationIssue) (p : Str × GroupEntry) (k : Str)
    (h : k ≠ p.1) : (durStep (a, is) p).1.lookup k = a.lookup k := by
  unfold durStep
  cases hl : a.lookup p.1 with
  | none => simp [hl]
  | some ar =>
      by_cases hn : durationNotSpecified ar.estimatedDuration
      · simp [hl, hn, lookup_mapSet_ne _ _ _ _ h]
      · simp [hl, hn]

lemma durStep_lookup_self (a : List (Str × AssessmentRec))
    (is : List ValidationIssue) (p : Str × GroupEntry) :
    (durStep (a, is) p).1.lookup p.1 =
      (match a.lookup p.1 with
       | some ar => some (specDurOutcome ar p.2)
       | Option.none => Option.none) := by
  unfold durStep specDurOutcome groupDuration
  cases hl : a.lookup p.1 with
  | none => simp [hl]
  | some ar =>
      by_cases hn : durationNotSpecified ar.estimatedDuration
      · simp [hl, hn, lookup_mapSet_self]
      · simp [hl, hn]

lemma durStep_issues (a : List (Str × AssessmentRec))
    (is : List ValidationIssue) (p : Str × GroupEntry) :
    (durStep (a, is) p).2 = is ++ (specDurIssue a p).toList := by
  unfold durStep specDurIssue groupDuration
  cases hl : a.lookup p.1 with
  | none => simp [hl]
  | some ar =>
      by_cases hn : durationNotSpecified ar.estimatedDuration
      · simp [hl, hn]
      · simp [hl, hn]

lemma durFold_lookup_notmem (gs : List (Str × GroupEntry)) :
    ∀ (a : List (Str × AssessmentRec)) (is : List ValidationIssue) (k : Str),
    k ∉ gs.map Prod.fst →
    (gs.foldl durStep (a, is)).1.lookup k = a.lookup k := by
  induction gs with
  | nil => intro a is k _; rfl
  | cons p gs ih =>
      intro a is k hk
      simp only [List.map_cons, List.mem_cons] at hk
      push_neg at hk
      simp only [List.foldl_cons]
      rcases hst : durStep (a, is) p with ⟨a1, is1⟩
      have h1 : a1.lookup k = a.lookup k := by
        have := durStep_lookup_ne a is p k hk.1
        rw [hst] at this
        exact this
      rw [ih a1 is1 k hk.2, h1]

lemma durFold_lookup_mem (gs : List (Str × GroupEntry)) :
    ∀ (a : List (Str × AssessmentRec)) (is : List ValidationIssue),
    (gs.map Prod.fst).Nodup →
    ∀ aid grp, (aid, grp) ∈ gs →
    (gs.foldl durStep (a, is)).1.lookup aid =
      (match a.lookup aid with
       | some ar => some (specDurOutcome ar grp)
       | Option.none => Option.none) := by
  induction gs with
  | nil => intro _ _ _ _ _ h; cases h
  | cons p gs ih =>
      intro a is hnd aid grp hmem
      simp only [List.map_cons, List.nodup_cons] at hnd
      simp only [List.foldl_cons]
      rcases hst : durStep (a, is) p with ⟨a1, is1⟩
      rcases List.mem_cons.mp hmem with heq | htail
      · have hp1 : p.1 = aid := by rw [← heq]
        have hnot : aid ∉ gs.map Prod.fst := by
          rw [← hp1]; exact hnd.1
        rw [durFold_lookup_notmem gs a1 is1 aid hnot]
        have := durStep_lookup_self a is p
        rw [hst] at this
        rw [hp1] at this
        rw [this]
        have hgrp : p.2 = grp := by rw [← heq]
        rw [hgrp]
      · have haidne : aid ≠ p.1 := by
          intro he
          apply hnd.1
          rw [← he]
          exact List.mem_map.mpr ⟨(aid, grp), htail, rfl⟩
        have h1 : a1.lookup aid = a.lookup aid := by
          have := durStep_lookup_ne a is p aid haidne
          rw [hst] at this
          exact this
        rw [ih a1 is1 hnd.2 aid grp htail, h1]

lemma durFold_issues (gs : List (Str × GroupEntry)) :
    ∀ (a : List (Str × AssessmentRec)) (is : List ValidationIssue),
    (gs.map Prod.fst).Nodup →
    (gs.foldl durStep (a, is)).2 = is ++ gs.filterMap (specDurIssue a) := by
  induction gs with
  | nil => intro a is _; simp
  | cons p gs ih =>
      intro a is hnd
      simp only [List.map_cons, List.nodup_cons] at hnd
      simp only [List.foldl_cons]
      rcases hst : durStep (a, is) p with ⟨a1, is1⟩
      have his1 : is1 = is ++ (specDurIssue a p).toList := by
        have := durStep_issues a is p
        rw [hst] at this
        exact this
      have hcongr : gs.filterMap (specDurIssue a1) = gs.filterMap (specDurIssue a) := by
        apply List.filterMap_congr
        intro q hq
        have hne : q.1 ≠ p.1 := by
          intro he
          apply hnd.1
          rw [← he]
          exact List.mem_map.mpr ⟨q, hq, rfl⟩
        have hl : a1.lookup q.1 = a.lookup q.1 := by
          have := durStep_lookup_ne a is p q.1 hne
          rw [hst] at this
          exact this
        unfold specDurIssue
        rw [hl]
      rw [ih a1 is1 hnd.2, his1, hcongr]
      rw [List.filterMap_cons]
      cases hsp : specDurIssue a p with
      | none => simp [hsp]
      | some v => simp [hsp]


lemma durFold_noop (gs : List (Str × GroupEntry)) :
    ∀ (a : List (Str × AssessmentRec)) (is : List ValidationIssue),
    (∀ p ∈ gs, ∀ ar, a.lookup p.1 = some ar →
      durationNotSpecified ar.estimatedDuration = false) →
    gs.foldl durStep (a, is) = (a, is) := by
  induction gs with
  | nil => intro a is _; rfl
  | cons p gs ih =>
      intro a is h
      simp only [List.foldl_cons]
      have hstep : durStep (a, is) p = (a, is) := by
        unfold durStep
        cases hl : a.lookup p.1 with
        | none => simp [hl]
        | some ar => simp [hl, h p (by simp) ar hl]
      rw [hstep]
      exact ih a is (fun q hq => h q (by simp [hq]))

lemma group_scan_eq (ev : List (Str × List EnumEntry)) (row : Nat) (g : Str)
    (fd : List (Str × FactData)) :
    validate_group_boolean_mapping ev row g fd =
      ((specFirstMissing ev g fd).map
        (fun t => missingMappingIssue row g t.1 t.2.1 t.2.2)).toList := by
  induction fd with
  | nil => rfl
  | cons p rest ih =>
      obtain ⟨fid, f⟩ := p
      unfold validate_group_boolean_mapping specFirstMissing
      by_cases hc : (f.factGroup == g && decide (f.enumerationType ≠ [])
          && (ev.lookup f.enumerationType).isSome) = true
      · rw [List.findSome?_cons]
        simp only [hc, if_true]
        cases hf : ((ev.lookup f.enumerationType).getD []).find?
            (fun e => e.derivedBooleanValue.isNone) with
        | none =>
            simp only [hf]
            exact ih.trans (by unfold specFirstMissing; rfl)
        | some e => simp [hf]
      · rw [List.findSome?_cons]
        simp only [hc, Bool.false_eq_true, if_false]
        exact ih.trans (by unfold specFirstMissing; rfl)

lemma group_refs_all_same (fg : List Str) (fd : List (Str × FactData))
    (ev : List (Str × List EnumEntry)) (row : Nat) (g : Str) (hg : fg.contains g) :
    ∀ gm : List Str, (∀ g2 ∈ gm, g2 = g) →
    (api_validate_group_refs gm fg fd ev row).length =
      gm.length * (validate_group_boolean_mapping ev row g fd).length := by
  intro gm
  induction gm with
  | nil => intro _; simp [api_validate_group_refs]
  | cons x rest ih =>
      intro hall
      have hx : x = g := hall x (by simp)
      unfold api_validate_group_refs
      simp only [List.flatMap_cons]
      rw [hx]
      simp only [hg, if_true, Bool.not_true, Bool.false_eq_true, if_false]
      have ihr := ih (fun g2 h2 => hall g2 (by simp [h2]))
      unfold api_validate_group_refs at ihr
      rw [List.length_append, ihr]
      simp [Nat.succ_mul, Nat.add_comm]


lemma specFirstMissing_isSome (ev : List (Str × List EnumEntry)) (g : Str)
    (fd : List (Str × FactData)) :
    (specFirstMissing ev g fd).isSome = true ↔
      ∃ p ∈ fd, p.2.factGroup = g ∧ p.2.enumerationType ≠ []
        ∧ ∃ e ∈ (ev.lookup p.2.enumerationType).getD [],
            e.derivedBooleanValue = Option.none := by
  induction fd with
  | nil =>
      simp only [specFirstMissing, List.findSome?_nil, Option.isSome_none,
        Bool.false_eq_true, false_iff]
      rintro ⟨p, hp, -⟩
      exact absurd hp (List.not_mem_nil p)
  | cons p rest ih =>
      unfold specFirstMissing
      rw [List.findSome?_cons]
      by_cases hc : (p.2.factGroup == g && decide (p.2.enumerationType ≠ [])
          && (ev.lookup p.2.enumerationType).isSome) = true
      · simp only [hc, if_true]
        simp only [Bool.and_eq_true, beq_iff_eq, decide_eq_true_eq] at hc
        cases hf : ((ev.lookup p.2.enumerationType).getD []).find?
            (fun e => e.derivedBooleanValue.isNone) with
        | some e =>
            simp only [hf, Option.isSome_some, true_iff]
            refine ⟨p, List.mem_cons_self p rest, hc.1.1, hc.1.2, e,
              List.mem_of_find?_eq_some hf, ?_⟩
            have := List.find?_some hf
            simpa [Option.isNone_iff_eq_none] using this
        | none =>
            simp only [hf]
            rw [show (specFirstMissing ev g rest) = rest.findSome? _ from rfl] at ih
            rw [ih]
            constructor
            · rintro ⟨q, hq, h1, h2, e, he, hnone⟩
              exact ⟨q, List.mem_cons_of_mem p hq, h1, h2, e, he, hnone⟩
            · rintro ⟨q, hq, h1, h2, e, he, hnone⟩
              rcases List.mem_cons.mp hq with rfl | hq2
              · exfalso
                have hson := List.find?_eq_none.mp hf e he
                simp [hnone] at hson
              · exact ⟨q, hq2, h1, h2, e, he, hnone⟩
      · simp only [hc, Bool.false_eq_true, if_false]
        rw [show (specFirstMissing ev g rest) = rest.findSome? _ from rfl] at ih
        rw [ih]
        simp only [Bool.and_eq_true, beq_iff_eq, decide_eq_true_eq, not_and] at hc
        constructor
        · rintro ⟨q, hq, h1, h2, e, he, hnone⟩
          exact ⟨q, List.mem_cons_of_mem p hq, h1, h2, e, he, hnone⟩
        · rintro ⟨q, hq, h1, h2, e, he, hnone⟩
          rcases List.mem_cons.mp hq with rfl | hq2
          · exfalso
            by_cases hq3 : (ev.lookup q.2.enumerationType).isSome = true
            · exact absurd hq3 (by
                intro hx
                have := hc ⟨h1, h2⟩
                exact absurd hx this)
            · rw [Option.not_isSome_iff_eq_none] at hq3
              rw [hq3] at he
              simp at he
          · exact ⟨q, hq2, h1, h2, e, he, hnone⟩


lemma msg_invalid_factId_ne_op (fid : Str) :
    ¬ (chars "Invalid factId \x27" ++ fid ++ chars "\x27" = opMisuseMsg) := by
  intro h; simp [chars, opMisuseMsg] at h

lemma msg_invalid_factGroup_ne_op (g : Str) :
    ¬ (chars "Invalid factGroup \x27" ++ g ++ chars "\x27" = opMisuseMsg) := by
  intro h; simp [chars, opMisuseMsg] at h

lemma opMisuseScan_count (mkI : Str → ValidationIssue)
    (hmk : (mkI opMisuseMsg).message = opMisuseMsg) (terms : List Str) :
    (opMisuseScan mkI terms).countP (fun i => i.message == opMisuseMsg) =
      if terms.any (fun t => hasFactCall t && hasOrderingOp t) then 1 else 0 := by
  induction terms with
  | nil => rfl
  | cons t rest ih =>
      unfold opMisuseScan
      by_cases hc : (hasFactCall t && hasOrderingOp t) = true
      · simp [hc, List.countP_cons, hmk]
      · simp [hc, ih]

lemma countP_op_factErrs (mkI : Str → ValidationIssue)
    (hmk : ∀ m, (mkI m).message = m) (L fs : List Str) :
    (L.filterMap (fun fid =>
        if !fs.contains (pyUpper fid) then
          some (mkI (chars "Invalid factId \x27" ++ fid ++ chars "\x27"))
        else Option.none)).countP (fun i => i.message == opMisuseMsg) = 0 := by
  rw [List.countP_eq_zero]
  intro i hi
  rw [List.mem_filterMap] at hi
  obtain ⟨fid, -, hfi⟩ := hi
  split at hfi
  · cases hfi
    simp only [hmk, beq_iff_eq]
    exact fun h => msg_invalid_factId_ne_op fid h
  · cases hfi

lemma countP_op_groupErrs (mkI : Str → ValidationIssue)
    (hmk : ∀ m, (mkI m).message = m) (L fs : List Str) :
    (L.filterMap (fun g =>
        if !fs.contains (pyUpper g) then
          some (mkI (chars "Invalid factGroup \x27" ++ g ++ chars "\x27"))
        else Option.none)).countP (fun i => i.message == opMisuseMsg) = 0 := by
  rw [List.countP_eq_zero]
  intro i hi
  rw [List.mem_filterMap] at hi
  obtain ⟨g, -, hfi⟩ := hi
  split at hfi
  · cases hfi
    simp only [hmk, beq_iff_eq]
    exact fun h => msg_invalid_factGroup_ne_op g h
  · cases hfi

lemma algo_terms_op_count (sheet_name : Str) (row : Nat) (algorithm : Str)
    (fids fgs : List Str) :
    (validate_algorithm_terms sheet_name row algorithm fids fgs).countP
        (fun i => i.message == opMisuseMsg) =
      if (findQuotedRefs true (chars "fact") algorithm ≠ [])
          ∧ (splitBoundary algorithm).any
              (fun t => hasFactCall t && hasOrderingOp t) = true
      then 1 else 0 := by
  unfold validate_algorithm_terms
  simp only [List.countP_append]
  rw [countP_op_factErrs _ (fun m => rfl), countP_op_groupErrs _ (fun m => rfl)]
  by_cases h1 : findQuotedRefs true (chars "fact") algorithm = []
  · simp [h1]
  · rw [if_pos (decide_eq_true h1)]
    rw [opMisuseScan_count _ rfl]
    by_cases h2 : (splitBoundary algorithm).any
        (fun t => hasFactCall t && hasOrderingOp t) = true
    · simp [h1, h2]
    · simp [h1, h2]


lemma vf_type_warn (fn : Str) (v : Cell) (sn : Str)
    (cd : ColumnDefinition) (r : ValidationResult) :
    (validate_field_type fn v sn cd r).issues.countP
        (fun i => i.severity == Severity.warning) =
      r.issues.countP (fun i => i.severity == Severity.warning) +
        (if ((cd.data_type == chars "string")
            && (match cd.pattern with
                | some p => !p (svalOf v)
                | Option.none => false)) = true
         then 1 else 0) := by
  unfold validate_field_type
  by_cases hdt : (cd.data_type == chars "string") = true
  · rw [if_pos hdt]
    cases hp : cd.pattern <;> cases hml : cd.max_length <;>
      split_ifs <;>
      simp_all [ValidationResult.add_issue, List.countP_append] <;>
      (try (split_ifs <;>
        simp_all [ValidationResult.add_issue, List.countP_append]))
  · rw [if_neg hdt]
    have hd2 : (cd.data_type == chars "string") = false := by
      revert hdt; cases cd.data_type == chars "string" <;> simp
    rw [hd2]
    simp only [Bool.false_and, Bool.false_eq_true, if_false, Nat.add_zero]
    split_ifs <;> cases v <;>
      simp_all [ValidationResult.add_issue, List.countP_append] <;>
      (try (split_ifs <;>
        simp_all [ValidationResult.add_issue, List.countP_append]))

lemma vf_unique_warn (fn : Str) (v : Cell) (sn : Str) (ex : List Cell)
    (ie : Bool) (ov : Cell) (cd : ColumnDefinition) (r : ValidationResult) :
    (validate_field_unique fn v sn ex ie ov cd r).issues.countP
        (fun i => i.severity == Severity.warning) =
      r.issues.countP (fun i => i.severity == Severity.warning) := by
  unfold validate_field_unique
  split_ifs <;>
    simp_all [ValidationResult.add_issue, List.countP_append] <;>
    (try (split_ifs <;>
      simp_all [ValidationResult.add_issue, List.countP_append]))


lemma vf_required (fn : Str) (v : Cell) (sn : Str) (ex : List Cell)
    (ie : Bool) (ov : Cell) (cd : ColumnDefinition)
    (hreq : cd.required = true)
    (hemp : fieldValueEmpty (cleanCell v) = true) :
    (validate_field fn v sn ex ie ov cd).issues =
      [{ sheet := sn, row := Option.none, field := some fn,
         severity := Severity.error,
         message := cd.display_name ++ chars " is required" }] := by
  unfold validate_field
  rw [if_pos (by simp [hreq, hemp])]
  simp [freshResult, ValidationResult.add_issue]

lemma vf_optional_empty (fn : Str) (v : Cell) (sn : Str) (ex : List Cell)
    (ie : Bool) (ov : Cell) (cd : ColumnDefinition)
    (hreq : cd.required = false)
    (hemp : fieldValueEmpty (cleanCell v) = true) :
    (validate_field fn v sn ex ie ov cd).issues = [] := by
  unfold validate_field
  rw [if_neg (c := _ = true) (by simp [hreq]), if_pos hemp]
  simp [freshResult]

lemma vf_warn_count (fn : Str) (v : Cell) (sn : Str) (ex : List Cell)
    (ie : Bool) (ov : Cell) (cd : ColumnDefinition) :
    (validate_field fn v sn ex ie ov cd).issues.countP
        (fun i => i.severity == Severity.warning) =
      if (!fieldValueEmpty (cleanCell v)
          && (cd.data_type == chars "string")
          && (match cd.pattern with
              | some p => !p (svalOf (cleanCell v))
              | Option.none => false)) = true
      then 1 else 0 := by
  unfold validate_field
  by_cases hemp : fieldValueEmpty (cleanCell v) = true
  · by_cases hr : cd.required = true <;>
      simp [hemp, hr, freshResult, ValidationResult.add_issue]
  · have hemp2 : fieldValueEmpty (cleanCell v) = false := by
      revert hemp; cases fieldValueEmpty (cleanCell v) <;> simp
    rw [if_neg (c := _ = true) (by simp [hemp2]),
        if_neg (c := _ = true) (by simp [hemp2])]
    rw [vf_unique_warn, vf_type_warn]
    simp [freshResult, hemp2]

lemma vf_boolean (fn : Str) (v : Cell) (sn : Str) (ex : List Cell)
    (ie : Bool) (ov : Cell) (cd : ColumnDefinition) (s : Str)
    (hdt : cd.data_type = chars "boolean") (hu : cd.unique = false)
    (hs : cleanCell v = Cell.str s)
    (hemp : fieldValueEmpty (cleanCell v) = false) :
    (validate_field fn v sn ex ie ov cd).issues =
      if [chars "TRUE", chars "FALSE", chars "YES", chars "NO",
          chars "1", chars "0"].contains (pyUpper s) then []
      else [{ sheet := sn, row := Option.none, field := some fn,
              severity := Severity.error,
              message := cd.display_name
                ++ chars " must be a boolean value" }] := by
  unfold validate_field
  rw [if_neg (c := _ = true) (by simp [hemp]), if_neg (c := _ = true) (by simp [hemp])]
  unfold validate_field_unique
  rw [if_neg (c := _ = true) (by simp [hu])]
  unfold validate_field_type
  rw [hdt, hs]
  rw [if_neg (c := _ = true) (by decide), if_pos (by decide)]
  split_ifs <;> simp_all [freshResult, ValidationResult.add_issue]

lemma vf_integer (fn : Str) (v : Cell) (sn : Str) (ex : List Cell)
    (ie : Bool) (ov : Cell) (cd : ColumnDefinition)
    (hdt : cd.data_type = chars "integer") (hu : cd.unique = false)
    (hemp : fieldValueEmpty (cleanCell v) = false) :
    (validate_field fn v sn ex ie ov cd).issues =
      if cellIntParseable (cleanCell v) then []
      else [{ sheet := sn, row := Option.none, field := some fn,
              severity := Severity.error,
              message := cd.display_name
                ++ chars " must be an integer" }] := by
  unfold validate_field
  rw [if_neg (c := _ = true) (by simp [hemp]), if_neg (c := _ = true) (by simp [hemp])]
  unfold validate_field_unique
  rw [if_neg (c := _ = true) (by simp [hu])]
  unfold validate_field_type
  rw [hdt]
  rw [if_neg (c := _ = true) (by decide), if_neg (c := _ = true) (by decide),
      if_pos (by decide)]
  split_ifs <;> simp_all [freshResult, ValidationResult.add_issue]

lemma vf_unique_check (fn : Str) (v : Cell) (sn : Str) (ex : List Cell)
    (ie : Bool) (ov : Cell) (cd : ColumnDefinition)
    (hd1 : cd.data_type ≠ chars "string")
    (hd2 : cd.data_type ≠ chars "boolean")
    (hd3 : cd.data_type ≠ chars "integer")
    (hu : cd.unique = true) (hex : ex ≠ [])
    (hemp : fieldValueEmpty (cleanCell v) = false) :
    (validate_field fn v sn ex ie ov cd).issues =
      if (if ie && cellTruthy ov then
            ((ex.filter (fun w => w ≠ Cell.none)).map uniqueNorm).filter
              (fun w => w ≠ uniqueNorm ov)
          else (ex.filter (fun w => w ≠ Cell.none)).map uniqueNorm).contains
          (if cellTruthy (cleanCell v) then uniqueNorm (cleanCell v) else [])
      then [{ sheet := sn, row := Option.none, field := some fn,
              severity := Severity.error,
              message := cd.display_name ++ chars " \x27"
                ++ pyStr (cleanCell v) ++ chars "\x27 already exists" }]
      else [] := by
  unfold validate_field
  rw [if_neg (c := _ = true) (by simp [hemp]), if_neg (c := _ = true) (by simp [hemp])]
  unfold validate_field_type
  rw [if_neg (c := _ = true) (by simp [hd1]),
      if_neg (c := _ = true) (by simp [hd2]),
      if_neg (c := _ = true) (by simp [hd3])]
  unfold validate_field_unique
  rw [if_pos (by simp [hu, hex])]
  split_ifs <;>
    simp_all [freshResult, ValidationResult.add_issue] <;>
    (try (split_ifs <;>
      simp_all [freshResult, ValidationResult.add_issue])) <;>
    (try tauto)


lemma addIssues_issues (r : ValidationResult) (xs : List ValidationIssue) :
    (addIssues r xs).issues = r.issues ++ xs := by
  induction xs generalizing r with
  | nil => simp [addIssues]
  | cons x rest ih =>
      unfold addIssues at *
      rw [List.foldl_cons, ih]
      simp [ValidationResult.add_issue]

lemma addIssues_valid (r : ValidationResult) (xs : List ValidationIssue) :
    (addIssues r xs).is_valid =
      (r.is_valid && !xs.any (fun i => i.severity == Severity.error)) := by
  induction xs generalizing r with
  | nil => simp [addIssues]
  | cons x rest ih =>
      unfold addIssues at *
      rw [List.foldl_cons, ih]
      by_cases hx : x.severity = Severity.error <;>
        simp [ValidationResult.add_issue, hx] <;>
        cases r.is_valid <;> simp <;> (try tauto)

lemma foldl_skip {α β : Type} (f : α → β → α) (x : β)
    (hx : ∀ a, f a x = a) (pre post : List β) (init : α) :
    (pre ++ x :: post).foldl f init = (pre ++ post).foldl f init := by
  rw [List.foldl_append, List.foldl_append, List.foldl_cons, hx]

lemma build_modules_step_skip (idx : Nat) (r : Row)
    (h : get_str_value r (chars "moduleCode") = NULL_VALUE
      ∨ is_comment (get_str_value r (chars "moduleCode")) = true)
    (a : (List (Str × ModuleRec)) × List ValidationIssue) :
    build_modules_step a (idx, r) = a := by
  unfold build_modules_step
  rcases h with h | h <;> simp [h]

lemma build_assessments_step_skip (idx : Nat) (r : Row)
    (h : get_str_value r (chars "assessmentCode") = NULL_VALUE
      ∨ is_comment (get_str_value r (chars "assessmentCode")) = true)
    (a : (List (Str × AssessmentRec)) × List ValidationIssue) :
    build_assessments_step a (idx, r) = a := by
  unfold build_assessments_step
  rcases h with h | h <;> simp [h]

lemma build_grouped_step_skip (sn : Str) (idx : Nat) (r : Row)
    (h : get_str_value r (chars "nodeId") = NULL_VALUE
      ∨ is_comment (get_str_value r (chars "nodeId")) = true)
    (a : GNState) :
    build_grouped_step sn a (idx, r) = a := by
  unfold build_grouped_step
  rcases h with h | h
  · rw [if_pos (by rw [h]; decide)]
  · rw [if_pos (by simp [is_row_to_skip, h])]

lemma vf_maxlen (fn : Str) (v : Cell) (sn : Str) (ex : List Cell)
    (ie : Bool) (ov : Cell) (cd : ColumnDefinition) (m : Nat)
    (hdt : cd.data_type = chars "string") (hml : cd.max_length = some m)
    (hp : cd.pattern = Option.none) (hu : cd.unique = false)
    (hemp : fieldValueEmpty (cleanCell v) = false) :
    (validate_field fn v sn ex ie ov cd).issues =
      if (decide (m ≠ 0) && decide ((svalOf (cleanCell v)).length > m)) = true
      then [{ sheet := sn, row := Option.none, field := some fn,
              severity := Severity.error,
              message := cd.display_name ++ chars " must be "
                ++ natToChars m ++ chars " characters or less" }]
      else [] := by
  unfold validate_field
  rw [if_neg (c := _ = true) (by simp [hemp]),
      if_neg (c := _ = true) (by simp [hemp])]
  unfold validate_field_unique
  rw [if_neg (c := _ = true) (by simp [hu])]
  unfold validate_field_type
  rw [if_pos (by simp [hdt]), hml, hp]
  split_ifs <;>
    simp_all [freshResult, ValidationResult.add_issue] <;>
    (try (split_ifs <;> simp_all [freshResult, ValidationResult.add_issue])) <;>
    (try omega)

lemma sheet_dup_two (sn pk : Str)
    (hpk : get_primary_key_columns sn = [pk])
    (idx1 idx2 : Nat) (r1 r2 : Row)
    (h1 : get_str_value r1 pk ≠ NULL_VALUE)
    (h1c : is_comment (get_str_value r1 pk) = false)
    (h2 : get_str_value r2 pk ≠ NULL_VALUE)
    (h2c : is_comment (get_str_value r2 pk) = false)
    (heq : pyUpper (get_str_value r1 pk) = pyUpper (get_str_value r2 pk)) :
    sheetDupIssues sn [(idx1, r1), (idx2, r2)] =
      [{ sheet := sn, row := some (idx2 + 2), field := some pk,
         severity := Severity.error,
         message := chars "Duplicate " ++ pk ++ chars "=\x27"
           ++ get_str_value r2 pk ++ chars "\x27 found" }] := by
  have s1 : sheetDupRow sn [pk] r1 (idx1 + 2) [(pk, ([] : List Str))] =
      ([(pk, [pyUpper (get_str_value r1 pk)])], []) := by
    unfold sheetDupRow
    simp only [List.foldl_cons, List.foldl_nil]
    rw [if_pos (by simp [h1, h1c])]
    simp [mapFind, mapSet, setAdd, List.lookup_cons]
  have s2 : sheetDupRow sn [pk] r2 (idx2 + 2)
      [(pk, [pyUpper (get_str_value r1 pk)])] =
      ([(pk, [pyUpper (get_str_value r1 pk)])],
       [{ sheet := sn, row := some (idx2 + 2), field := some pk,
          severity := Severity.error,
          message := chars "Duplicate " ++ pk ++ chars "=\x27"
            ++ get_str_value r2 pk ++ chars "\x27 found" }]) := by
    unfold sheetDupRow
    simp only [List.foldl_cons, List.foldl_nil]
    rw [if_pos (by simp [h2, h2c])]
    rw [← heq]
    simp [mapFind, mapSet, setAdd, List.lookup_cons]
  unfold sheetDupIssues
  rw [hpk]
  simp only [List.foldl_cons, List.foldl_nil, List.map_cons, List.map_nil]
  rw [s1]
  simp only []
  rw [s2]
  simp

lemma build_assessments_two (idx1 idx2 : Nat) (r1 r2 : Row)
    (h1 : get_str_value r1 (chars "assessmentCode") ≠ NULL_VALUE)
    (h1c : is_comment (get_str_value r1 (chars "assessmentCode")) = false)
    (h2 : get_str_value r2 (chars "assessmentCode") ≠ NULL_VALUE)
    (h2c : is_comment (get_str_value r2 (chars "assessmentCode")) = false)
    (heq : pyUpper (get_str_value r1 (chars "assessmentCode")) =
           pyUpper (get_str_value r2 (chars "assessmentCode"))) :
    build_assessments [(idx1, r1), (idx2, r2)] =
      ([(pyUpper (get_str_value r1 (chars "assessmentCode")),
         { row := idx1, sheet := chars "Assessments",
           assessmentCode := pyUpper (get_str_value r1 (chars "assessmentCode")),
           assessmentId := pyUpper (get_str_value r1 (chars "assessmentCode")),
           moduleCode := pyUpper (get_str_value r1 (chars "moduleCode")),
           isUserAssignable :=
             pyUpper (get_str_value r1 (chars "isUserAssignable")),
           name := get_str_value r1 (chars "name"),
           clientFriendlyName := get_str_value r1 (chars "clientFriendlyName"),
           description := get_str_value r1 (chars "description"),
           estimatedDuration := get_str_value r1 (chars "estimatedDuration") })],
       [{ sheet := chars "Assessments", row := some idx2,
          field := some (chars "assessmentCode"), severity := Severity.error,
          message := chars "Duplicate assessmentCode=\x27"
            ++ pyUpper (get_str_value r2 (chars "assessmentCode"))
            ++ chars "\x27" }])
    ∧ (build_assessments [(idx1, r1), (idx2, r2)]).1.lookup
        (pyUpper (get_str_value r2 (chars "assessmentCode"))) =
      some ({ row := idx1, sheet := chars "Assessments", assessmentCode := pyUpper (get_str_value r1 (chars "assessmentCode")), assessmentId := pyUpper (get_str_value r1 (chars "assessmentCode")), moduleCode := pyUpper (get_str_value r1 (chars "moduleCode")), isUserAssignable := pyUpper (get_str_value r1 (chars "isUserAssignable")), name := get_str_value r1 (chars "name"), clientFriendlyName := get_str_value r1 (chars "clientFriendlyName"), description := get_str_value r1 (chars "description"), estimatedDuration := get_str_value r1 (chars "estimatedDuration") } : AssessmentRec) := by
  have hb : build_assessments [(idx1, r1), (idx2, r2)] =
      ([(pyUpper (get_str_value r1 (chars "assessmentCode")),
         { row := idx1, sheet := chars "Assessments",
           assessmentCode := pyUpper (get_str_value r1 (chars "assessmentCode")),
           assessmentId := pyUpper (get_str_value r1 (chars "assessmentCode")),
           moduleCode := pyUpper (get_str_value r1 (chars "moduleCode")),
           isUserAssignable :=
             pyUpper (get_str_value r1 (chars "isUserAssignable")),
           name := get_str_value r1 (chars "name"),
           clientFriendlyName := get_str_value r1 (chars "clientFriendlyName"),
           description := get_str_value r1 (chars "description"),
           estimatedDuration := get_str_value r1 (chars "estimatedDuration") })],
       [{ sheet := chars "Assessments", row := some idx2,
          field := some (chars "assessmentCode"), severity := Severity.error,
          message := chars "Duplicate assessmentCode=\x27"
            ++ pyUpper (get_str_value r2 (chars "assessmentCode"))
            ++ chars "\x27" }]) := by
    unfold build_assessments
    rw [List.foldl_cons, List.foldl_cons, List.foldl_nil]
    unfold build_assessments_step
    rw [if_neg (c := _ = true) (by simp [h2, h2c]),
        if_neg (c := _ = true) (by simp [h1, h1c])]
    simp only [List.lookup_nil, List.nil_append, List.lookup_cons]
    rw [← heq]
    simp [List.lookup_cons]
  refine ⟨hb, ?_⟩
  rw [hb]
  simp [List.lookup_cons, heq]

lemma build_findings_two (idx1 idx2 : Nat) (r1 r2 : Row)
    (h1 : get_str_value r1 (chars "findingCode") ≠ NULL_VALUE)
    (h1c : is_comment (get_str_value r1 (chars "findingCode")) = false)
    (h2 : get_str_value r2 (chars "findingCode") ≠ NULL_VALUE)
    (h2c : is_comment (get_str_value r2 (chars "findingCode")) = false)
    (heq : pyUpper (get_str_value r1 (chars "findingCode")) =
           pyUpper (get_str_value r2 (chars "findingCode"))) :
    build_findings [(idx1, r1), (idx2, r2)] =
      ([(pyUpper (get_str_value r1 (chars "findingCode")),
         { row := idx1, sheet := chars "Findings",
           findingCode := pyUpper (get_str_value r1 (chars "findingCode")),
           name := get_str_value r1 (chars "name"),
           clientFriendlyName := get_str_value r1 (chars "clientFriendlyName"),
           icdCode := get_str_value r1 (chars "icdCode"),
           tags := get_str_value r1 (chars "tags") })],
       [{ sheet := chars "Findings", row := some idx2,
          field := some (chars "findingCode"), severity := Severity.error,
          message := chars "Duplicate findingCode=\x27"
            ++ pyUpper (get_str_value r2 (chars "findingCode"))
            ++ chars "\x27" }])
    ∧ (build_findings [(idx1, r1), (idx2, r2)]).1.lookup
        (pyUpper (get_str_value r2 (chars "findingCode"))) =
      some ({ row := idx1, sheet := chars "Findings", findingCode := pyUpper (get_str_value r1 (chars "findingCode")), name := get_str_value r1 (chars "name"), clientFriendlyName := get_str_value r1 (chars "clientFriendlyName"), icdCode := get_str_value r1 (chars "icdCode"), tags := get_str_value r1 (chars "tags") } : FindingRec) := by
  have hb : build_findings [(idx1, r1), (idx2, r2)] =
      ([(pyUpper (get_str_value r1 (chars "findingCode")),
         { row := idx1, sheet := chars "Findings",
           findingCode := pyUpper (get_str_value r1 (chars "findingCode")),
           name := get_str_value r1 (chars "name"),
           clientFriendlyName := get_str_value r1 (chars "clientFriendlyName"),
           icdCode := get_str_value r1 (chars "icdCode"),
           tags := get_str_value r1 (chars "tags") })],
       [{ sheet := chars "Findings", row := some idx2,
          field := some (chars "findingCode"), severity := Severity.error,
          message := chars "Duplicate findingCode=\x27"
            ++ pyUpper (get_str_value r2 (chars "findingCode"))
            ++ chars "\x27" }]) := by
    unfold build_findings
    rw [List.foldl_cons, List.foldl_cons, List.foldl_nil]
    unfold build_findings_step
    rw [if_neg (c := _ = true) (by simp [h2, h2c]),
        if_neg (c := _ = true) (by simp [h1, h1c])]
    simp only [List.lookup_nil, List.nil_append, List.lookup_cons]
    rw [← heq]
    simp [List.lookup_cons]
  refine ⟨hb, ?_⟩
  rw [hb]
  simp [List.lookup_cons, heq]


lemma build_modules_two (idx1 idx2 : Nat) (r1 r2 : Row)
    (h1 : get_str_value r1 (chars "moduleCode") ≠ NULL_VALUE)
    (h1c : is_comment (get_str_value r1 (chars "moduleCode")) = false)
    (h2 : get_str_value r2 (chars "moduleCode") ≠ NULL_VALUE)
    (h2c : is_comment (get_str_value r2 (chars "moduleCode")) = false)
    (heq : pyUpper (get_str_value r1 (chars "moduleCode")) =
           pyUpper (get_str_value r2 (chars "moduleCode"))) :
    build_modules [(idx1, r1), (idx2, r2)] =
      ([(pyUpper (get_str_value r1 (chars "moduleCode")),
         { row := idx1, sheet := chars "Modules",
           moduleCode := pyUpper (get_str_value r1 (chars "moduleCode")),
           isUserAssignable :=
             pyUpper (get_str_value r1 (chars "isUserAssignable")),
           name := get_str_value r1 (chars "name"),
           clientFriendlyName := get_str_value r1 (chars "clientFriendlyName"),
           description := get_str_value r1 (chars "description"),
           estimatedDuration := get_str_value r1 (chars "estimatedDuration") })],
       [{ sheet := chars "Modules", row := some idx2,
          field := some (chars "moduleCode"), severity := Severity.error,
          message := chars "Duplicate moduleCode=\x27"
            ++ pyUpper (get_str_value r2 (chars "moduleCode"))
            ++ chars "\x27" }])
    ∧ (build_modules [(idx1, r1), (idx2, r2)]).1.lookup
        (pyUpper (get_str_value r2 (chars "moduleCode"))) =
      some ({ row := idx1, sheet := chars "Modules", moduleCode := pyUpper (get_str_value r1 (chars "moduleCode")), isUserAssignable := pyUpper (get_str_value r1 (chars "isUserAssignable")), name := get_str_value r1 (chars "name"), clientFriendlyName := get_str_value r1 (chars "clientFriendlyName"), description := get_str_value r1 (chars "description"), estimatedDuration := get_str_value r1 (chars "estimatedDuration") } : ModuleRec) := by
  have hb : build_modules [(idx1, r1), (idx2, r2)] =
      ([(pyUpper (get_str_value r1 (chars "moduleCode")),
         { row := idx1, sheet := chars "Modules",
           moduleCode := pyUpper (get_str_value r1 (chars "moduleCode")),
           isUserAssignable :=
             pyUpper (get_str_value r1 (chars "isUserAssignable")),
           name := get_str_value r1 (chars "name"),
           clientFriendlyName := get_str_value r1 (chars "clientFriendlyName"),
           description := get_str_value r1 (chars "description"),
           estimatedDuration := get_str_value r1 (chars "estimatedDuration") })],
       [{ sheet := chars "Modules", row := some idx2,
          field := some (chars "moduleCode"), severity := Severity.error,
          message := chars "Duplicate moduleCode=\x27"
            ++ pyUpper (get_str_value r2 (chars "moduleCode"))
            ++ chars "\x27" }]) := by
    unfold build_modules
    rw [List.foldl_cons, List.foldl_cons, List.foldl_nil]
    unfold build_modules_step
    rw [if_neg (c := _ = true) (by simp [h2, h2c]),
        if_neg (c := _ = true) (by simp [h1, h1c])]
    simp only [List.lookup_nil, List.nil_append, List.lookup_cons]
    rw [← heq]
    simp [List.lookup_cons]
  refine ⟨hb, ?_⟩
  rw [hb]
  simp [List.lookup_cons, heq]

lemma build_enumerations_step_skip (sn : Str) (idx : Nat) (r : Row)
    (h : get_str_value r (chars "enumerationType") = NULL_VALUE
      ∨ is_comment (get_str_value r (chars "enumerationType")) = true)
    (a : List (Str × List EnumItem)) :
    build_enumerations_step sn a (idx, r) = a := by
  unfold build_enumerations_step
  rcases h with h | h <;> simp [h]

lemma build_findings_step_skip (idx : Nat) (r : Row)
    (h : get_str_value r (chars "findingCode") = NULL_VALUE
      ∨ is_comment (get_str_value r (chars "findingCode")) = true)
    (a : (List (Str × FindingRec)) × List ValidationIssue) :
    build_findings_step a (idx, r) = a := by
  unfold build_findings_step
  rcases h with h | h <;> simp [h]

lemma build_findings_relationships_step_skip (idx : Nat) (r : Row)
    (h : get_str_value r (chars "sourceFindingCode") = NULL_VALUE
      ∨ is_comment (get_str_value r (chars "sourceFindingCode")) = true)
    (a : List RelRec) :
    build_findings_relationships_step a (idx, r) = a := by
  unfold build_findings_relationships_step
  rcases h with h | h <;> simp [h]

lemma build_algorithms_step_skip (sn : Str) (idx : Nat) (r : Row)
    (h : get_str_value r (chars "algorithm") = NULL_VALUE
      ∨ is_comment (get_str_value r (chars "algorithm")) = true)
    (a : List AlgoRec) :
    build_algorithms_step sn a (idx, r) = a := by
  unfold build_algorithms_step
  rcases h with h | h
  · rw [if_pos (by
      rw [h]
      simp [show is_row_to_skip NULL_VALUE (chars "algorithm") = true
        from by decide])]
  · rw [if_pos (by simp [is_row_to_skip, h])]

/-! ## Claims -/

/-- C5: For every Fact row, range validation (the Level-2
`_validate_level_facts_row` checks and the api `_validate_level_facts`
range block) enforces: dataType INTEGER with a range matching digits-digits
passes with no range issue; dataType INTEGER with a missing range or a
malformed range yields exactly one range error; a non-INTEGER dataType
with a non-empty range yields exactly one range-not-allowed error; a
non-INTEGER dataType with an empty range yields no range issue.  (A row
skipped as an empty or comment row yields no issues at all.) -/
theorem claim_C5 (row : Row) (excel_row : Nat) (sheet_name : Str)
    (nodeIds factIds : List (Str × List Str))
    (enums : Option (List (Nat × Row)))
    (idx : Nat) (node_id data_type range_val : Str) :
    (fieldCount (chars "range")
        (validate_level_facts_row row excel_row sheet_name nodeIds factIds
          enums).2.2 =
      (if is_row_to_skip (pyUpper (get_str_value row (chars "assessmentId")))
          (chars "assessmentId") then 0
       else if pyUpper (get_str_value row (chars "dataType")) = chars "INTEGER" then
         if pyUpper (get_str_value row (chars "range")) = NULL_VALUE then 1
         else if rangeFormat (pyUpper (get_str_value row (chars "range"))) then 0
         else 1
       else if pyUpper (get_str_value row (chars "range")) ≠ NULL_VALUE then 1
       else 0))
    ∧ (errFieldCount (chars "range")
        (validate_level_facts_row row excel_row sheet_name nodeIds factIds
          enums).2.2 =
      (if is_row_to_skip (pyUpper (get_str_value row (chars "assessmentId")))
          (chars "assessmentId") then 0
       else if pyUpper (get_str_value row (chars "dataType")) = chars "INTEGER" then
         if pyUpper (get_str_value row (chars "range")) = NULL_VALUE then 1
         else if rangeFormat (pyUpper (get_str_value row (chars "range"))) then 0
         else 1
       else if pyUpper (get_str_value row (chars "range")) ≠ NULL_VALUE then 1
       else 0))
    ∧ (errFieldCount (chars "range")
        (api_range_issues sheet_name idx node_id data_type range_val) =
      (if data_type = chars "INTEGER" then
         if api_is_empty range_val then 1
         else if rangeFormat range_val then 0
         else 1
       else if api_is_empty range_val then 0
       else 1)) := by
  refine ⟨?_, ?_, ?_⟩
  · by_cases h : is_row_to_skip (pyUpper (get_str_value row (chars "assessmentId")))
        (chars "assessmentId")
    · simp [validate_level_facts_row, fieldCount, h]
    · cases enums <;>
      · simp only [validate_level_facts_row, h, Bool.false_eq_true, if_false]
        simp only [fieldCount_append, fieldCount_ite, fieldCount_single,
          fieldCount_nil]
        simp only [Option.some.injEq,
          show (chars "nodeId" = chars "range") = False by simp [chars],
          show (chars "factId" = chars "range") = False by simp [chars],
          show (chars "dataType" = chars "range") = False by simp [chars],
          show (chars "isDeterministic" = chars "range") = False by simp [chars],
          show (chars "factGroup" = chars "range") = False by simp [chars],
          show (chars "enumerationType" = chars "range") = False by simp [chars],
          show (chars "range" = chars "range") = True by simp,
          if_false, if_true, ite_self]
        simp only [beq_iff_eq, decide_eq_true_eq]
        split_ifs <;>
          simp_all [fieldCount_ite, fieldCount_single, fieldCount_nil,
            show (chars "ENUMERATION" = chars "INTEGER") = False by simp [chars],
            show (chars "enumerationType" = chars "range") = False by simp [chars]]
  · by_cases h : is_row_to_skip (pyUpper (get_str_value row (chars "assessmentId")))
        (chars "assessmentId")
    · simp [validate_level_facts_row, errFieldCount, h]
    · cases enums <;>
      · simp only [validate_level_facts_row, h, Bool.false_eq_true, if_false]
        simp only [errFieldCount_append, errFieldCount_ite, errFieldCount_single,
          errFieldCount_nil]
        simp only [Option.some.injEq,
          show (chars "nodeId" = chars "range") = False by simp [chars],
          show (chars "factId" = chars "range") = False by simp [chars],
          show (chars "dataType" = chars "range") = False by simp [chars],
          show (chars "isDeterministic" = chars "range") = False by simp [chars],
          show (chars "factGroup" = chars "range") = False by simp [chars],
          show (chars "enumerationType" = chars "range") = False by simp [chars],
          show (chars "range" = chars "range") = True by simp,
          if_false, if_true, ite_self, false_and, true_and, and_true]
        simp only [beq_iff_eq, decide_eq_true_eq]
        split_ifs <;>
          simp_all [errFieldCount_ite, errFieldCount_single, errFieldCount_nil,
            show (chars "ENUMERATION" = chars "INTEGER") = False by simp [chars],
            show (chars "enumerationType" = chars "range") = False by simp [chars]]
  · simp only [api_range_issues]
    simp only [errFieldCount_ite, errFieldCount_single, errFieldCount_nil,
      Option.some.injEq,
      show (chars "range" = chars "range") = True by simp,
      if_true, true_and, and_true]
    simp only [beq_iff_eq]
    split_ifs <;> simp_all

/-- C1 (counterexample): the claim's cardinality rule, with the target list
split on `|` or `,`, demands an error for an ENUMERATION node whose target
A,B,C has 3 elements while the referenced enumeration ET has 2 values
(3 is neither 1 nor 2); yet both target checks accept the row without any
issue: the Level-2 pass has no ENUMERATION cardinality rule, and the
Level-3 api check splits on `|` only, sees the single element "A,B,C" and
resolves it as a nodeId. -/
theorem claim_C1_counterexample :
    validate_level_facts_targets_row c1Row 2 (chars "Level 1 Facts")
        [(chars "ASM1", c1NodeIds)] = []
    ∧ api_validate_targets (chars "Level 1 Facts") 0 (chars "N1")
        (chars "ENUMERATION") (chars "ET") (chars "A,B,C") c1NodeIds c1Evs = []
    ∧ (splitTargets (chars "A,B,C")).length = 3
    ∧ ((c1Evs.lookup (chars "ET")).getD []).length = 2
    ∧ (3 : Nat) ≠ 1 ∧ (3 : Nat) ≠ 2 :=
  ⟨by decide, by decide, by decide, by decide, by decide, by decide⟩

/-- C1 (amended): the single-target rule for non-ENUMERATION nodes is
enforced by the Level-2 target pass, whose element count splits the target
on `|` when present and otherwise on `,`: it reports exactly one
single-target error iff the processed row's dataType is not ENUMERATION and
its target list has more than one element (never for ENUMERATION nodes).
The ENUMERATION cardinality rule is enforced only by the Level-3 api check,
which splits the target on `|` only: with a non-empty target it reports
exactly one cardinality error iff the node is an ENUMERATION node whose
enumeration type is catalogued and the `|`-split list has more than one
element and a length different from the enumeration's value count, and
exactly one single-target error iff the node is not an ENUMERATION node
and the `|`-split list has more than one element. -/
theorem claim_C1_amended (row : Row) (excel_row : Nat) (sheet_name : Str)
    (nodeIdsPA : List (Str × List Str)) (idx : Nat)
    (node_id data_type enum_type target : Str) (allNodeIds : List Str)
    (evs : List (Str × List EnumEntry)) :
    ((validate_level_facts_targets_row row excel_row sheet_name nodeIdsPA).countP
      (fun i => i.message == sheetCardMsg
        (pyUpper (get_str_value row (chars "assessmentId")))
        (pyUpper (get_str_value row (chars "nodeId")))
        (pyUpper (get_str_value row (chars "dataType")))) =
      (if ¬(is_row_to_skip (pyUpper (get_str_value row (chars "assessmentId")))
              (chars "assessmentId") = true
            ∨ pyUpper (get_str_value row (chars "target")) = NULL_VALUE)
          ∧ pyUpper (get_str_value row (chars "dataType")) ≠ chars "ENUMERATION"
          ∧ 1 < (splitTargets (pyUpper (get_str_value row (chars "target")))).length
       then 1 else 0))
    ∧ ((api_validate_targets sheet_name idx node_id data_type enum_type target
          allNodeIds evs).countP
        (fun i => i.message == as19Msg data_type) =
      (if api_is_empty target = false ∧ data_type ≠ chars "ENUMERATION"
          ∧ 1 < ((splitOnChar '|' target).map pyStrip).length
       then 1 else 0))
    ∧ ((api_validate_targets sheet_name idx node_id data_type enum_type target
          allNodeIds evs).countP
        (fun i => i.message == as18Msg enum_type
          ((evs.lookup enum_type).getD []).length) =
      (if api_is_empty target = false ∧ data_type = chars "ENUMERATION"
          ∧ (evs.lookup enum_type).isSome = true
          ∧ 1 < ((splitOnChar '|' target).map pyStrip).length
          ∧ ((splitOnChar '|' target).map pyStrip).length
              ≠ ((evs.lookup enum_type).getD []).length
       then 1 else 0)) :=
  ⟨sheet_card_count row excel_row sheet_name nodeIdsPA,
   api_as19_count sheet_name idx node_id data_type enum_type target allNodeIds evs,
   api_as18_count sheet_name idx node_id data_type enum_type target allNodeIds evs⟩


/-- C9: For every ValidationResult built from a fresh result by any
sequence of add_issue, merge and add_category calls, is_valid is false if
and only if at least one contained issue has severity "error"; adding a
warning or info issue never changes is_valid; and for every
ValidationCategory built by add_issue calls, the passed flag is false if
and only if error_count is positive, with error_count counting exactly the
error issues. -/
theorem claim_C9 :
    (∀ r : ValidationResult, ReachR r →
      (r.is_valid = false ↔ ∃ i ∈ r.issues, i.severity = Severity.error))
    ∧ (∀ (r : ValidationResult) (i : ValidationIssue),
        i.severity ≠ Severity.error → (r.add_issue i).is_valid = r.is_valid)
    ∧ (∀ c : ValidationCategory, ReachC c →
        ((c.passed = false ↔ 0 < c.error_count)
         ∧ c.error_count = c.issues.countP (fun i => i.severity == Severity.error))) :=
  ⟨fun _ h => reachR_inv h,
   fun _ i hi => by unfold ValidationResult.add_issue; rw [if_neg hi],
   fun _ h => reachC_inv h⟩

/-- C9 witness: a fresh result stays valid after a warning, turns invalid
after an error, and a category with one error issue has passed = false and
error_count = 1. -/
theorem claim_C9_witness :
    (((freshResult 1 0).add_issue c9WarnIssue).is_valid = true)
    ∧ ((((freshResult 1 0).add_issue c9WarnIssue).add_issue c9ErrIssue).is_valid
        = false)
    ∧ (((freshCategory (chars "Modules")).add_issue c9ErrIssue).passed = false)
    ∧ (((freshCategory (chars "Modules")).add_issue c9ErrIssue).error_count = 1) := by
  refine ⟨?_, ?_, ?_, ?_⟩
  · have h := claim_C9.1 _ (ReachR.add c9WarnIssue (ReachR.fresh 1 0))
    cases hv : ((freshResult 1 0).add_issue c9WarnIssue).is_valid
    · exfalso
      rcases h.mp hv with ⟨i, hi, hie⟩
      simp [freshResult, ValidationResult.add_issue] at hi
      rw [hi] at hie
      exact absurd hie (by decide)
    · rfl
  · exact (claim_C9.1 _ (ReachR.add c9ErrIssue (ReachR.add c9WarnIssue
      (ReachR.fresh 1 0)))).mpr ⟨c9ErrIssue, by decide, rfl⟩
  · exact (claim_C9.2.2 _ (ReachC.add c9ErrIssue
      (ReachC.fresh (chars "Modules")))).1.mpr (by decide)
  · exact ((claim_C9.2.2 _ (ReachC.add c9ErrIssue
      (ReachC.fresh (chars "Modules")))).2).trans (by decide)

/-- C2: For every assessment present in both the node groups and the
Assessment catalog, the duration pass sums the (dataType, isDeterministic)
duration-matrix entries over the assessment's nodes, rounds both bounds up
to whole minutes, and iff the assessment has no explicit estimatedDuration
it sets estimatedDuration to the computed range (a single value when the
rounded bounds coincide, per durationStr) and emits exactly one info issue
(the issues list is exactly one computed-duration info issue per assessment
with no explicit duration, in order); an assessment with an explicit
estimatedDuration is left unchanged with no issue, and running the pass a
second time changes nothing and emits no issues. -/
theorem claim_C2 (grouped : List (Str × GroupEntry))
    (assessments : List (Str × AssessmentRec))
    (hnd : (grouped.map Prod.fst).Nodup) :
    (∀ aid grp ar, (aid, grp) ∈ grouped → assessments.lookup aid = some ar →
      (calculate_assessment_durations grouped assessments).1.lookup aid =
        some (if durationNotSpecified ar.estimatedDuration then
          { ar with estimatedDuration := (durationStr
              (((nodeDurSum grp.nodes).1 + 59) / 60)
              (((nodeDurSum grp.nodes).2 + 59) / 60)) }
        else ar))
    ∧ ((calculate_assessment_durations grouped assessments).2
        = grouped.filterMap (specDurIssue assessments))
    ∧ (calculate_assessment_durations grouped
        (calculate_assessment_durations grouped assessments).1
        = ((calculate_assessment_durations grouped assessments).1, [])) := by
  refine ⟨?_, ?_, ?_⟩
  · intro aid grp ar hmem hlook
    unfold calculate_assessment_durations
    rw [durFold_lookup_mem grouped assessments [] hnd aid grp hmem, hlook]
    simp [specDurOutcome, groupDuration]
  · unfold calculate_assessment_durations
    simpa using durFold_issues grouped assessments [] hnd
  · unfold calculate_assessment_durations
    apply durFold_noop
    intro p hp ar hlook
    have hmem2 : (p.1, p.2) ∈ grouped := by rw [Prod.mk.eta]; exact hp
    have hchar := durFold_lookup_mem grouped assessments [] hnd p.1 p.2 hmem2
    rw [hchar] at hlook
    cases hl : assessments.lookup p.1 with
    | none => rw [hl] at hlook; cases hlook
    | some ar0 =>
        rw [hl] at hlook
        have har : specDurOutcome ar0 p.2 = ar := by
          injection hlook
        by_cases hn : durationNotSpecified ar0.estimatedDuration
        · rw [specDurOutcome, if_pos hn] at har
          rw [← har]
          simp [groupDuration, durationNotSpecified_durationStr]
        · rw [specDurOutcome, if_neg hn] at har
          rw [← har]
          simpa using hn

/-- C2 witness: a one-node ENUMERATION/TRUE assessment with no explicit
duration gets estimatedDuration "1 minute" with exactly one info issue, and
the pass is idempotent on the result. -/
theorem claim_C2_witness :
    ((calculate_assessment_durations c2Grouped c2Asmts).1.lookup (chars "A1") =
      some { c2Ar with estimatedDuration := chars "1 minute" })
    ∧ ((calculate_assessment_durations c2Grouped c2Asmts).2.length = 1)
    ∧ (calculate_assessment_durations c2Grouped
        (calculate_assessment_durations c2Grouped c2Asmts).1
        = ((calculate_assessment_durations c2Grouped c2Asmts).1, [])) := by
  have h := claim_C2 c2Grouped c2Asmts (by decide)
  refine ⟨?_, ?_, h.2.2⟩
  · have h1 := h.1 (chars "A1") c2Grp c2Ar (by decide) (by decide)
    rw [h1]
    decide
  · rw [h.2.1]
    decide

/-- C3: an algorithm expression referencing factGroup G1 twice, where the
enumeration type of the member facts has a value with no
derivedBooleanValue, gets TWO identical missing-boolean-mapping errors from
the api groups() loop — one per occurrence — refuting "exactly one
missing-boolean-mapping error for that group". -/
theorem claim_C3_counterexample :
    findQuotedRefs false (chars "groups") c3Expr = [chars "G1", chars "G1"]
    ∧ (api_group_check c3Expr [chars "G1"] c3Fd c3Ev 5).length = 2
    ∧ api_group_check c3Expr [chars "G1"] c3Fd c3Ev 5 =
        [missingMappingIssue 5 (chars "G1") (chars "F1") (chars "ET") (chars "V1"),
         missingMappingIssue 5 (chars "G1") (chars "F1") (chars "ET") (chars "V1")] := by
  decide

/-- C3 (amended): per CALL, the group scan reports exactly the first
missing boolean mapping and stops — the scan result is the mapped first
missing triple (factId, enumerationType, value) of the catalogue, Some iff
some member fact of the group has a catalogued enumeration type with a
value missing derivedBooleanValue — but the api loop calls the scan once
per groups() occurrence, so a group referenced k times yields k copies of
its one error, not one error per group. -/
theorem claim_C3_amended :
    (∀ (ev : List (Str × List EnumEntry)) (row : Nat) (g : Str)
        (fd : List (Str × FactData)),
      validate_group_boolean_mapping ev row g fd =
        ((specFirstMissing ev g fd).map
          (fun t => missingMappingIssue row g t.1 t.2.1 t.2.2)).toList)
    ∧ (∀ (ev : List (Str × List EnumEntry)) (g : Str)
        (fd : List (Str × FactData)),
      (specFirstMissing ev g fd).isSome = true ↔
        ∃ p ∈ fd, p.2.factGroup = g ∧ p.2.enumerationType ≠ []
          ∧ ∃ e ∈ (ev.lookup p.2.enumerationType).getD [],
              e.derivedBooleanValue = Option.none)
    ∧ (∀ (fg : List Str) (fd : List (Str × FactData))
        (ev : List (Str × List EnumEntry)) (row : Nat) (g : Str),
      fg.contains g = true →
      ∀ gm : List Str, (∀ g2 ∈ gm, g2 = g) →
        (api_validate_group_refs gm fg fd ev row).length =
          gm.length * (validate_group_boolean_mapping ev row g fd).length) :=
  ⟨group_scan_eq, specFirstMissing_isSome,
   fun fg fd ev row g hg => group_refs_all_same fg fd ev row g hg⟩

/-- C3 witness: the amended theorem instantiated at the counterexample data
with both hypotheses of the count conjunct discharged. -/
theorem claim_C3_witness :
    validate_group_boolean_mapping c3Ev 5 (chars "G1") c3Fd =
        ((specFirstMissing c3Ev (chars "G1") c3Fd).map
          (fun t => missingMappingIssue 5 (chars "G1") t.1 t.2.1 t.2.2)).toList
    ∧ (api_validate_group_refs [chars "G1", chars "G1"] [chars "G1"]
          c3Fd c3Ev 5).length =
        2 * (validate_group_boolean_mapping c3Ev 5 (chars "G1") c3Fd).length :=
  ⟨claim_C3_amended.1 c3Ev 5 (chars "G1") c3Fd,
   claim_C3_amended.2.2 [chars "G1"] c3Fd c3Ev 5 (chars "G1") (by decide)
     [chars "G1", chars "G1"] (by decide)⟩

/-- C4: the operator-misuse error of _validate_algorithm_terms is emitted
exactly once per algorithm iff the expression has a fact() reference and
some and/or clause contains both a fact( call and an ordering operator
(<, >, <=, >= but not ==/!=); the spec example with == comparisons to
TRUE/FALSE and known facts F1, F2 validates with no issues at all, and
turning the first == into < yields exactly the one misuse error. -/
theorem claim_C4 :
    (∀ (sheet_name : Str) (row : Nat) (algorithm : Str)
        (fids fgs : List Str),
      (validate_algorithm_terms sheet_name row algorithm fids fgs).countP
          (fun i => i.message == opMisuseMsg) =
        if (findQuotedRefs true (chars "fact") algorithm ≠ [])
            ∧ (splitBoundary algorithm).any
                (fun t => hasFactCall t && hasOrderingOp t) = true
        then 1 else 0)
    ∧ validate_algorithm_terms (chars "Algorithms") 4
        (chars "fact(\x27F1\x27) == TRUE and fact(\x27F2\x27) == FALSE")
        [chars "F1", chars "F2"] [] = []
    ∧ validate_algorithm_terms (chars "Algorithms") 4
        (chars "fact(\x27F1\x27) < TRUE and fact(\x27F2\x27) == FALSE")
        [chars "F1", chars "F2"] [] =
      [{ sheet := chars "Algorithms", row := some 4,
         field := some (chars "algorithm"), severity := Severity.error,
         message := opMisuseMsg }] :=
  ⟨algo_terms_op_count, by decide, by decide⟩

/-- C7: validate_field checks constraints in order with short-circuiting
on required-ness: (a) a required empty field yields exactly the one
required error and no further checks run; (b) an empty optional field
passes with no issues; (c) warnings arise exactly from a pattern mismatch
on a non-empty string field (one warning; every other issue is an error);
(d) a non-empty boolean field errs iff its upper-cased value is outside
\x7bTRUE, FALSE, YES, NO, 1, 0\x7d; (e) a non-empty integer field errs iff
int() would fail (optional sign, digits with single underscores between
digits); (f) with a unique column and existing values, a case-insensitive
(strip+upper) match against the existing values - excluding the row\x27s
own prior value when editing - yields exactly the one already-exists
error; (g) a non-empty string field with a nonzero max length errs iff the
rendered value is longer, with the characters-or-less message. -/
theorem claim_C7 :
    (∀ (fn : Str) (v : Cell) (sn : Str) (ex : List Cell) (ie : Bool)
        (ov : Cell) (cd : ColumnDefinition), cd.required = true →
      fieldValueEmpty (cleanCell v) = true →
      (validate_field fn v sn ex ie ov cd).issues =
        [{ sheet := sn, row := Option.none, field := some fn,
           severity := Severity.error,
           message := cd.display_name ++ chars " is required" }])
    ∧ (∀ (fn : Str) (v : Cell) (sn : Str) (ex : List Cell) (ie : Bool)
        (ov : Cell) (cd : ColumnDefinition), cd.required = false →
      fieldValueEmpty (cleanCell v) = true →
      (validate_field fn v sn ex ie ov cd).issues = [])
    ∧ (∀ (fn : Str) (v : Cell) (sn : Str) (ex : List Cell) (ie : Bool)
        (ov : Cell) (cd : ColumnDefinition),
      (validate_field fn v sn ex ie ov cd).issues.countP
          (fun i => i.severity == Severity.warning) =
        if (!fieldValueEmpty (cleanCell v)
            && (cd.data_type == chars "string")
            && (match cd.pattern with
                | some p => !p (svalOf (cleanCell v))
                | Option.none => false)) = true
        then 1 else 0)
    ∧ (∀ (fn : Str) (v : Cell) (sn : Str) (ex : List Cell) (ie : Bool)
        (ov : Cell) (cd : ColumnDefinition) (s : Str),
      cd.data_type = chars "boolean" → cd.unique = false →
      cleanCell v = Cell.str s →
      fieldValueEmpty (cleanCell v) = false →
      (validate_field fn v sn ex ie ov cd).issues =
        if [chars "TRUE", chars "FALSE", chars "YES", chars "NO",
            chars "1", chars "0"].contains (pyUpper s) then []
        else [{ sheet := sn, row := Option.none, field := some fn,
                severity := Severity.error,
                message := cd.display_name
                  ++ chars " must be a boolean value" }])
    ∧ (∀ (fn : Str) (v : Cell) (sn : Str) (ex : List Cell) (ie : Bool)
        (ov : Cell) (cd : ColumnDefinition),
      cd.data_type = chars "integer" → cd.unique = false →
      fieldValueEmpty (cleanCell v) = false →
      (validate_field fn v sn ex ie ov cd).issues =
        if cellIntParseable (cleanCell v) then []
        else [{ sheet := sn, row := Option.none, field := some fn,
                severity := Severity.error,
                message := cd.display_name ++ chars " must be an integer" }])
    ∧ (∀ (fn : Str) (v : Cell) (sn : Str) (ex : List Cell) (ie : Bool)
        (ov : Cell) (cd : ColumnDefinition),
      cd.data_type ≠ chars "string" → cd.data_type ≠ chars "boolean" →
      cd.data_type ≠ chars "integer" → cd.unique = true → ex ≠ [] →
      fieldValueEmpty (cleanCell v) = false →
      (validate_field fn v sn ex ie ov cd).issues =
        if (if ie && cellTruthy ov then
              ((ex.filter (fun w => w ≠ Cell.none)).map uniqueNorm).filter
                (fun w => w ≠ uniqueNorm ov)
            else (ex.filter (fun w => w ≠ Cell.none)).map uniqueNorm).contains
            (if cellTruthy (cleanCell v) then uniqueNorm (cleanCell v) else [])
        then [{ sheet := sn, row := Option.none, field := some fn,
                severity := Severity.error,
                message := cd.display_name ++ chars " \x27"
                  ++ pyStr (cleanCell v) ++ chars "\x27 already exists" }]
        else [])
    ∧ (∀ (fn : Str) (v : Cell) (sn : Str) (ex : List Cell) (ie : Bool)
        (ov : Cell) (cd : ColumnDefinition) (m : Nat),
      cd.data_type = chars "string" → cd.max_length = some m →
      cd.pattern = Option.none → cd.unique = false →
      fieldValueEmpty (cleanCell v) = false →
      (validate_field fn v sn ex ie ov cd).issues =
        if (decide (m ≠ 0) && decide ((svalOf (cleanCell v)).length > m)) = true
        then [{ sheet := sn, row := Option.none, field := some fn,
                severity := Severity.error,
                message := cd.display_name ++ chars " must be "
                  ++ natToChars m ++ chars " characters or less" }]
        else []) :=
  ⟨vf_required, vf_optional_empty, vf_warn_count, vf_boolean, vf_integer,
   vf_unique_check, vf_maxlen⟩

/-- C7 witness: each hypothesis-bearing conjunct instantiated at a
concrete field. -/
theorem claim_C7_witness :
    (validate_field (chars "name") Cell.none (chars "S") [] false Cell.none
        c7cdA).issues =
      [{ sheet := chars "S", row := Option.none, field := some (chars "name"),
         severity := Severity.error,
         message := c7cdA.display_name ++ chars " is required" }]
    ∧ (validate_field (chars "desc") (Cell.str (chars "  ")) (chars "S") []
        false Cell.none c7cdB).issues = []
    ∧ (validate_field (chars "flag") (Cell.str (chars "yes")) (chars "S") []
        false Cell.none c7cdD).issues =
      (if [chars "TRUE", chars "FALSE", chars "YES", chars "NO",
          chars "1", chars "0"].contains (pyUpper (chars "yes")) then []
       else [{ sheet := chars "S", row := Option.none,
               field := some (chars "flag"), severity := Severity.error,
               message := c7cdD.display_name
                 ++ chars " must be a boolean value" }])
    ∧ (validate_field (chars "count") (Cell.str (chars "12")) (chars "S") []
        false Cell.none c7cdE).issues =
      (if cellIntParseable (cleanCell (Cell.str (chars "12"))) then []
       else [{ sheet := chars "S", row := Option.none,
               field := some (chars "count"), severity := Severity.error,
               message := c7cdE.display_name ++ chars " must be an integer" }])
    ∧ (validate_field (chars "code") (Cell.str (chars " A1 ")) (chars "S")
        [Cell.str (chars "a1")] false Cell.none c7cdF).issues =
      (if (if false && cellTruthy Cell.none then
             (([Cell.str (chars "a1")].filter
                (fun w => w ≠ Cell.none)).map uniqueNorm).filter
               (fun w => w ≠ uniqueNorm Cell.none)
           else ([Cell.str (chars "a1")].filter
                (fun w => w ≠ Cell.none)).map uniqueNorm).contains
           (if cellTruthy (cleanCell (Cell.str (chars " A1 "))) then
             uniqueNorm (cleanCell (Cell.str (chars " A1 "))) else [])
       then [{ sheet := chars "S", row := Option.none,
               field := some (chars "code"), severity := Severity.error,
               message := c7cdF.display_name ++ chars " \x27"
                 ++ pyStr (cleanCell (Cell.str (chars " A1 ")))
                 ++ chars "\x27 already exists" }]
       else [])
    ∧ (validate_field (chars "name") (Cell.str (chars "abcd")) (chars "S") []
        false Cell.none c7cdG).issues =
      (if (decide ((3 : Nat) ≠ 0)
          && decide ((svalOf (cleanCell (Cell.str (chars "abcd")))).length > 3))
          = true
       then [{ sheet := chars "S", row := Option.none,
               field := some (chars "name"), severity := Severity.error,
               message := c7cdG.display_name ++ chars " must be "
                 ++ natToChars 3 ++ chars " characters or less" }]
       else []) :=
  ⟨claim_C7.1 (chars "name") Cell.none (chars "S") [] false Cell.none c7cdA
     (by decide) (by decide),
   (claim_C7.2.1) (chars "desc") (Cell.str (chars "  ")) (chars "S") []
     false Cell.none c7cdB (by decide) (by decide),
   (claim_C7.2.2.2.1) (chars "flag") (Cell.str (chars "yes")) (chars "S") []
     false Cell.none c7cdD (chars "yes") (by decide) (by decide) (by decide)
     (by decide),
   (claim_C7.2.2.2.2.1) (chars "count") (Cell.str (chars "12")) (chars "S")
     [] false Cell.none c7cdE (by decide) (by decide) (by decide),
   (claim_C7.2.2.2.2.2.1) (chars "code") (Cell.str (chars " A1 "))
     (chars "S") [Cell.str (chars "a1")] false Cell.none c7cdF (by decide)
     (by decide) (by decide) (by decide) (by decide) (by decide),
   (claim_C7.2.2.2.2.2.2) (chars "name") (Cell.str (chars "abcd"))
     (chars "S") [] false Cell.none c7cdG 3 (by decide) (by decide)
     rfl (by decide) (by decide)⟩

lemma add_issue_ts (r : ValidationResult) (n : Nat) (i : ValidationIssue) :
    ValidationResult.add_issue { r with timestamp := n } i =
      { r.add_issue i with timestamp := n } := rfl

lemma mergeWith_ts (r o : ValidationResult) (n : Nat) :
    ValidationResult.mergeWith { r with timestamp := n } o =
      { r.mergeWith o with timestamp := n } := rfl

lemma addIssues_ts (r : ValidationResult) (n : Nat)
    (xs : List ValidationIssue) :
    addIssues { r with timestamp := n } xs =
      { addIssues r xs with timestamp := n } := by
  induction xs generalizing r with
  | nil => rfl
  | cons x rest ih =>
      unfold addIssues at *
      rw [List.foldl_cons, List.foldl_cons, add_issue_ts, ih]

lemma sheet_step_ts (sn : Str) (ed : Option (List (Nat × Row)))
    (cds : List (Str × ColumnDefinition)) (ord : List Str) (pks : List Str)
    (st : SVState) (n : Nat) (ir : Nat × Row) :
    validate_sheet_step sn ed cds ord pks
        { st with result := { st.result with timestamp := n } } ir =
      (let st2 := validate_sheet_step sn ed cds ord pks st ir
       { st2 with result := { st2.result with timestamp := n } }) := by
  unfold validate_sheet_step
  split_ifs <;> simp [mergeWith_ts, addIssues_ts]

lemma sheet_fold_ts (sn : Str) (ed : Option (List (Nat × Row)))
    (cds : List (Str × ColumnDefinition)) (ord : List Str) (pks : List Str)
    (rows : List (Nat × Row)) :
    ∀ (st : SVState) (n : Nat),
    rows.foldl (validate_sheet_step sn ed cds ord pks)
        { st with result := { st.result with timestamp := n } } =
      (let st2 := rows.foldl (validate_sheet_step sn ed cds ord pks) st
       { st2 with result := { st2.result with timestamp := n } }) := by
  induction rows with
  | nil => intro st n; rfl
  | cons r rest ih =>
      intro st n
      rw [List.foldl_cons, List.foldl_cons, sheet_step_ts]
      exact ih _ n

lemma sheet_fold_ts0 (sn : Str) (ed : Option (List (Nat × Row)))
    (cds : List (Str × ColumnDefinition)) (ord : List Str) (pks : List Str)
    (S : List (Str × List Str)) (rows : List (Nat × Row)) (n : Nat) :
    rows.foldl (validate_sheet_step sn ed cds ord pks)
        { result := freshResult 2 n, seen := S, nodeIds := [], factIds := [], rels := [] } =
      (let st2 := rows.foldl (validate_sheet_step sn ed cds ord pks) { result := freshResult 2 0, seen := S, nodeIds := [], factIds := [], rels := [] }
       { st2 with result := { st2.result with timestamp := n } }) :=
  sheet_fold_ts sn ed cds ord pks rows { result := freshResult 2 0, seen := S, nodeIds := [], factIds := [], rels := [] } n

set_option maxRecDepth 2000 in
lemma validate_sheet_model_ts (sn : Str) (rows : List (Nat × Row))
    (ed : Option (List (Nat × Row)))
    (cds : List (Str × ColumnDefinition)) (ord : List Str) (n : Nat) :
    validate_sheet_model sn rows ed cds ord n =
      { validate_sheet_model sn rows ed cds ord 0 with timestamp := n } := by
  unfold validate_sheet_model
  unfold_let
  split_ifs <;> rw [sheet_fold_ts0] <;> simp [addIssues_ts]

/-- C8: validation over a snapshot is deterministic - the only run-varying
input of the embedded entry points is the construction timestamp (the
eval-based syntax test enters validate_model as the pure outcome function
of _test_algorithm_syntax, and the Level-1 schema as the column
definitions of the sheet), and both the issue list (severities, rows,
fields, order) and the validity flag of validate_sheet and validate_model
are independent of that timestamp, so two runs over the same snapshot
return the identical issue set. -/
theorem claim_C8 :
    (∀ (sn : Str) (rows : List (Nat × Row))
        (ed : Option (List (Nat × Row)))
        (cds : List (Str × ColumnDefinition)) (ord : List Str) (n1 n2 : Nat),
      (validate_sheet_model sn rows ed cds ord n1).issues =
        (validate_sheet_model sn rows ed cds ord n2).issues
      ∧ (validate_sheet_model sn rows ed cds ord n1).is_valid =
        (validate_sheet_model sn rows ed cds ord n2).is_valid)
    ∧ (∀ (session : List Sheet) (syntaxCheck : Str → Option Str)
        (n1 n2 : Nat),
      (validate_model_core session syntaxCheck n1).issues =
        (validate_model_core session syntaxCheck n2).issues
      ∧ (validate_model_core session syntaxCheck n1).is_valid =
        (validate_model_core session syntaxCheck n2).is_valid) := by
  constructor
  · intro sn rows ed cds ord n1 n2
    rw [validate_sheet_model_ts sn rows ed cds ord n1,
        validate_sheet_model_ts sn rows ed cds ord n2]
    exact ⟨rfl, rfl⟩
  · intro session syntaxCheck n1 n2
    exact ⟨rfl, rfl⟩

/-- C10: a row whose key field resolves to the <NULL> sentinel (missing,
empty after strip, or the literal) or to a comment (COMMENT/--/#, case
insensitive) is silently skipped by every Level-3 build - modules,
assessments, grouped nodes, enumerations, findings, findings
relationships and algorithms: deleting it from the frame changes neither
the built catalogs, namespaces and node lists nor the issues produced. -/
theorem claim_C10 :
    (∀ (pre post : List (Nat × Row)) (idx : Nat) (r : Row),
      (get_str_value r (chars "moduleCode") = NULL_VALUE
        ∨ is_comment (get_str_value r (chars "moduleCode")) = true) →
      build_modules (pre ++ (idx, r) :: post) = build_modules (pre ++ post))
    ∧ (∀ (pre post : List (Nat × Row)) (idx : Nat) (r : Row),
      (get_str_value r (chars "assessmentCode") = NULL_VALUE
        ∨ is_comment (get_str_value r (chars "assessmentCode")) = true) →
      build_assessments (pre ++ (idx, r) :: post) =
        build_assessments (pre ++ post))
    ∧ (∀ (st : GNState) (sn : Str) (pre post : List (Nat × Row)) (idx : Nat)
        (r : Row),
      (get_str_value r (chars "nodeId") = NULL_VALUE
        ∨ is_comment (get_str_value r (chars "nodeId")) = true) →
      build_grouped_nodes_sheet st sn (pre ++ (idx, r) :: post) =
        build_grouped_nodes_sheet st sn (pre ++ post))
    ∧ (∀ (acc : List (Str × List EnumItem)) (sn : Str)
        (pre post : List (Nat × Row)) (idx : Nat) (r : Row),
      (get_str_value r (chars "enumerationType") = NULL_VALUE
        ∨ is_comment (get_str_value r (chars "enumerationType")) = true) →
      build_enumerations_sheet acc sn (pre ++ (idx, r) :: post) =
        build_enumerations_sheet acc sn (pre ++ post))
    ∧ (∀ (pre post : List (Nat × Row)) (idx : Nat) (r : Row),
      (get_str_value r (chars "findingCode") = NULL_VALUE
        ∨ is_comment (get_str_value r (chars "findingCode")) = true) →
      build_findings (pre ++ (idx, r) :: post) =
        build_findings (pre ++ post))
    ∧ (∀ (pre post : List (Nat × Row)) (idx : Nat) (r : Row),
      (get_str_value r (chars "sourceFindingCode") = NULL_VALUE
        ∨ is_comment (get_str_value r (chars "sourceFindingCode")) = true) →
      build_findings_relationships (pre ++ (idx, r) :: post) =
        build_findings_relationships (pre ++ post))
    ∧ (∀ (acc : List AlgoRec) (sn : Str) (pre post : List (Nat × Row))
        (idx : Nat) (r : Row),
      (get_str_value r (chars "algorithm") = NULL_VALUE
        ∨ is_comment (get_str_value r (chars "algorithm")) = true) →
      build_algorithms_sheet acc sn (pre ++ (idx, r) :: post) =
        build_algorithms_sheet acc sn (pre ++ post)) := by
  refine ⟨?_, ?_, ?_, ?_, ?_, ?_, ?_⟩
  · intro pre post idx r h
    unfold build_modules
    exact foldl_skip _ _ (build_modules_step_skip idx r h) pre post _
  · intro pre post idx r h
    unfold build_assessments
    exact foldl_skip _ _ (build_assessments_step_skip idx r h) pre post _
  · intro st sn pre post idx r h
    unfold build_grouped_nodes_sheet
    exact foldl_skip _ _ (build_grouped_step_skip sn idx r h) pre post st
  · intro acc sn pre post idx r h
    unfold build_enumerations_sheet
    exact foldl_skip _ _ (build_enumerations_step_skip sn idx r h) pre post acc
  · intro pre post idx r h
    unfold build_findings
    exact foldl_skip _ _ (build_findings_step_skip idx r h) pre post _
  · intro pre post idx r h
    unfold build_findings_relationships
    exact foldl_skip _ _ (build_findings_relationships_step_skip idx r h)
      pre post _
  · intro acc sn pre post idx r h
    unfold build_algorithms_sheet
    exact foldl_skip _ _ (build_algorithms_step_skip sn idx r h) pre post acc

/-- C10 witness: the seven conjuncts instantiated at the concrete row
whose key fields are comments or the <NULL> sentinel. -/
theorem claim_C10_witness :
    build_modules ([] ++ (0, c10Row) :: []) = build_modules ([] ++ [])
    ∧ build_assessments ([] ++ (0, c10Row) :: []) =
        build_assessments ([] ++ [])
    ∧ build_grouped_nodes_sheet gnInit (chars "Level 0 Facts")
        ([] ++ (0, c10Row) :: []) =
      build_grouped_nodes_sheet gnInit (chars "Level 0 Facts") ([] ++ [])
    ∧ build_enumerations_sheet [] (chars "Enumerations")
        ([] ++ (0, c10Row) :: []) =
      build_enumerations_sheet [] (chars "Enumerations") ([] ++ [])
    ∧ build_findings ([] ++ (0, c10Row) :: []) = build_findings ([] ++ [])
    ∧ build_findings_relationships ([] ++ (0, c10Row) :: []) =
        build_findings_relationships ([] ++ [])
    ∧ build_algorithms_sheet [] (chars "Algorithms")
        ([] ++ (0, c10Row) :: []) =
      build_algorithms_sheet [] (chars "Algorithms") ([] ++ []) :=
  ⟨claim_C10.1 [] [] 0 c10Row (Or.inr (by decide)),
   claim_C10.2.1 [] [] 0 c10Row (Or.inl (by decide)),
   claim_C10.2.2.1 gnInit (chars "Level 0 Facts") [] [] 0 c10Row
     (Or.inr (by decide)),
   claim_C10.2.2.2.1 [] (chars "Enumerations") [] [] 0 c10Row
     (Or.inr (by decide)),
   claim_C10.2.2.2.2.1 [] [] 0 c10Row (Or.inl (by decide)),
   claim_C10.2.2.2.2.2.1 [] [] 0 c10Row (Or.inr (by decide)),
   claim_C10.2.2.2.2.2.2 [] (chars "Algorithms") [] [] 0 c10Row
     (Or.inl (by decide))⟩

/-- C6 counterexample: two Algorithms rows with the same algorithmId
(case-insensitively) get the one duplicate error from the sheet pass, but
_build_algorithms keeps BOTH rows - the second occurrence is not excluded
and flows into the downstream algorithm checks - refuting first-occurrence
-wins for the algorithmId key. -/
theorem claim_C6_counterexample :
    sheetDupIssues (chars "Algorithms") [(0, c6a1), (1, c6a2)] =
      [{ sheet := chars "Algorithms", row := some 3,
         field := some (chars "algorithmId"), severity := Severity.error,
         message := chars "Duplicate " ++ chars "algorithmId"
           ++ chars "=\x27" ++ chars "alg1" ++ chars "\x27 found" }]
    ∧ (build_algorithms [c6aSheet]).length = 2
    ∧ (build_algorithms [c6aSheet]).map (fun a => pyUpper a.algorithmId) =
      [chars "ALG1", chars "ALG1"]
    ∧ (build_algorithms [c6aSheet]).map (fun a => a.moduleCode) =
      [chars "M1", chars "M2"] := by
  decide


/-- C6 (amended): every declared unique key (moduleCode, assessmentCode,
findingCode, algorithmId) gets exactly one duplicate-key error from the
sheet pass, attached to the second occurrence, when two rows share the key
after trimming and uppercasing; the keyed Level-3 builders (_build_modules,
_build_assessments, _build_findings) additionally record one duplicate
error at the second row and keep the FIRST row\x27s record in their lookup
map, so downstream resolution returns the first occurrence - but the
Algorithms build keeps every row in a list with no duplicate check, so a
repeated algorithmId is NOT excluded there (see the counterexample). -/
theorem claim_C6_amended :
    (get_primary_key_columns (chars "Modules") = [chars "moduleCode"]
      ∧ get_primary_key_columns (chars "Assessments") =
          [chars "assessmentCode"]
      ∧ get_primary_key_columns (chars "Findings") = [chars "findingCode"]
      ∧ get_primary_key_columns (chars "Algorithms") = [chars "algorithmId"])
    ∧ (∀ (sn pk : Str), get_primary_key_columns sn = [pk] →
      ∀ (idx1 idx2 : Nat) (r1 r2 : Row),
      get_str_value r1 pk ≠ NULL_VALUE →
      is_comment (get_str_value r1 pk) = false →
      get_str_value r2 pk ≠ NULL_VALUE →
      is_comment (get_str_value r2 pk) = false →
      pyUpper (get_str_value r1 pk) = pyUpper (get_str_value r2 pk) →
      sheetDupIssues sn [(idx1, r1), (idx2, r2)] =
        [{ sheet := sn, row := some (idx2 + 2), field := some pk,
           severity := Severity.error,
           message := chars "Duplicate " ++ pk ++ chars "=\x27"
             ++ get_str_value r2 pk ++ chars "\x27 found" }])
    ∧ (∀ (idx1 idx2 : Nat) (r1 r2 : Row),
      get_str_value r1 (chars "moduleCode") ≠ NULL_VALUE →
      is_comment (get_str_value r1 (chars "moduleCode")) = false →
      get_str_value r2 (chars "moduleCode") ≠ NULL_VALUE →
      is_comment (get_str_value r2 (chars "moduleCode")) = false →
      pyUpper (get_str_value r1 (chars "moduleCode")) =
        pyUpper (get_str_value r2 (chars "moduleCode")) →
      build_modules [(idx1, r1), (idx2, r2)] =
        ([(pyUpper (get_str_value r1 (chars "moduleCode")),
           { row := idx1, sheet := chars "Modules",
             moduleCode := pyUpper (get_str_value r1 (chars "moduleCode")),
             isUserAssignable :=
               pyUpper (get_str_value r1 (chars "isUserAssignable")),
             name := get_str_value r1 (chars "name"),
             clientFriendlyName := get_str_value r1 (chars "clientFriendlyName"),
             description := get_str_value r1 (chars "description"),
             estimatedDuration := get_str_value r1 (chars "estimatedDuration") })],
         [{ sheet := chars "Modules", row := some idx2,
            field := some (chars "moduleCode"), severity := Severity.error,
            message := chars "Duplicate moduleCode=\x27"
              ++ pyUpper (get_str_value r2 (chars "moduleCode"))
              ++ chars "\x27" }])
      ∧ (build_modules [(idx1, r1), (idx2, r2)]).1.lookup
          (pyUpper (get_str_value r2 (chars "moduleCode"))) =
        some ({ row := idx1, sheet := chars "Modules", moduleCode := pyUpper (get_str_value r1 (chars "moduleCode")), isUserAssignable := pyUpper (get_str_value r1 (chars "isUserAssignable")), name := get_str_value r1 (chars "name"), clientFriendlyName := get_str_value r1 (chars "clientFriendlyName"), description := get_str_value r1 (chars "description"), estimatedDuration := get_str_value r1 (chars "estimatedDuration") } : ModuleRec))
    ∧ (∀ (idx1 idx2 : Nat) (r1 r2 : Row),
      get_str_value r1 (chars "assessmentCode") ≠ NULL_VALUE →
      is_comment (get_str_value r1 (chars "assessmentCode")) = false →
      get_str_value r2 (chars "assessmentCode") ≠ NULL_VALUE →
      is_comment (get_str_value r2 (chars "assessmentCode")) = false →
      pyUpper (get_str_value r1 (chars "assessmentCode")) =
        pyUpper (get_str_value r2 (chars "assessmentCode")) →
      build_assessments [(idx1, r1), (idx2, r2)] =
        ([(pyUpper (get_str_value r1 (chars "assessmentCode")),
           { row := idx1, sheet := chars "Assessments",
             assessmentCode := pyUpper (get_str_value r1 (chars "assessmentCode")),
             assessmentId := pyUpper (get_str_value r1 (chars "assessmentCode")),
             moduleCode := pyUpper (get_str_value r1 (chars "moduleCode")),
             isUserAssignable :=
               pyUpper (get_str_value r1 (chars "isUserAssignable")),
             name := get_str_value r1 (chars "name"),
             clientFriendlyName := get_str_value r1 (chars "clientFriendlyName"),
             description := get_str_value r1 (chars "description"),
             estimatedDuration := get_str_value r1 (chars "estimatedDuration") })],
         [{ sheet := chars "Assessments", row := some idx2,
            field := some (chars "assessmentCode"), severity := Severity.error,
            message := chars "Duplicate assessmentCode=\x27"
              ++ pyUpper (get_str_value r2 (chars "assessmentCode"))
              ++ chars "\x27" }])
      ∧ (build_assessments [(idx1, r1), (idx2, r2)]).1.lookup
          (pyUpper (get_str_value r2 (chars "assessmentCode"))) =
        some ({ row := idx1, sheet := chars "Assessments", assessmentCode := pyUpper (get_str_value r1 (chars "assessmentCode")), assessmentId := pyUpper (get_str_value r1 (chars "assessmentCode")), moduleCode := pyUpper (get_str_value r1 (chars "moduleCode")), isUserAssignable := pyUpper (get_str_value r1 (chars "isUserAssignable")), name := get_str_value r1 (chars "name"), clientFriendlyName := get_str_value r1 (chars "clientFriendlyName"), description := get_str_value r1 (chars "description"), estimatedDuration := get_str_value r1 (chars "estimatedDuration") } : AssessmentRec))
    ∧ (∀ (idx1 idx2 : Nat) (r1 r2 : Row),
      get_str_value r1 (chars "findingCode") ≠ NULL_VALUE →
      is_comment (get_str_value r1 (chars "findingCode")) = false →
      get_str_value r2 (chars "findingCode") ≠ NULL_VALUE →
      is_comment (get_str_value r2 (chars "findingCode")) = false →
      pyUpper (get_str_value r1 (chars "findingCode")) =
        pyUpper (get_str_value r2 (chars "findingCode")) →
      build_findings [(idx1, r1), (idx2, r2)] =
        ([(pyUpper (get_str_value r1 (chars "findingCode")),
           { row := idx1, sheet := chars "Findings",
             findingCode := pyUpper (get_str_value r1 (chars "findingCode")),
             name := get_str_value r1 (chars "name"),
             clientFriendlyName := get_str_value r1 (chars "clientFriendlyName"),
             icdCode := get_str_value r1 (chars "icdCode"),
             tags := get_str_value r1 (chars "tags") })],
         [{ sheet := chars "Findings", row := some idx2,
            field := some (chars "findingCode"), severity := Severity.error,
            message := chars "Duplicate findingCode=\x27"
              ++ pyUpper (get_str_value r2 (chars "findingCode"))
              ++ chars "\x27" }])
      ∧ (build_findings [(idx1, r1), (idx2, r2)]).1.lookup
          (pyUpper (get_str_value r2 (chars "findingCode"))) =
        some ({ row := idx1, sheet := chars "Findings", findingCode := pyUpper (get_str_value r1 (chars "findingCode")), name := get_str_value r1 (chars "name"), clientFriendlyName := get_str_value r1 (chars "clientFriendlyName"), icdCode := get_str_value r1 (chars "icdCode"), tags := get_str_value r1 (chars "tags") } : FindingRec)) :=
  ⟨⟨rfl, rfl, rfl, rfl⟩,
   fun sn pk hpk idx1 idx2 r1 r2 h1 h1c h2 h2c heq =>
     sheet_dup_two sn pk hpk idx1 idx2 r1 r2 h1 h1c h2 h2c heq,
   fun idx1 idx2 r1 r2 h1 h1c h2 h2c heq =>
     build_modules_two idx1 idx2 r1 r2 h1 h1c h2 h2c heq,
   fun idx1 idx2 r1 r2 h1 h1c h2 h2c heq =>
     build_assessments_two idx1 idx2 r1 r2 h1 h1c h2 h2c heq,
   fun idx1 idx2 r1 r2 h1 h1c h2 h2c heq =>
     build_findings_two idx1 idx2 r1 r2 h1 h1c h2 h2c heq⟩

/-- C6 witness: the amended theorem instantiated at concrete rows of the
four keyed tables. -/
theorem claim_C6_amended_witness :
    sheetDupIssues (chars "Algorithms") [(0, c6a1), (1, c6a2)] =
      [{ sheet := chars "Algorithms", row := some 3,
         field := some (chars "algorithmId"), severity := Severity.error,
         message := chars "Duplicate " ++ chars "algorithmId"
           ++ chars "=\x27" ++ get_str_value c6a2 (chars "algorithmId")
           ++ chars "\x27 found" }]
    ∧ (build_modules [(0, c6r1), (1, c6r2)]).1.lookup
        (pyUpper (get_str_value c6r2 (chars "moduleCode"))) =
      some ({ row := 0, sheet := chars "Modules", moduleCode := pyUpper (get_str_value c6r1 (chars "moduleCode")), isUserAssignable := pyUpper (get_str_value c6r1 (chars "isUserAssignable")), name := get_str_value c6r1 (chars "name"), clientFriendlyName := get_str_value c6r1 (chars "clientFriendlyName"), description := get_str_value c6r1 (chars "description"), estimatedDuration := get_str_value c6r1 (chars "estimatedDuration") } : ModuleRec)
    ∧ (build_assessments [(0, c6as1), (1, c6as2)]).1.lookup
        (pyUpper (get_str_value c6as2 (chars "assessmentCode"))) =
      some ({ row := 0, sheet := chars "Assessments", assessmentCode := pyUpper (get_str_value c6as1 (chars "assessmentCode")), assessmentId := pyUpper (get_str_value c6as1 (chars "assessmentCode")), moduleCode := pyUpper (get_str_value c6as1 (chars "moduleCode")), isUserAssignable := pyUpper (get_str_value c6as1 (chars "isUserAssignable")), name := get_str_value c6as1 (chars "name"), clientFriendlyName := get_str_value c6as1 (chars "clientFriendlyName"), description := get_str_value c6as1 (chars "description"), estimatedDuration := get_str_value c6as1 (chars "estimatedDuration") } : AssessmentRec)
    ∧ (build_findings [(0, c6f1), (1, c6f2)]).1.lookup
        (pyUpper (get_str_value c6f2 (chars "findingCode"))) =
      some ({ row := 0, sheet := chars "Findings", findingCode := pyUpper (get_str_value c6f1 (chars "findingCode")), name := get_str_value c6f1 (chars "name"), clientFriendlyName := get_str_value c6f1 (chars "clientFriendlyName"), icdCode := get_str_value c6f1 (chars "icdCode"), tags := get_str_value c6f1 (chars "tags") } : FindingRec) :=
  ⟨claim_C6_amended.2.1 (chars "Algorithms") (chars "algorithmId") rfl
     0 1 c6a1 c6a2 (by decide) (by decide) (by decide) (by decide)
     (by decide),
   (claim_C6_amended.2.2.1 0 1 c6r1 c6r2 (by decide) (by decide) (by decide)
     (by decide) (by decide)).2,
   (claim_C6_amended.2.2.2.1 0 1 c6as1 c6as2 (by decide) (by decide)
     (by decide) (by decide) (by decide)).2,
   (claim_C6_amended.2.2.2.2 0 1 c6f1 c6f2 (by decide) (by decide)
     (by decide) (by decide) (by decide)).2⟩

end Insight
